import Mathlib

/-!
# F1 lap-time viewer: the load sequencing of `js/f1-app.js`

A shallow embedding of the class `F1App`: the values the code reads from its
JSON payloads, the fields of the application object, the part of the page the
code looks up, and the methods that probe the mode, load the seasons, select a
season and a race, compare two drivers and load telemetry.

Conventions of the embedding.

* A method is a function from the world before the call to the world after it,
  together with the error the call threw, if any. An `await` is a point where
  the answer of the network is read from the environment; two calls never
  interleave.
* A callback handed to `setTimeout` or `requestAnimationFrame` is queued in the
  world and run by `runDeferred`.
* Numbers are rationals with the three non-finite values; where the code
  computes with doubles the rounding is explicit (`roundDouble`).
* A property read sees the own properties of a value, and a method of an array
  or a string is modelled where the source calls it. The read
  `allLapData[driver]` in `loadSampleLapTimes`, whose key is a driver code taken
  from the page, also sees what an object inherits from `Object.prototype`
  (`inheritedGet`): an inherited member is a built-in function, and the key
  `__proto__` names the prototype. The reads `f1Calendar[year]` see own
  properties only: a season named like a member of `Object.prototype` is
  outside the model.
* The conversion of a value that is not a string to a string (in a template
  literal, by `toString()`) is a parameter of the environment, like the
  conversion to a number, and is taken not to throw.
* The page is the part of the document the code looks up: two containers and
  the elements this file puts into them.
-/

namespace F1

/-! ## JavaScript values -/

/-- A JavaScript number: a finite value, an infinity or NaN. -/
inductive JsNum where
  | nan
  | posInf
  | negInf
  | fin (q : ℚ)
  deriving DecidableEq

/-- The comparison `n <= 0`. -/
def JsNum.leZero : JsNum → Bool
  | .fin q => decide (q ≤ 0)
  | .negInf => true
  | _ => false

/-- The comparison `n > 0`. -/
def JsNum.gtZero : JsNum → Bool
  | .fin q => decide (0 < q)
  | .posInf => true
  | _ => false

/-- The test `n === 0`. -/
def JsNum.isZero : JsNum → Bool
  | .fin q => decide (q = 0)
  | _ => false

/-- The smaller of two numbers, NaN if one is. -/
def JsNum.min : JsNum → JsNum → JsNum
  | .nan, _ => .nan
  | _, .nan => .nan
  | .negInf, _ => .negInf
  | _, .negInf => .negInf
  | .posInf, b => b
  | a, .posInf => a
  | .fin a, .fin b => .fin (if a ≤ b then a else b)

/-- The larger of two numbers, NaN if one is. -/
def JsNum.max : JsNum → JsNum → JsNum
  | .nan, _ => .nan
  | _, .nan => .nan
  | .posInf, _ => .posInf
  | _, .posInf => .posInf
  | .negInf, b => b
  | a, .negInf => a
  | .fin a, .fin b => .fin (if a ≤ b then b else a)

/-- A property key: an array index (a canonical numeric string below
`2^32 - 1`) or any other string. Objects enumerate index keys first, in
ascending order, then the other keys in insertion order. -/
inductive Key where
  | idx (n : Nat)
  | name (s : String)
  deriving DecidableEq

/-- The key a string denotes. -/
def Key.ofString (s : String) : Key :=
  match s.toNat? with
  | some n => if toString n = s ∧ n < 4294967295 then .idx n else .name s
  | none => .name s

/-- The string a key is enumerated as. -/
def Key.toString : Key → String
  | .idx n => ToString.toString n
  | .name s => s

/-- A value as `response.json()` or an object literal produces it, or a
built-in function an object inherits. An array holds its elements (`none` is a
hole) and its named properties; an object holds its own properties in
enumeration order; a built-in function is known by its `name` and its
`length`. -/
inductive JsValue where
  | undefined
  | null
  | bool (b : Bool)
  | num (n : JsNum)
  | str (s : String)
  | arr (items : List (Option JsValue)) (named : List (String × JsValue))
  | obj (props : List (Key × JsValue))
  | fn (name : String) (length : Nat)

/-- An error value: its constructor name and its `message`. -/
structure JsError where
  kind : String
  message : String
  deriving DecidableEq

/-- The error a property access on `undefined` or `null` throws, and a call of
a value that is not a function. -/
def typeError (message : String) : JsError := ⟨"TypeError", message⟩

/-- A finite number. -/
def JsValue.ofNat (n : Nat) : JsValue := .num (.fin n)

/-- The array a JSON array literal parses to. -/
def JsValue.array (xs : List JsValue) : JsValue := .arr (xs.map some) []

/-- Truthiness: what `!v` negates. -/
def JsValue.truthy : JsValue → Bool
  | .undefined => false
  | .null => false
  | .bool b => b
  | .num n => !(n.isZero || decide (n = .nan))
  | .str s => decide (s ≠ "")
  | .arr _ _ => true
  | .obj _ => true
  | .fn _ _ => true

/-- The test `typeof v === 'number'`. -/
def JsValue.isNumber : JsValue → Bool
  | .num _ => true
  | _ => false

/-- The test `typeof v === 'object'` (true of `null`). -/
def JsValue.typeofObject : JsValue → Bool
  | .null => true
  | .arr _ _ => true
  | .obj _ => true
  | _ => false

/-- The test `Array.isArray(v)`. -/
def JsValue.isArray : JsValue → Bool
  | .arr _ _ => true
  | _ => false

/-- The test `v === 0`. -/
def JsValue.strictZero : JsValue → Bool
  | .num n => n.isZero
  | _ => false

/-- The comparison `v > 0`; `toNumber` is the conversion JavaScript applies to
an operand that is not a number. -/
def JsValue.gtZero (toNumber : JsValue → JsNum) : JsValue → Bool
  | .num n => n.gtZero
  | v => (toNumber v).gtZero

/-- The expression `v || d`. -/
def JsValue.orElse (v d : JsValue) : JsValue := if v.truthy then v else d

/-- The own property `k` of a property list, `undefined` when absent. -/
def propGet (k : Key) : List (Key × JsValue) → JsValue
  | [] => .undefined
  | (k', v) :: rest => if k' = k then v else propGet k rest

/-- Whether `k` is enumerated before `k'` when `k` is new: an index precedes
every larger index and every name. -/
def Key.before : Key → Key → Bool
  | .idx n, .idx m => decide (n < m)
  | .idx _, .name _ => true
  | .name _, _ => false

/-- The assignment `o[k] = v` on the property list of an object: an existing
key keeps its place, a new index is inserted in ascending order before the
names, a new name is appended. -/
def propSet (k : Key) (v : JsValue) : List (Key × JsValue) → List (Key × JsValue)
  | [] => [(k, v)]
  | (k', v') :: rest =>
    if k' = k then (k, v) :: rest
    else if k.before k' then (k, v) :: (k', v') :: rest
    else (k', v') :: propSet k v rest

/-- The named property `s` of an array, `undefined` when absent. -/
def namedGet (s : String) : List (String × JsValue) → JsValue
  | [] => .undefined
  | (s', v) :: rest => if s' = s then v else namedGet s rest

/-- The assignment of a named property of an array. -/
def namedSet (s : String) (v : JsValue) : List (String × JsValue) → List (String × JsValue)
  | [] => [(s, v)]
  | (s', v') :: rest => if s' = s then (s, v) :: rest else (s', v') :: namedSet s v rest

/-- The assignment `a[i] = v` on the elements of an array: past the end the gap
is filled with holes. -/
def itemSet (i : Nat) (v : JsValue) (items : List (Option JsValue)) : List (Option JsValue) :=
  if i < items.length then items.set i (some v)
  else items ++ List.replicate (i - items.length) none ++ [some v]

/-- The length of a string in UTF-16 code units. -/
def utf16Length (s : String) : Nat :=
  (s.toList.map fun c => if c.val < 65536 then 1 else 2).sum

/-- The code units of a string; the two halves of a character outside the
basic plane are `none`. -/
def utf16Units (s : String) : List (Option Char) :=
  s.toList.flatMap fun c => if c.val < 65536 then [some c] else [none, none]

/-- The expression `v[k]` (and `v.k`), own properties only: a method a value
inherits from its prototype is called where the source calls it and is not
read here. Reading a property of `undefined` or `null` throws. A surrogate half
read from a string is returned as U+FFFD, a one-unit string like it. The own
properties of a built-in function the code can meet are `name` and `length`. -/
def JsValue.getProp (v : JsValue) (k : Key) : Except JsError JsValue :=
  match v with
  | .undefined => .error (typeError "Cannot read properties of undefined")
  | .null => .error (typeError "Cannot read properties of null")
  | .bool _ => .ok .undefined
  | .num _ => .ok .undefined
  | .str s =>
    match k with
    | .idx i =>
      match (utf16Units s).get? i with
      | some (some c) => .ok (.str (String.singleton c))
      | some none => .ok (.str (String.singleton (Char.ofNat 65533)))
      | none => .ok .undefined
    | .name n => if n = "length" then .ok (.ofNat (utf16Length s)) else .ok .undefined
  | .arr items named =>
    match k with
    | .idx i => .ok ((items.get? i).join.getD .undefined)
    | .name n => if n = "length" then .ok (.ofNat items.length) else .ok (namedGet n named)
  | .obj props => .ok (propGet k props)
  | .fn name length =>
    match k with
    | .idx _ => .ok .undefined
    | .name n =>
      if n = "name" then .ok (.str name)
      else if n = "length" then .ok (.ofNat length)
      else .ok .undefined

/-- The elements an array method (`forEach`, `filter`, `map`) visits: holes are
skipped. -/
def arrayElements (items : List (Option JsValue)) : List JsValue :=
  items.filterMap id

/-- The new length `a.length = v` asks for, if it is a valid one. -/
def validLength (toNumber : JsValue → JsNum) (v : JsValue) : Option Nat :=
  let n := match v with
    | .num n => n
    | w => toNumber w
  match n with
  | .fin q => if 0 ≤ q ∧ q.den = 1 ∧ q < 4294967296 then some q.num.toNat else none
  | _ => none

/-- The assignment `target[k] = v` in strict-mode code (a class body): it
throws on `undefined`, `null` and on a primitive. A built-in function keeps a
property assigned to it to itself: `name` and `length` cannot be written, and
no other property of a function is read by the code. -/
def JsValue.setProp (toNumber : JsValue → JsNum) (target : JsValue) (k : Key) (v : JsValue) :
    Except JsError JsValue :=
  match target with
  | .undefined => .error (typeError "Cannot set properties of undefined")
  | .null => .error (typeError "Cannot set properties of null")
  | .bool _ => .error (typeError "Cannot create property on boolean")
  | .num _ => .error (typeError "Cannot create property on number")
  | .str _ => .error (typeError "Cannot create property on string")
  | .obj props => .ok (.obj (propSet k v props))
  | .arr items named =>
    match k with
    | .idx i => .ok (.arr (itemSet i v items) named)
    | .name n =>
      if n = "length" then
        match validLength toNumber v with
        | some len =>
          .ok (.arr (items.take len ++ List.replicate (len - items.length) none) named)
        | none => .error ⟨"RangeError", "Invalid array length"⟩
      else .ok (.arr items (namedSet n v named))
  | .fn name length =>
    match k with
    | .idx _ => .ok (.fn name length)
    | .name n =>
      if n = "name" ∨ n = "length" then
        .error (typeError "Cannot assign to read only property of function")
      else .ok (.fn name length)

/-- The expression `v.name` where `v` is known to be truthy, so that the access
cannot throw. -/
def JsValue.field (v : JsValue) (name : String) : JsValue :=
  match v.getProp (.name name) with
  | .ok x => x
  | .error _ => .undefined

/-! ## Double arithmetic -/

/-- The exponent of the binade of `x`: the floor of its binary logarithm, and
`-1022` for a subnormal. -/
def binade (x : ℚ) : ℤ := max (Int.log 2 |x|) (-1022)

/-- The integer nearest to `q`, a tie going to the even one. -/
def roundHalfEven (q : ℚ) : ℤ :=
  let f := ⌊q⌋
  if q - f < 1 / 2 then f
  else if 1 / 2 < q - f then f + 1
  else if f % 2 = 0 then f else f + 1

/-- The double nearest to `x` (53 significant bits, ties to even), for `x`
below `2^1024` in magnitude. -/
def roundDouble (x : ℚ) : ℚ :=
  let u : ℚ := 2 ^ (binade x - 52)
  roundHalfEven (x / u) * u

/-- Whether `x` is a double. -/
def IsDouble (x : ℚ) : Prop := roundDouble x = x

instance (x : ℚ) : Decidable (IsDouble x) := inferInstanceAs (Decidable (roundDouble x = x))

/-- The sum `a + b` of two doubles. -/
def doubleAdd (a b : ℚ) : ℚ := roundDouble (a + b)

/-- The product `a * b` of two doubles. -/
def doubleMul (a b : ℚ) : ℚ := roundDouble (a * b)

/-! ## The application object, the page and the environment -/

/-- A point of a lap-time dataset: `x` is the lap number, `y` the lap time. -/
structure Point where
  x : JsValue
  y : JsValue

/-- A dataset of the lap chart. Its label is the driver's name followed by the
key of the entry in parentheses; its colour is the driver's or the default. -/
structure Dataset where
  driverName : JsValue
  driverCode : String
  data : List Point
  color : JsValue

/-- The lap chart `renderChart` builds: its datasets, the race and season of
its title, and whether it is built from remote data (then a click on a point
loads telemetry). -/
structure LapChart where
  datasets : List Dataset
  raceName : JsValue
  year : Option String
  isRealData : Bool

/-- The telemetry chart: the speed and throttle series over distance and the
range of the distance axis. -/
structure TelemetryChart where
  speed : List Point
  throttle : List Point
  xMin : JsNum
  xMax : JsNum

/-- The fields of `F1App` as the constructor declares them. `selectedYear` is
`none` for `null`; a year is a string, read from a `data-year` attribute. -/
structure App where
  selectedYear : Option String
  selectedRace : JsValue
  f1Calendar : JsValue
  lapChart : Option LapChart
  telemetryChart : Option TelemetryChart
  apiBaseUrl : String
  availableDrivers : JsValue
  useRealData : Bool
  isComparing : Bool
  isLoadingTelemetry : Bool

/-- A `select` element: the values of its options and the selected index. -/
structure Select where
  options : List String
  selectedIndex : Option Nat

/-- The `value` of a select: the value of the selected option, else empty. -/
def Select.value (s : Select) : String :=
  match s.selectedIndex with
  | some i => s.options.getD i ""
  | none => ""

/-- What a `.chart-section` element holds. -/
inductive ChartSectionBody where
  | canvas
  | loading (driver1 driver2 : String)
  | failed (message : String)

/-- What a `.telemetry-section` element holds. -/
inductive TelemetryBody where
  | empty
  | canvas
  | loading (driverCode : String) (lapNumber : JsValue)
  | failed (driverCode : String) (lapNumber : JsValue) (message : String)

/-- A child of one of the two containers the code fills. -/
inductive Kid where
  | loading (message : String)
  | error (message : String)
  | driverSection (driver1 driver2 : Select)
  | chartSection (body : ChartSectionBody)
  | telemetrySection (body : TelemetryBody)

/-- A link of the Grand Prix dropdown: a race, or the placeholder. -/
inductive GpLink where
  | race (r : JsValue)
  | placeholder

/-- The button of the Grand Prix dropdown. -/
structure GpButton where
  text : String
  disabled : Bool

/-- The elements the code looks up, `none` when the page lacks one. The
selects and the compare button are inside the block `createDriverSelector`
appends, `#lapChart` inside `.chart-section`, `#telemetryChart` inside
`.telemetry-section`; `#driver-selection-container` precedes
`#chart-container`. -/
structure Page where
  yearButton : Option String
  gpButton : Option GpButton
  gpDropdown : Option (List GpLink)
  analysisVisible : Option Bool
  driverSelection : Option (List Kid)
  chartContainer : Option (List Kid)

/-- A request the code sends. `race` is the value of `selectedRace.name`. -/
inductive Request where
  | health
  | years
  | races (year : String)
  | drivers (year : Option String) (race : JsValue)
  | lapTimes (year : Option String) (race : JsValue) (driver1 driver2 : String)
  | telemetry (year : Option String) (race : JsValue) (driver : String) (lap : JsValue)
  | calendarFile
  | lapTimesFile (year : Option String)

/-- A response: its status, and what `text()` and `json()` resolve to. -/
structure Response where
  status : Nat
  text : Except JsError String
  json : Except JsError JsValue

/-- The property `response.ok`. -/
def Response.ok (r : Response) : Bool := decide (200 ≤ r.status ∧ r.status ≤ 299)

/-- What `await fetch(...)` yields. -/
inductive FetchResult where
  | rejected (e : JsError)
  | response (r : Response)

/-- Whether a request failed: `fetch` rejected, or the response is not ok. -/
def FetchResult.failed : FetchResult → Bool
  | .rejected _ => true
  | .response resp => !resp.ok

/-- Whether a request yields no body: `fetch` rejected, or `json()` rejected. -/
def FetchResult.unreadable : FetchResult → Bool
  | .rejected _ => true
  | .response resp =>
    match resp.json with
    | .error _ => true
    | .ok _ => false

/-- The environment of a session: the answer to each request, the values
`Math.random` returns in order, the number a value that is not a number
converts to, and the string a value that is not a string converts to (the
conversion is taken not to throw). -/
structure Env where
  fetch : Request → FetchResult
  random : Nat → ℚ
  toNumber : JsValue → JsNum
  toStr : JsValue → String

/-- The string a template literal renders a value as, and `v.toString()` on a
value that has the method. -/
def Env.stringOf (env : Env) : JsValue → String
  | .str s => s
  | v => env.toStr v

/-- The number an argument of `Math.min` converts to. -/
def Env.numberOf (env : Env) : JsValue → JsNum
  | .num n => n
  | v => env.toNumber v

/-- The text the assignment `element.textContent = v` stores: `null` and
`undefined` clear it. -/
def Env.textOf (env : Env) : JsValue → String
  | .undefined => ""
  | .null => ""
  | v => env.stringOf v

/-- An effect a call leaves outside the application object and the page.
`console.log` output is not recorded. -/
inductive Effect where
  | consoleError (message : String)
  | alert (message : String)
  | fetch (req : Request)
  | chartCreated (canvasId : String)
  | chartDestroyed (canvasId : String)

/-- A callback waiting to run. -/
inductive Deferred where
  | lapChartTimer (lapData : JsValue) (driver1 driver2 : String) (isRealData : Bool)
  | telemetryTimer (telemetryData : JsValue)
  | telemetryFrame (telemetryData : JsValue)
  | driverDefaults

/-- The world a call runs in: the application object, the page, the effects so
far (oldest first), the callbacks waiting, and how many random numbers have
been drawn. -/
structure World where
  app : App
  page : Page
  trace : List Effect
  pending : List Deferred
  draws : Nat

/-- The outcome of a call: the world after it and the error it threw. -/
structure Res where
  world : World
  thrown : Option JsError

/-- A call that returns normally. -/
def done (w : World) : Res := ⟨w, none⟩

/-- A call that throws. -/
def raise (w : World) (e : JsError) : Res := ⟨w, some e⟩

/-- Sequencing: the second step runs unless the first threw. -/
def Res.andThen (r : Res) (f : World → Res) : Res :=
  match r.thrown with
  | none => f r.world
  | some _ => r

/-- A `catch` clause: the handler runs on the error the block threw, in the
world the block left. -/
def Res.catch (r : Res) (handler : JsError → World → Res) : Res :=
  match r.thrown with
  | none => r
  | some e => handler e r.world

/-- A `finally` clause that cannot throw: it runs on either outcome, which it
leaves as it is. -/
def Res.finally (r : Res) (cleanup : World → World) : Res := ⟨cleanup r.world, r.thrown⟩

/-- Records an effect. -/
def World.emit (w : World) (e : Effect) : World := { w with trace := w.trace ++ [e] }

/-- Queues a callback. -/
def World.defer (w : World) (d : Deferred) : World := { w with pending := w.pending ++ [d] }

/-! ## Looking up and filling the page -/

/-- The two containers the code fills. -/
inductive Container where
  | driverSelection
  | chart

/-- Replaces the first child `f` applies to; `none` when there is none. -/
def updateFirst (f : Kid → Option Kid) : List Kid → Option (List Kid)
  | [] => none
  | k :: ks =>
    match f k with
    | some k' => some (k' :: ks)
    | none => (updateFirst f ks).map (k :: ·)

/-- The children of both containers in document order. -/
def Page.kids (p : Page) : List Kid :=
  p.driverSelection.getD [] ++ p.chartContainer.getD []

/-- Replaces the first element of the document `f` applies to. -/
def Page.updateFirst (f : Kid → Option Kid) (p : Page) : Page :=
  match p.driverSelection.bind (F1.updateFirst f) with
  | some ks => { p with driverSelection := some ks }
  | none =>
    match p.chartContainer.bind (F1.updateFirst f) with
    | some ks => { p with chartContainer := some ks }
    | none => p

/-- The first select of a driver block. -/
def Kid.select1 : Kid → Option Select
  | .driverSection s _ => some s
  | _ => none

/-- The second select of a driver block. -/
def Kid.select2 : Kid → Option Select
  | .driverSection _ s => some s
  | _ => none

/-- Whether an element holds the canvas `#lapChart`. -/
def Kid.isLapCanvas : Kid → Bool
  | .chartSection .canvas => true
  | _ => false

/-- Whether an element has the class `chart-section`. -/
def Kid.isChartSection : Kid → Bool
  | .chartSection _ => true
  | _ => false

/-- Whether an element has the class `telemetry-section`. -/
def Kid.isTelemetrySection : Kid → Bool
  | .telemetrySection _ => true
  | _ => false

/-- Whether an element holds the canvas `#telemetryChart`. -/
def Kid.isTelemetryCanvas : Kid → Bool
  | .telemetrySection .canvas => true
  | _ => false

/-- A chart section with its `innerHTML` replaced. -/
def Kid.withChartBody (body : ChartSectionBody) : Kid → Option Kid
  | .chartSection _ => some (.chartSection body)
  | _ => none

/-- A telemetry section with its `innerHTML` replaced. -/
def Kid.withTelemetryBody (body : TelemetryBody) : Kid → Option Kid
  | .telemetrySection _ => some (.telemetrySection body)
  | _ => none

/-- The expression `document.getElementById('driver1')`. -/
def Page.driver1 (p : Page) : Option Select := p.kids.findSome? Kid.select1

/-- The expression `document.getElementById('driver2')`. -/
def Page.driver2 (p : Page) : Option Select := p.kids.findSome? Kid.select2

/-- Whether `document.getElementById('lapChart')` finds the canvas. -/
def Page.hasLapCanvas (p : Page) : Bool := p.kids.any Kid.isLapCanvas

/-- Whether `document.querySelector('.chart-section')` finds an element. -/
def Page.hasChartSection (p : Page) : Bool := p.kids.any Kid.isChartSection

/-- Assigns the `innerHTML` of the first `.chart-section` of the document. -/
def Page.setChartSection (body : ChartSectionBody) (p : Page) : Page :=
  p.updateFirst (Kid.withChartBody body)

/-- Whether `chartContainer.querySelector('.telemetry-section')` finds an
element. -/
def Page.hasTelemetrySection (p : Page) : Bool :=
  (p.chartContainer.getD []).any Kid.isTelemetrySection

/-- Assigns the `innerHTML` of the first `.telemetry-section` of the chart
container. -/
def Page.setTelemetrySection (body : TelemetryBody) (p : Page) : Page :=
  match p.chartContainer.bind (F1.updateFirst (Kid.withTelemetryBody body)) with
  | some ks => { p with chartContainer := some ks }
  | none => p

/-- Drops the first `.telemetry-section` of a list of children. -/
def removeTelemetrySection : List Kid → List Kid
  | [] => []
  | .telemetrySection _ :: ks => ks
  | k :: ks => k :: removeTelemetrySection ks

/-- Whether `document.getElementById('telemetryChart')` finds the canvas. -/
def Page.hasTelemetryCanvas (p : Page) : Bool := p.kids.any Kid.isTelemetryCanvas

/-- Removes the first element of class `loading` among the descendants: a
panel of `showLoading`, or the panel inside a telemetry section. -/
def removeLoading : List Kid → List Kid
  | [] => []
  | .loading _ :: ks => ks
  | .telemetrySection (.loading _ _) :: ks => .telemetrySection .empty :: ks
  | k :: ks => k :: removeLoading ks

/-- The children of a container, empty when the page lacks it. -/
def Page.kidsOf (p : Page) : Container → List Kid
  | .driverSelection => p.driverSelection.getD []
  | .chart => p.chartContainer.getD []

/-- Assigns the children of a container the caller holds. -/
def Page.setKids (p : Page) (c : Container) (ks : List Kid) : Page :=
  match c with
  | .driverSelection => { p with driverSelection := some ks }
  | .chart => { p with chartContainer := some ks }

/-- Replaces the page. -/
def World.setPage (w : World) (p : Page) : World := { w with page := p }

/-- Replaces the application object. -/
def World.setApp (w : World) (a : App) : World := { w with app := a }

/-- The method `getOrCreateChartContainer`: the container is appended to the
body when the page lacks it. -/
def getOrCreateChartContainer (w : World) : World :=
  match w.page.chartContainer with
  | some _ => w
  | none => w.setPage { w.page with chartContainer := some [] }

/-- The method `getDriverSelectionContainer`. -/
def getDriverSelectionContainer (w : World) : World × Container :=
  match w.page.driverSelection with
  | some _ => (w, .driverSelection)
  | none => (getOrCreateChartContainer w, .chart)

/-- The method `showLoading(message, container)` for a message that is not
empty; `container` is the element the caller passes, `none` when it passes
none or the lookup of an id fails. -/
def showLoading (message : String) (container : Option Container) (w : World) : World :=
  match container with
  | some c => w.setPage (w.page.setKids c [.loading message])
  | none =>
    let target := getDriverSelectionContainer w
    target.1.setPage (target.1.page.setKids target.2 [.loading message])

/-- The method `hideLoading(container)`. -/
def hideLoading (container : Option Container) (w : World) : World :=
  match container with
  | some c => w.setPage (w.page.setKids c (removeLoading (w.page.kidsOf c)))
  | none =>
    let target := getDriverSelectionContainer w
    target.1.setPage (target.1.page.setKids target.2 (removeLoading (target.1.page.kidsOf target.2)))

/-- The method `showError(message)`. -/
def showError (message : String) (w : World) : World :=
  let target := getDriverSelectionContainer w
  target.1.setPage (target.1.page.setKids target.2 [.error message])

/-- Destroys the lap chart, if there is one, and clears the field. -/
def destroyLapChart (w : World) : World :=
  match w.app.lapChart with
  | some _ => (w.emit (.chartDestroyed "lapChart")).setApp { w.app with lapChart := none }
  | none => w

/-- Destroys the telemetry chart, if there is one, and clears the field. -/
def destroyTelemetryChart (w : World) : World :=
  match w.app.telemetryChart with
  | some _ =>
    (w.emit (.chartDestroyed "telemetryChart")).setApp { w.app with telemetryChart := none }
  | none => w

/-! ## Selecting a season -/

/-- Assigns the text of the Grand Prix button, if the page has it. -/
def Page.setGpText (text : String) (p : Page) : Page :=
  { p with gpButton := p.gpButton.map fun b => { b with text := text } }

/-- Assigns the `disabled` flag of the Grand Prix button, if the page has it. -/
def Page.setGpDisabled (disabled : Bool) (p : Page) : Page :=
  { p with gpButton := p.gpButton.map fun b => { b with disabled := disabled } }

/-- The method `loadRaceSchedule(year)`: on a successful response the races are
stored under the year; every error is caught and logged. -/
def loadRaceSchedule (env : Env) (year : String) (w : World) : World :=
  let w := w.emit (.fetch (.races year))
  match env.fetch (.races year) with
  | .rejected _ => w.emit (.consoleError "Error loading race schedule")
  | .response resp =>
    if resp.ok then
      match resp.json with
      | .error _ => w.emit (.consoleError "Error loading race schedule")
      | .ok races =>
        match w.app.f1Calendar.setProp env.toNumber (Key.ofString year) races with
        | .ok calendar => w.setApp { w.app with f1Calendar := calendar }
        | .error _ => w.emit (.consoleError "Error loading race schedule")
    else w

/-- The loop of `populateGPDropdown`: one link per race, appended at the end of
its iteration; reading the name of a race that is `null` throws. -/
def appendRaceLinks (w : World) (links : List GpLink) : List JsValue → Res
  | [] => done (w.setPage { w.page with gpDropdown := some links })
  | race :: rest =>
    match race.getProp (.name "name") with
    | .error e => raise (w.setPage { w.page with gpDropdown := some links }) e
    | .ok _ => appendRaceLinks w (links ++ [.race race]) rest

/-- The method `populateGPDropdown(year)`. -/
def populateGPDropdown (env : Env) (year : String) (w : World) : Res :=
  match w.page.gpDropdown with
  | none => done w
  | some _ =>
    let w := w.setPage { w.page with gpDropdown := some [] }
    match w.app.f1Calendar.getProp (Key.ofString year) with
    | .error e => raise w e
    | .ok races =>
      if races.truthy && (races.field "length").gtZero env.toNumber then
        match races with
        | .arr items _ => appendRaceLinks w [] (arrayElements items)
        | _ => raise w (typeError "this.f1Calendar[year].forEach is not a function")
      else done (w.setPage { w.page with gpDropdown := some [.placeholder] })

/-- The `try` block of `selectYear`. -/
def selectYearTry (env : Env) (year : String) (w : World) : Res :=
  match w.app.f1Calendar.getProp (Key.ofString year) with
  | .error e => raise w e
  | .ok races =>
    let w :=
      if !races.truthy || (races.field "length").strictZero then
        if w.app.useRealData then loadRaceSchedule env year w else w
      else w
    (populateGPDropdown env year w).andThen fun w =>
      done (w.setPage (w.page.setGpText "🏁 Select Grand Prix"))

/-- The method `selectYear(year)`. -/
def selectYear (env : Env) (year : String) (w : World) : Res :=
  let w := w.setApp { w.app with selectedYear := some year }
  let w := w.setPage { w.page with yearButton := w.page.yearButton.map fun _ => "📅 " ++ year }
  let w := w.setPage ((w.page.setGpText "⏳ Loading Races...").setGpDisabled true)
  let r := ((selectYearTry env year w).catch fun _ w =>
    let w := w.emit (.consoleError "Error loading races:")
    done (w.setPage (w.page.setGpText "❌ Error Loading Races"))).finally fun w =>
    w.setPage (w.page.setGpDisabled false)
  r.andThen fun w =>
    let w := w.setApp { w.app with selectedRace := .null }
    let w := w.setPage (w.page.setGpText "🏁 Select Grand Prix")
    done (w.setPage { w.page with analysisVisible := w.page.analysisVisible.map fun _ => false })

/-! ## Starting up -/

/-- The fields the constructor assigns before it calls `init`; `apiBaseUrl` is
what `detectApiUrl` returned. -/
def newApp (apiBaseUrl : String) : App :=
  { selectedYear := none
    selectedRace := .null
    f1Calendar := .obj []
    lapChart := none
    telemetryChart := none
    apiBaseUrl := apiBaseUrl
    availableDrivers := .array []
    useRealData := false
    isComparing := false
    isLoadingTelemetry := false }

/-- The method `testApiConnection`: a response that is ok sets `useRealData`,
a rejected request clears it, any other response leaves it as it is. -/
def testApiConnection (env : Env) (w : World) : World :=
  let w := w.emit (.fetch .health)
  match env.fetch .health with
  | .rejected _ => w.setApp { w.app with useRealData := false }
  | .response resp =>
    if resp.ok then w.setApp { w.app with useRealData := true } else w

/-- One race of the calendar literal in `loadF1CalendarFallback`. -/
def builtinRace (name location : String) : JsValue :=
  .obj [(.name "round", .ofNat 1), (.name "name", .str name), (.name "location", .str location)]

/-- The calendar literal in the `catch` clause of `loadF1CalendarFallback`;
its keys are indices, so they are enumerated in ascending order. -/
def builtinCalendar : JsValue :=
  .obj [
    (.idx 2020, .array [builtinRace "Austrian Grand Prix" "Spielberg"]),
    (.idx 2021, .array [builtinRace "Bahrain Grand Prix" "Sakhir"]),
    (.idx 2022, .array [builtinRace "Bahrain Grand Prix" "Sakhir"])]

/-- The method `loadF1CalendarFallback`: the body of the bundled file is
stored, whatever the status of the response; when the request or the parsing
throws, the error is logged and the calendar literal is stored. -/
def loadF1CalendarFallback (env : Env) (w : World) : World :=
  let w := w.emit (.fetch .calendarFile)
  match env.fetch .calendarFile with
  | .rejected _ =>
    (w.emit (.consoleError "Error loading F1 calendar")).setApp
      { w.app with f1Calendar := builtinCalendar }
  | .response resp =>
    match resp.json with
    | .error _ =>
      (w.emit (.consoleError "Error loading F1 calendar")).setApp
        { w.app with f1Calendar := builtinCalendar }
    | .ok calendar => w.setApp { w.app with f1Calendar := calendar }

/-- The values `for (const x of v)` visits: the elements of an array (a hole
as `undefined`), the characters of a string; any other value a response body
parses to is not iterable. -/
def iterate : JsValue → Except JsError (List JsValue)
  | .arr items _ => .ok (items.map fun x => x.getD .undefined)
  | .str s => .ok (s.toList.map fun c => .str (String.singleton c))
  | _ => .error (typeError "years is not iterable")

/-- The loop of `loadAvailableYears`: `this.f1Calendar[year.toString()] = []`
for each year; the call throws on `undefined` and `null`. -/
def addYears (env : Env) (w : World) : List JsValue → Res
  | [] => done w
  | .undefined :: _ => raise w (typeError "Cannot read properties of undefined (reading 'toString')")
  | .null :: _ => raise w (typeError "Cannot read properties of null (reading 'toString')")
  | year :: rest =>
    match w.app.f1Calendar.setProp env.toNumber (Key.ofString (env.stringOf year)) (.array []) with
    | .error e => raise w e
    | .ok calendar => addYears env (w.setApp { w.app with f1Calendar := calendar }) rest

/-- The `try` block of `loadAvailableYears`; the status of the response is not
looked at. -/
def loadRealYearsTry (env : Env) (w : World) : Res :=
  let w := w.emit (.fetch .years)
  match env.fetch .years with
  | .rejected e => raise w e
  | .response resp =>
    match resp.json with
    | .error e => raise w e
    | .ok years =>
      let w := w.setApp { w.app with f1Calendar := .obj [] }
      match iterate years with
      | .error e => raise w e
      | .ok items => addYears env w items

/-- The method `loadAvailableYears`: in REMOTE mode the season list is asked
for and the method returns when that succeeds; when it throws, and in FALLBACK
mode, the bundled calendar is loaded. -/
def loadAvailableYears (env : Env) (w : World) : World :=
  if w.app.useRealData then
    match (loadRealYearsTry env w).thrown with
    | none => (loadRealYearsTry env w).world
    | some _ =>
      loadF1CalendarFallback env
        ((loadRealYearsTry env w).world.emit
          (.consoleError "Failed to load real years, using fallback"))
  else loadF1CalendarFallback env w

/-! ## Selecting a race -/

/-- The test `!!this.selectedYear`: `null` and the empty string are falsy. -/
def yearTruthy : Option String → Bool
  | some year => decide (year ≠ "")
  | none => false

/-- The text `${this.selectedYear}` renders. -/
def yearText : Option String → String
  | some year => year
  | none => "null"

/-- One driver of the list `getDefaultDrivers` returns. -/
def builtinDriver (code name team : String) : JsValue :=
  .obj [(.name "code", .str code), (.name "name", .str name), (.name "team", .str team)]

/-- The method `getDefaultDrivers`. -/
def getDefaultDrivers : JsValue :=
  .array [
    builtinDriver "HAM" "Lewis Hamilton" "Mercedes",
    builtinDriver "RUS" "George Russell" "Mercedes",
    builtinDriver "VER" "Max Verstappen" "Red Bull",
    builtinDriver "PER" "Sergio Pérez" "Red Bull",
    builtinDriver "LEC" "Charles Leclerc" "Ferrari",
    builtinDriver "SAI" "Carlos Sainz" "Ferrari",
    builtinDriver "NOR" "Lando Norris" "McLaren",
    builtinDriver "RIC" "Daniel Ricciardo" "McLaren"]

/-- The method `loadAvailableDrivers`: it returns at once without a season, a
race or REMOTE mode; else the body of a response that is ok is stored, and the
built-in list on any failure. -/
def loadAvailableDrivers (env : Env) (w : World) : World :=
  if !yearTruthy w.app.selectedYear || !w.app.selectedRace.truthy || !w.app.useRealData then w
  else
    let req := Request.drivers w.app.selectedYear (w.app.selectedRace.field "name")
    let w := w.emit (.fetch req)
    match env.fetch req with
    | .rejected _ => w.setApp { w.app with availableDrivers := getDefaultDrivers }
    | .response resp =>
      if resp.ok then
        match resp.json with
        | .error _ => w.setApp { w.app with availableDrivers := getDefaultDrivers }
        | .ok drivers => w.setApp { w.app with availableDrivers := drivers }
      else w.setApp { w.app with availableDrivers := getDefaultDrivers }

/-- The callback of `getDriverOptions`: the value of the option of one driver;
reading a property of a driver that is `null` throws. -/
def driverOption (env : Env) (driver : JsValue) : Except JsError String :=
  match driver.getProp (.name "code") with
  | .error e => .error e
  | .ok code => .ok (env.stringOf code)

/-- The method `getDriverOptions`, as the values of the options the markup
parses to (characters that are markup are not modelled): the placeholder with
the empty value when the list has length 0, else one option per element. A list
that is not an array has no `map`. -/
def getDriverOptions (env : Env) (drivers : JsValue) : Except JsError (List String) :=
  match drivers.getProp (.name "length") with
  | .error e => .error e
  | .ok len =>
    if len.strictZero then .ok [""]
    else
      match drivers with
      | .arr items _ => (arrayElements items).mapM (driverOption env)
      | _ => .error (typeError "this.availableDrivers.map is not a function")

/-- The method `createDriverSelector`: the container is emptied, the block with
the two selects and the compare button is appended (each select shows its first
option), and the defaults are set by a timer. -/
def createDriverSelector (env : Env) (w : World) : Res :=
  let target := getDriverSelectionContainer w
  let w := target.1.setPage (target.1.page.setKids target.2 [])
  match getDriverOptions env w.app.availableDrivers with
  | .error e => raise w e
  | .ok options =>
    let select : Select := ⟨options, if options.isEmpty then none else some 0⟩
    done ((w.setPage (w.page.setKids target.2 [.driverSection select select])).defer
      .driverDefaults)

/-- The conversion of a number to a 32-bit integer an index setter applies. -/
def toInt32 : JsNum → Int
  | .fin q =>
    let m := (if 0 ≤ q then ⌊q⌋ else ⌈q⌉) % 4294967296
    if 2147483648 ≤ m then m - 4294967296 else m
  | _ => 0

/-- The assignment `select.selectedIndex = n`: an index without an option
leaves nothing selected. -/
def Select.setIndex (s : Select) (n : Int) : Select :=
  { s with selectedIndex := if 0 ≤ n ∧ n.toNat < s.options.length then some n.toNat else none }

/-- The expression `n - 1` on numbers. -/
def JsNum.pred : JsNum → JsNum
  | .fin q => .fin (roundDouble (q - 1))
  | n => n

/-- The block of the two selects with the default of the first one set. -/
def Kid.withFirstDefault : Kid → Option Kid
  | .driverSection s1 s2 => some (.driverSection (s1.setIndex 0) s2)
  | _ => none

/-- The block of the two selects with the defaults of the timer set. -/
def Kid.withDefaults (second : Int) : Kid → Option Kid
  | .driverSection s1 s2 => some (.driverSection (s1.setIndex 0) (s2.setIndex second))
  | _ => none

/-- The callback `createDriverSelector` hands to `setTimeout`: when the page
has both selects the first shows its first option and the second the option
`Math.min(1, this.availableDrivers.length - 1)`; then `setupCompareButton`
installs the click handler. -/
def driverDefaults (env : Env) (w : World) : Res :=
  match w.page.driver1, w.page.driver2 with
  | some _, some _ =>
    match w.app.availableDrivers.getProp (.name "length") with
    | .error e => raise (w.setPage (w.page.updateFirst Kid.withFirstDefault)) e
    | .ok len =>
      let second := toInt32 ((JsNum.fin 1).min (env.numberOf len).pred)
      done (w.setPage (w.page.updateFirst (Kid.withDefaults second)))
  | _, _ => done w

/-- The method `loadRaceData`: it returns at once without a season or a race;
else the loading panel is shown in `#driver-selection-container`, if the page
has it, and the driver block is built; an error of that is logged and shown. -/
def loadRaceData (env : Env) (w : World) : World :=
  if !yearTruthy w.app.selectedYear || !w.app.selectedRace.truthy then w
  else
    let w :=
      match w.page.driverSelection with
      | some _ =>
        showLoading ("🏗️ Setting up " ++ env.stringOf (w.app.selectedRace.field "name") ++
          " analysis...") (some .driverSelection) w
      | none => w
    ((createDriverSelector env w).catch fun _ v =>
      done (showError "Failed to setup race interface"
        (v.emit (.consoleError "Error setting up race interface")))).world

/-- The statements of `selectRace` before its `try` block: the race is stored,
the button of the Grand Prix dropdown shows its name, the analysis section is
made visible and the loading panel is shown. The name is read only where the
page has the element; reading it throws when the race is `null`. -/
def selectRaceHead (env : Env) (race : JsValue) (w : World) : Res :=
  let w := w.setApp { w.app with selectedRace := race }
  let r : Res :=
    match w.page.gpButton with
    | some _ =>
      match race.getProp (.name "name") with
      | .error e => raise w e
      | .ok name => done (w.setPage (w.page.setGpText (env.textOf name)))
    | none => done w
  r.andThen fun w =>
    let w := w.setPage { w.page with analysisVisible := w.page.analysisVisible.map fun _ => true }
    match w.page.driverSelection with
    | some _ =>
      match race.getProp (.name "name") with
      | .error e => raise w e
      | .ok name =>
        done (showLoading ("🏎️ Loading " ++ env.stringOf name ++ " " ++
          yearText w.app.selectedYear ++ "...") (some .driverSelection) w)
    | none => done w

/-- The method `selectRace(race)`: in REMOTE mode the driver list is loaded,
then the driver block is built; an error of the `try` block is logged and
shown. -/
def selectRace (env : Env) (race : JsValue) (w : World) : Res :=
  (selectRaceHead env race w).andThen fun w =>
    (done (loadRaceData env (if w.app.useRealData then loadAvailableDrivers env w else w))).catch
      fun _ v =>
        match race.getProp (.name "name") with
        | .error e => raise (v.emit (.consoleError "Error loading race data")) e
        | .ok name =>
          done (showError ("Failed to load " ++ env.stringOf name ++ " data")
            (v.emit (.consoleError "Error loading race data")))

/-! ## The lap chart -/

/-- The method `createLapChart`: the container is emptied, then the chart
section is built (its heading reads `selectedRace.name`) and appended. -/
def createLapChart (w : World) : Res :=
  let w := getOrCreateChartContainer w
  let w := w.setPage (w.page.setKids .chart [])
  match w.app.selectedRace.getProp (.name "name") with
  | .error e => raise w e
  | .ok _ => done (w.setPage (w.page.setKids .chart [.chartSection .canvas]))

/-- The filter of `renderChart`: `lap && typeof lap.lap === 'number' &&
typeof lap.time === 'number' && lap.time > 0`. -/
def validLap (lap : JsValue) : Bool :=
  lap.truthy && (lap.field "lap").isNumber &&
    match lap.field "time" with
    | .num time => time.gtZero
    | _ => false

/-- The body of the loop of `renderChart` for one key: the dataset it pushes,
if any. -/
def datasetOf (driverCode : String) (driverData : JsValue) : Option Dataset :=
  if !driverData.truthy || !(driverData.field "driver").truthy ||
      !(driverData.field "laps").isArray then none
  else
    match driverData.field "laps" with
    | .arr items _ =>
      let validLaps := (arrayElements items).filter validLap
      if validLaps.length = 0 then none
      else some
        { driverName := (driverData.field "driver").field "name"
          driverCode := driverCode
          data := validLaps.map fun lap => ⟨lap.field "lap", lap.field "time"⟩
          color := ((driverData.field "driver").field "color").orElse (.str "#CCCCCC") }
    | _ => none

/-- The pairs `Object.keys(lapData)` enumerates, each key with `lapData[key]`,
for a value that is an object or an array. -/
def ownEntries : JsValue → List (String × JsValue)
  | .obj props => props.map fun kv => (kv.1.toString, propGet kv.1 props)
  | .arr items named =>
    (items.enum.filterMap fun iv => iv.2.map fun v => (toString iv.1, v)) ++
      named.map fun kv => (kv.1, namedGet kv.1 named)
  | _ => []

/-- The datasets `renderChart` collects from a payload. -/
def buildDatasets (lapData : JsValue) : List Dataset :=
  (ownEntries lapData).filterMap fun kv => datasetOf kv.1 kv.2

/-- The method `renderChart`, called on an object or an array: without a
dataset it alerts and returns; else the chart is built, its title reading
`selectedRace.name`, and stored. -/
def renderChart (lapData : JsValue) (_driver1 _driver2 : String) (isRealData : Bool)
    (w : World) : Res :=
  let datasets := buildDatasets lapData
  if datasets.length = 0 then
    done (w.emit (.alert "No valid lap data found. Please try different drivers."))
  else
    match w.app.selectedRace.getProp (.name "name") with
    | .error e => raise w e
    | .ok raceName =>
      let w := w.emit (.chartCreated "lapChart")
      done (w.setApp { w.app with
        lapChart := some ⟨datasets, raceName, w.app.selectedYear, isRealData⟩ })

/-- The callback `createLapTimeChart` hands to `setTimeout`. -/
def lapChartTimer (lapData : JsValue) (driver1 driver2 : String) (isRealData : Bool)
    (w : World) : Res :=
  if !w.page.hasLapCanvas then
    done (w.emit (.consoleError "Canvas not found after chart section update"))
  else
    let w := destroyLapChart w
    if !lapData.truthy || !lapData.typeofObject then
      done (w.emit (.alert "Invalid data received. Please try again."))
    else renderChart lapData driver1 driver2 isRealData w

/-- The method `createLapTimeChart`: the chart section, if the page has one, is
rewritten with a fresh canvas (its heading reads `selectedRace.name`), and the
rendering is deferred. -/
def createLapTimeChart (lapData : JsValue) (driver1 driver2 : String) (isRealData : Bool)
    (w : World) : Res :=
  let r :=
    if w.page.hasChartSection then
      match w.app.selectedRace.getProp (.name "name") with
      | .error e => raise w e
      | .ok _ => done (w.setPage (w.page.setChartSection .canvas))
    else done w
  r.andThen fun w => done (w.defer (.lapChartTimer lapData driver1 driver2 isRealData))

/-! ## Loading lap times -/

/-- The error `new Error(...)` the loaders throw on a response that is not ok:
its message is the status followed by the body. -/
def httpError (resp : Response) : JsError :=
  match resp.text with
  | .error e => e
  | .ok body => ⟨"Error", "HTTP " ++ toString resp.status ++ ": " ++ body⟩

/-- The `try` block of `loadRealLapTimes`: the URL reads `selectedRace.name`,
the request is sent, and a parsed body is handed to `createLapTimeChart`. -/
def loadRealLapTimesTry (env : Env) (driver1 driver2 : String) (w : World) : Res :=
  match w.app.selectedRace.getProp (.name "name") with
  | .error e => raise w e
  | .ok raceName =>
    let req := Request.lapTimes w.app.selectedYear raceName driver1 driver2
    let w := w.emit (.fetch req)
    match env.fetch req with
    | .rejected e => raise w e
    | .response resp =>
      if !resp.ok then raise w (httpError resp)
      else
        match resp.json with
        | .error e => raise w e
        | .ok lapData => createLapTimeChart lapData driver1 driver2 true w

/-- The method `loadRealLapTimes(driver1, driver2)`. -/
def loadRealLapTimes (env : Env) (driver1 driver2 : String) (w : World) : Res :=
  let r := if w.page.hasLapCanvas then done w else createLapChart w
  r.andThen fun w =>
    if !w.page.hasLapCanvas then
      done (w.emit (.consoleError "Canvas element still not found after creating lap chart"))
    else
      let w := destroyLapChart w
      let chartContainer := w.page.hasChartSection
      let w := if chartContainer then w.setPage (w.page.setChartSection (.loading driver1 driver2))
        else w
      (loadRealLapTimesTry env driver1 driver2 w).catch fun error w =>
        let w := w.emit (.consoleError "Error loading real lap times:")
        done (if chartContainer then w.setPage (w.page.setChartSection (.failed error.message))
          else w)

/-- One turn of the loop of `generateSampleLapData`: a record is pushed to each
array, the first driver's time drawn before the second's. -/
def sampleStep (random : Nat → ℚ) (acc : List JsValue × List JsValue × Nat) (lap : Nat) :
    List JsValue × List JsValue × Nat :=
  let time1 := doubleAdd 90 (doubleMul (random acc.2.2) 5)
  let time2 := doubleAdd 91 (doubleMul (random (acc.2.2 + 1)) 5)
  (acc.1 ++ [.obj [(.name "lap", .ofNat lap), (.name "time", .num (.fin time1))]],
   acc.2.1 ++ [.obj [(.name "lap", .ofNat lap), (.name "time", .num (.fin time2))]],
   acc.2.2 + 2)

/-- The entry `generateSampleLapData` builds for a driver. -/
def sampleEntry (driver color : String) (laps : List JsValue) : JsValue :=
  .obj [(.name "driver",
      .obj [(.name "name", .str driver), (.name "code", .str driver), (.name "color", .str color)]),
    (.name "laps", .array laps)]

/-- The method `generateSampleLapData(driver1, driver2)`, with the random
numbers drawn from `draws` on; the value returned and the draws used. -/
def generateSampleLapData (random : Nat → ℚ) (draws : Nat) (driver1 driver2 : String) :
    JsValue × Nat :=
  let acc := (List.range' 1 20).foldl (sampleStep random) ([], [], draws)
  (.obj (propSet (Key.ofString driver2) (sampleEntry driver2 "#FF8700" acc.2.1)
    (propSet (Key.ofString driver1) (sampleEntry driver1 "#00D2BE" acc.1) [])), acc.2.2)

/-- The functions an object inherits from `Object.prototype`, by name, each
with its `length`. The accessor `__proto__` is not among them. -/
def objectPrototype : List (String × JsValue) :=
  [("constructor", .fn "Object" 1),
   ("__defineGetter__", .fn "__defineGetter__" 2),
   ("__defineSetter__", .fn "__defineSetter__" 2),
   ("hasOwnProperty", .fn "hasOwnProperty" 1),
   ("__lookupGetter__", .fn "__lookupGetter__" 1),
   ("__lookupSetter__", .fn "__lookupSetter__" 1),
   ("isPrototypeOf", .fn "isPrototypeOf" 1),
   ("propertyIsEnumerable", .fn "propertyIsEnumerable" 1),
   ("toString", .fn "toString" 0),
   ("valueOf", .fn "valueOf" 0),
   ("toLocaleString", .fn "toLocaleString" 0)]

/-- Whether a property list has an own property under a key. -/
def propHas (k : Key) (props : List (Key × JsValue)) : Bool :=
  props.any fun kv => decide (kv.1 = k)

/-- The expression `o[k]` on an object a response body parses to, read through
the prototype chain: an own property, else the function `Object.prototype` has
under that name, else `undefined`. The key `__proto__` is dealt with where the
read is made. -/
def inheritedGet (k : Key) (props : List (Key × JsValue)) : JsValue :=
  if propHas k props then propGet k props
  else
    match k with
    | .name n => namedGet n objectPrototype
    | .idx _ => .undefined

/-- One statement `if (allLapData[driver]) lapData[driver] = allLapData[driver]`
of `loadSampleLapTimes`, on the own properties of `lapData`. Reading a property
of `null` throws. The read goes through the prototype chain of an object. For
the key `__proto__` the read yields an own property or the prototype, and the
assignment to the fresh object sets its prototype or is ignored: no own
property is made. What an array, a string, a number or a boolean inherits is
not modelled: the resource is a map. -/
def copyDriver (allLapData : JsValue) (driver : String) (lapData : List (Key × JsValue)) :
    Except JsError (List (Key × JsValue)) :=
  match allLapData.getProp (Key.ofString driver) with
  | .error e => .error e
  | .ok own =>
    if driver = "__proto__" then .ok lapData
    else
      let entry :=
        match allLapData with
        | .obj props => inheritedGet (Key.ofString driver) props
        | _ => own
      .ok (if entry.truthy then propSet (Key.ofString driver) entry lapData else lapData)

/-- The two assignments of `loadSampleLapTimes` that copy the selected drivers
out of the resource into the object `lapData`, which starts empty. -/
def filterDrivers (allLapData : JsValue) (driver1 driver2 : String) : Except JsError JsValue :=
  match copyDriver allLapData driver1 [] with
  | .error e => .error e
  | .ok lapData =>
    match copyDriver allLapData driver2 lapData with
    | .error e => .error e
    | .ok lapData => .ok (.obj lapData)

/-- Whether a code names what every object inherits: a function of
`Object.prototype`, or the accessor `__proto__`. -/
def inheritedName (code : String) : Bool :=
  decide (code = "__proto__") || objectPrototype.any fun kv => decide (kv.1 = code)

/-- The `try` block of `loadSampleLapTimes`: the status of the response is not
looked at. -/
def loadSampleLapTimesTry (env : Env) (driver1 driver2 : String) (w : World) : Res :=
  let req := Request.lapTimesFile w.app.selectedYear
  let w := w.emit (.fetch req)
  match env.fetch req with
  | .rejected e => raise w e
  | .response resp =>
    match resp.json with
    | .error e => raise w e
    | .ok allLapData =>
      match filterDrivers allLapData driver1 driver2 with
      | .error e => raise w e
      | .ok lapData => createLapTimeChart lapData driver1 driver2 false w

/-- The method `loadSampleLapTimes(driver1, driver2)`: when the `try` block
throws, generated data is charted instead. -/
def loadSampleLapTimes (env : Env) (driver1 driver2 : String) (w : World) : Res :=
  let r := if w.page.hasLapCanvas then done w else createLapChart w
  r.andThen fun w =>
    (loadSampleLapTimesTry env driver1 driver2 w).catch fun _ w =>
      let w := w.emit (.consoleError "Error loading sample data:")
      let fakeData := generateSampleLapData env.random w.draws driver1 driver2
      createLapTimeChart fakeData.1 driver1 driver2 false { w with draws := fakeData.2 }

/-- The `try` block of `compareLapTimes`. -/
def compareLapTimesBody (env : Env) (w : World) : Res :=
  match w.page.driver1, w.page.driver2 with
  | some driver1Select, some driver2Select =>
    let driver1 := driver1Select.value
    let driver2 := driver2Select.value
    if driver1 = "" ∨ driver2 = "" then done (w.emit (.alert "Please select both drivers"))
    else if driver1 = driver2 then done (w.emit (.alert "Please select different drivers"))
    else
      let w := getOrCreateChartContainer w
      let w := showLoading ("🔄 Comparing " ++ driver1 ++ " vs " ++ driver2 ++ "...") (some .chart) w
      let r :=
        if w.app.useRealData then loadRealLapTimes env driver1 driver2 w
        else loadSampleLapTimes env driver1 driver2 w
      r.andThen fun w => done (hideLoading (some .chart) w)
  | _, _ => done w

/-- The method `compareLapTimes`: a call that finds a comparison in progress
returns at once; otherwise the flag is set for the `try` block and cleared in
`finally`. -/
def compareLapTimes (env : Env) (w : World) : Res :=
  if w.app.isComparing then done w
  else
    (compareLapTimesBody env (w.setApp { w.app with isComparing := true })).finally fun w =>
      w.setApp { w.app with isComparing := false }

/-! ## Loading telemetry -/

/-- The method `createTelemetryChart(telemetryData)`: the log line reads
`telemetryData.driver`; the chart and the section of the previous telemetry are
removed and the rest is deferred. -/
def createTelemetryChart (telemetryData : JsValue) (w : World) : Res :=
  match telemetryData.getProp (.name "driver") with
  | .error e => raise w e
  | .ok _ =>
    let w := destroyTelemetryChart w
    let w := getOrCreateChartContainer w
    let w := w.setPage (w.page.setKids .chart (removeTelemetrySection (w.page.kidsOf .chart)))
    done (w.defer (.telemetryTimer telemetryData))

/-- The `try` block of `loadTelemetry`. -/
def loadTelemetryTry (env : Env) (driverCode : String) (lapNumber : JsValue) (w : World) : Res :=
  match w.app.selectedRace.getProp (.name "name") with
  | .error e => raise w e
  | .ok raceName =>
    let req := Request.telemetry w.app.selectedYear raceName driverCode lapNumber
    let w := w.emit (.fetch req)
    match env.fetch req with
    | .rejected e => raise w e
    | .response resp =>
      if !resp.ok then raise w (httpError resp)
      else
        match resp.json with
        | .error e => raise w e
        | .ok telemetryData => createTelemetryChart telemetryData w

/-- The method `loadTelemetry(driverCode, lapNumber)`. The loading panel and
the error panel are written into the telemetry section found before the
request, and only if one was found. -/
def loadTelemetry (env : Env) (driverCode : String) (lapNumber : JsValue) (w : World) : Res :=
  if !w.app.useRealData then done w
  else if w.app.isLoadingTelemetry then done w
  else
    let w := w.setApp { w.app with isLoadingTelemetry := true }
    let w := getOrCreateChartContainer w
    let existingTelemetry := w.page.hasTelemetrySection
    let w :=
      if existingTelemetry then
        w.setPage (w.page.setTelemetrySection (.loading driverCode lapNumber))
      else w
    ((loadTelemetryTry env driverCode lapNumber w).catch fun error w =>
      let w := w.emit (.consoleError "Error loading telemetry:")
      done (if existingTelemetry then
          w.setPage (w.page.setTelemetrySection (.failed driverCode lapNumber error.message))
        else w)).finally fun w =>
      w.setApp { w.app with isLoadingTelemetry := false }

/-- The call `Math.min(...values)`. -/
def mathMin (env : Env) (values : List JsValue) : JsNum :=
  values.foldl (fun m v => m.min (env.numberOf v)) .posInf

/-- The call `Math.max(...values)`. -/
def mathMax (env : Env) (values : List JsValue) : JsNum :=
  values.foldl (fun m v => m.max (env.numberOf v)) .negInf

/-- The call `telemetry.map(p => p.distance)`: a hole stays a hole, a point
that is `null` throws. -/
def mapDistance : List (Option JsValue) → Except JsError (List (Option JsValue))
  | [] => .ok []
  | none :: rest => (mapDistance rest).map (none :: ·)
  | some p :: rest =>
    match p.getProp (.name "distance") with
    | .error e => .error e
    | .ok d => (mapDistance rest).map (some d :: ·)

/-- The callback `createTelemetryChartDelayed` hands to
`requestAnimationFrame`: the range of the distance axis is the least and the
greatest distance; the two series hold one point per element. -/
def telemetryFrame (env : Env) (telemetryData : JsValue) (w : World) : Res :=
  if !w.page.hasTelemetryCanvas then done (w.emit (.consoleError "Telemetry canvas not found!"))
  else
    let w := destroyTelemetryChart w
    match telemetryData.getProp (.name "telemetry") with
    | .error e => raise w e
    | .ok .undefined => raise w (typeError "Cannot read properties of undefined (reading 'slice')")
    | .ok .null => raise w (typeError "Cannot read properties of null (reading 'slice')")
    | .ok (.str _) => raise w (typeError "telemetry.map is not a function")
    | .ok (.arr items _) =>
      match mapDistance items with
      | .error e => raise w e
      | .ok distances =>
        let spread := distances.map fun d => d.getD .undefined
        let points := arrayElements items
        let chart : TelemetryChart :=
          { speed := points.map fun point => ⟨point.field "distance", point.field "speed"⟩
            throttle := points.map fun point => ⟨point.field "distance", point.field "throttle"⟩
            xMin := mathMin env spread
            xMax := mathMax env spread }
        let w := w.emit (.chartCreated "telemetryChart")
        done (w.setApp { w.app with telemetryChart := some chart })
    | .ok _ => raise w (typeError "telemetry.slice is not a function")

/-- The method `createTelemetryChartDelayed`: the heading reads
`telemetryData.driver`; the section with its canvas is appended to the chart
container and the chart is built at the next frame. -/
def createTelemetryChartDelayed (telemetryData : JsValue) (w : World) : Res :=
  match telemetryData.getProp (.name "driver") with
  | .error e => raise w e
  | .ok _ =>
    let w := w.setPage (w.page.setKids .chart (w.page.kidsOf .chart ++ [.telemetrySection .canvas]))
    done (w.defer (.telemetryFrame telemetryData))

/-- Runs a callback. -/
def runCallback (env : Env) (w : World) : Deferred → Res
  | .lapChartTimer lapData driver1 driver2 isRealData =>
    lapChartTimer lapData driver1 driver2 isRealData w
  | .telemetryTimer telemetryData => createTelemetryChartDelayed telemetryData w
  | .telemetryFrame telemetryData => telemetryFrame env telemetryData w
  | .driverDefaults => driverDefaults env w

/-- Runs the oldest callback waiting, if any. -/
def runDeferred (env : Env) (w : World) : Res :=
  match w.pending with
  | [] => done w
  | d :: rest => runCallback env { w with pending := rest } d

/-! ## A click on the lap chart -/

/-- The `label` of a dataset: the template `${driverData.driver.name}
(${driverCode})`. -/
def Dataset.label (env : Env) (d : Dataset) : String :=
  env.stringOf d.driverName ++ " (" ++ d.driverCode ++ ")"

/-- The first capture of the leftmost match of `/\(([^)]+)\)/` in a text: at an
opening parenthesis the class takes every character up to the next closing
parenthesis; the match succeeds there when that run is not empty and a closing
parenthesis follows it, else the search goes on at the next character. -/
def firstGroup : List Char → Option (List Char)
  | [] => none
  | c :: rest =>
    if c = '(' ∧ rest.takeWhile (fun x => x != ')') ≠ [] ∧
        (rest.dropWhile fun x => x != ')') ≠ [] then
      some (rest.takeWhile fun x => x != ')')
    else firstGroup rest

/-- The expression `label.match(/\(([^)]+)\)/)[1]`: without a match the index
is read from `null`. -/
def matchCode (label : String) : Except JsError String :=
  match firstGroup label.toList with
  | some code => .ok (String.mk code)
  | none => .error (typeError "Cannot read properties of null (reading '1')")

/-- The handler `onClick` of the lap chart for a click on point `dataIndex` of
dataset `datasetIndex`: a chart of sample data has no handler; else the code is
read back from the label and `loadTelemetry` is called with it and the lap
number of the point. -/
def lapChartClick (env : Env) (datasetIndex dataIndex : Nat) (w : World) : Res :=
  match w.app.lapChart with
  | none => done w
  | some chart =>
    if chart.isRealData then
      match chart.datasets.get? datasetIndex with
      | none => raise w (typeError "Cannot read properties of undefined (reading 'data')")
      | some dataset =>
        match dataset.data.get? dataIndex with
        | none => raise w (typeError "Cannot read properties of undefined (reading 'x')")
        | some point =>
          match matchCode (dataset.label env) with
          | .error e => raise w e
          | .ok driverCode => loadTelemetry env driverCode point.x w
    else done w

/-! ## Reading a trace -/

/-- The alerts of a trace, oldest first. -/
def alertsOf (t : List Effect) : List String :=
  t.filterMap fun
    | .alert message => some message
    | _ => none

/-- The requests of a trace, oldest first. -/
def fetchesOf (t : List Effect) : List Request :=
  t.filterMap fun
    | .fetch req => some req
    | _ => none

/-- The errors a trace logs, oldest first. -/
def errorsOf (t : List Effect) : List String :=
  t.filterMap fun
    | .consoleError message => some message
    | _ => none

/-- The charts a trace creates, oldest first. -/
def chartsOf (t : List Effect) : List String :=
  t.filterMap fun
    | .chartCreated canvasId => some canvasId
    | _ => none

/-! ## A session of calls -/

/-- A call the user or a timer makes in a session: a season or a race is
picked, the compare button is pressed, telemetry is asked for, a point of the
lap chart is clicked, the oldest callback waiting runs. -/
inductive Action where
  | selectYear (year : String)
  | selectRace (race : JsValue)
  | compareLapTimes
  | loadTelemetry (driverCode : String) (lapNumber : JsValue)
  | click (datasetIndex dataIndex : Nat)
  | callback

/-- The world one call leaves; an error the call throws reaches no handler and
the session goes on from the world it left. -/
def perform (env : Env) (w : World) : Action → World
  | .selectYear year => (selectYear env year w).world
  | .selectRace race => (selectRace env race w).world
  | .compareLapTimes => (compareLapTimes env w).world
  | .loadTelemetry driverCode lapNumber => (loadTelemetry env driverCode lapNumber w).world
  | .click datasetIndex dataIndex => (lapChartClick env datasetIndex dataIndex w).world
  | .callback => (runDeferred env w).world

/-- The world a sequence of calls leaves. -/
def session (env : Env) (w : World) (actions : List Action) : World :=
  actions.foldl (perform env) w

/-- Whether an element, if it is the block of the two selects, offers in both
the one option whose value is the empty string. -/
def Kid.placeholderOnly : Kid → Bool
  | .driverSection s1 s2 => decide (s1.options = [""]) && decide (s2.options = [""])
  | _ => true

/-- What the states of a session in FALLBACK mode that started in `w0` have in
common: the mode, the empty driver list, no comparison in progress, selects
that offer the placeholder only, no callback waiting but the one that sets the
defaults of the selects, and the requests, charts and random draws of `w0`. -/
def FallbackInvariant (w0 w : World) : Prop :=
  w.app.useRealData = false ∧ w.app.availableDrivers = .array [] ∧
  w.app.isComparing = false ∧ (∀ k ∈ w.page.kids, k.placeholderOnly = true) ∧
  (∀ d ∈ w.pending, d = Deferred.driverDefaults) ∧
  fetchesOf w.trace = fetchesOf w0.trace ∧ chartsOf w.trace = chartsOf w0.trace ∧
  w.draws = w0.draws

/-! ## Sample inputs -/

/-- A session in REMOTE mode with the 2021 Bahrain Grand Prix selected. -/
def sampleApp : App :=
  { selectedYear := some "2021"
    selectedRace := .obj [(.name "round", .ofNat 1), (.name "name", .str "Bahrain Grand Prix")]
    f1Calendar := .obj []
    lapChart := none
    telemetryChart := none
    apiBaseUrl := "/api"
    availableDrivers := .array []
    useRealData := true
    isComparing := false
    isLoadingTelemetry := false }

/-- A page whose driver selects hold `HAM` and `VER`. -/
def samplePage : Page :=
  { yearButton := some "2021"
    gpButton := some ⟨"Bahrain Grand Prix", false⟩
    gpDropdown := some []
    analysisVisible := some true
    driverSelection := some [.driverSection ⟨["HAM", "VER"], some 0⟩ ⟨["HAM", "VER"], some 1⟩]
    chartContainer := some [] }

/-- The world of the sample session, nothing waiting. -/
def sampleWorld : World := ⟨sampleApp, samplePage, [], [], 0⟩

/-- A network that answers every request with status 500. -/
def failingEnv : Env :=
  { fetch := fun _ => .response ⟨500, .ok "Internal Server Error", .error ⟨"SyntaxError", "Unexpected token"⟩⟩
    random := fun _ => 0
    toNumber := fun _ => .nan
    toStr := fun _ => "" }

/-- The sample session with both busy flags set. -/
def busyWorld : World :=
  { sampleWorld with app := { sampleApp with isComparing := true, isLoadingTelemetry := true } }

/-- The sample session in FALLBACK mode with no race selected. -/
def noRaceWorld : World :=
  { sampleWorld with app := { sampleApp with selectedRace := .null, useRealData := false } }

/-- The sample session after a comparison: the lap chart of `LEC` is built and
its section is in the page; no telemetry section yet. -/
def chartWorld : World :=
  { sampleWorld with
    app := { sampleApp with
      lapChart := some
        ⟨[⟨.str "Charles Leclerc", "LEC", [⟨.ofNat 5, .num (.fin 93)⟩], .str "#CCCCCC"⟩],
          .str "Bahrain Grand Prix", some "2021", true⟩ }
    page := { samplePage with chartContainer := some [.chartSection .canvas] } }

/-- A payload in which every lap of `HAM` has a time that is not positive and
`VER` has two valid laps. -/
def onePayload : JsValue :=
  .obj [
    (.name "HAM", .obj [
      (.name "driver", .obj [(.name "name", .str "Lewis Hamilton"), (.name "code", .str "HAM")]),
      (.name "laps", .array [
        .obj [(.name "lap", .ofNat 1), (.name "time", .num (.fin 0))],
        .obj [(.name "lap", .ofNat 2), (.name "time", .num (.fin (-1)))]])]),
    (.name "VER", .obj [
      (.name "driver", .obj [(.name "name", .str "Max Verstappen"), (.name "code", .str "VER")]),
      (.name "laps", .array [
        .obj [(.name "lap", .ofNat 1), (.name "time", .num (.fin 93))],
        .obj [(.name "lap", .ofNat 2), (.name "time", .num (.fin 92))]])])]

/-- A payload without a valid lap: the one lap of `HAM` has time 0, the one of
`VER` a lap number that is a string. -/
def noValidPayload : List (Key × JsValue) :=
  [(.name "HAM", .obj [
      (.name "driver", .obj [(.name "name", .str "Lewis Hamilton")]),
      (.name "laps", .array [.obj [(.name "lap", .ofNat 1), (.name "time", .num (.fin 0))]])]),
   (.name "VER", .obj [
      (.name "driver", .obj [(.name "name", .str "Max Verstappen")]),
      (.name "laps", .array [.obj [(.name "lap", .str "1"), (.name "time", .num (.fin 92))]])])]

/-- A network that answers every request with the payload without a valid
lap. -/
def noValidEnv : Env :=
  { fetch := fun _ => .response ⟨200, .ok "", .ok (.obj noValidPayload)⟩
    random := fun _ => 0
    toNumber := fun _ => .nan
    toStr := fun _ => "" }

/-- A bundled resource with entries for three drivers. -/
def sampleResource : List (Key × JsValue) :=
  [(.name "HAM", .obj [(.name "driver", .obj [(.name "code", .str "HAM")]),
      (.name "laps", .array [])]),
   (.name "VER", .obj [(.name "driver", .obj [(.name "code", .str "VER")]),
      (.name "laps", .array [])]),
   (.name "LEC", .obj [(.name "driver", .obj [(.name "code", .str "LEC")]),
      (.name "laps", .array [])])]

/-- A network that answers every request with the sample resource. -/
def resourceEnv : Env :=
  { fetch := fun _ => .response ⟨200, .ok "", .ok (.obj sampleResource)⟩
    random := fun _ => 0
    toNumber := fun _ => .nan
    toStr := fun _ => "" }

/-- A session as the constructor leaves it, on the sample page. -/
def freshWorld : World := ⟨newApp "/api", samplePage, [], [], 0⟩

/-- A network that answers every request with status 200 and a telemetry body
that has no `telemetry` array. -/
def shapelessEnv : Env :=
  { fetch := fun _ =>
      .response ⟨200, .ok "", .ok (.obj [(.name "driver", .str "LEC"), (.name "lap", .ofNat 5)])⟩
    random := fun _ => 0
    toNumber := fun _ => .nan
    toStr := fun _ => "" }

/-- A lap-time body with entries for three drivers, one valid lap each. -/
def threePayload : JsValue :=
  .obj [
    (.name "HAM", .obj [
      (.name "driver", .obj [(.name "name", .str "Lewis Hamilton")]),
      (.name "laps", .array [.obj [(.name "lap", .ofNat 1), (.name "time", .num (.fin 93))]])]),
    (.name "VER", .obj [
      (.name "driver", .obj [(.name "name", .str "Max Verstappen")]),
      (.name "laps", .array [.obj [(.name "lap", .ofNat 1), (.name "time", .num (.fin 92))]])]),
    (.name "LEC", .obj [
      (.name "driver", .obj [(.name "name", .str "Charles Leclerc")]),
      (.name "laps", .array [.obj [(.name "lap", .ofNat 1), (.name "time", .num (.fin 94))]])])]

/-- A network that answers every request with the body of three drivers. -/
def threeEnv : Env :=
  { fetch := fun _ => .response ⟨200, .ok "", .ok threePayload⟩
    random := fun _ => 0
    toNumber := fun _ => .nan
    toStr := fun _ => "" }

/-- A telemetry body of two points, at distances 100 and 250. -/
def twoPointTelemetry : JsValue :=
  .obj [(.name "driver", .str "LEC"), (.name "lap", .ofNat 5),
    (.name "telemetry", .array [
      .obj [(.name "distance", .num (.fin 100)), (.name "speed", .num (.fin 280)),
        (.name "throttle", .num (.fin 100))],
      .obj [(.name "distance", .num (.fin 250)), (.name "speed", .num (.fin 120)),
        (.name "throttle", .num (.fin 0))]])]

/-- An entry whose one lap has the time `Infinity`, the value the JSON number
`1e999` parses to. -/
def infiniteLapEntry : JsValue :=
  .obj [(.name "driver", .obj [(.name "name", .str "Lewis Hamilton")]),
    (.name "laps", .array [.obj [(.name "lap", .ofNat 1), (.name "time", .num .posInf)]])]

/-- An entry with four laps: the second has time 0 and the third a lap number
that is a string. -/
def mixedEntry : JsValue :=
  .obj [(.name "driver", .obj [(.name "name", .str "Max Verstappen")]),
    (.name "laps", .array [
      .obj [(.name "lap", .ofNat 1), (.name "time", .num (.fin 93))],
      .obj [(.name "lap", .ofNat 2), (.name "time", .num (.fin 0))],
      .obj [(.name "lap", .str "3"), (.name "time", .num (.fin 92))],
      .obj [(.name "lap", .ofNat 4), (.name "time", .num (.fin 91))]])]

/-- The sample session with the season whose identifier is the empty string
selected, the driver list still that of the race selected before. -/
def staleWorld : World :=
  { sampleWorld with
    app := { sampleApp with
      selectedYear := some ""
      availableDrivers := .array [builtinDriver "ALO" "Fernando Alonso" "Alpine"] } }

/-- The race the counterexample selects. -/
def imolaRace : JsValue :=
  .obj [(.name "round", .ofNat 2), (.name "name", .str "Emilia Romagna Grand Prix")]

/-- A lap-time body whose entry `PER` names the driver with a nickname in
parentheses. -/
def nicknamePayload : JsValue :=
  .obj [
    (.name "PER", .obj [
      (.name "driver", .obj [(.name "name", .str "Sergio (Checo) Pérez")]),
      (.name "laps", .array [.obj [(.name "lap", .ofNat 1), (.name "time", .num (.fin 93))]])]),
    (.name "VER", .obj [
      (.name "driver", .obj [(.name "name", .str "Max Verstappen")]),
      (.name "laps", .array [.obj [(.name "lap", .ofNat 1), (.name "time", .num (.fin 92))]])])]

/-- A network that answers every request with the body above. -/
def nicknameEnv : Env :=
  { fetch := fun _ => .response ⟨200, .ok "", .ok nicknamePayload⟩
    random := fun _ => 0
    toNumber := fun _ => .nan
    toStr := fun _ => "" }

/-- A page as served, without the block of the two selects. -/
def barePage : Page :=
  { yearButton := some "Select Year"
    gpButton := some ⟨"Select Grand Prix", true⟩
    gpDropdown := some []
    analysisVisible := some false
    driverSelection := some []
    chartContainer := none }

/-- A session in FALLBACK mode on the bare page, the calendar loaded. -/
def fallbackStartWorld : World :=
  ⟨{ newApp "/api" with f1Calendar := builtinCalendar }, barePage, [], [], 0⟩

/-- A short session: a season and a race are picked, the timer of the selects
runs, the compare button is pressed. -/
def sampleActions : List Action :=
  [.selectYear "2021", .selectRace (builtinRace "Bahrain Grand Prix" "Sakhir"), .callback,
    .compareLapTimes]

/-- The sample session in FALLBACK mode. -/
def fallbackRaceWorld : World :=
  { sampleWorld with app := { sampleApp with useRealData := false } }

/-- A payload whose one entry has a lap that passes and no driver. -/
def driverlessPayload : JsValue :=
  .obj [(.name "HAM", .obj [(.name "laps", .array [
    .obj [(.name "lap", .ofNat 1), (.name "time", .num (.fin 93))]])])]

/-- A telemetry body of two points, the second without a distance. -/
def gapTelemetry : JsValue :=
  .obj [(.name "driver", .str "LEC"), (.name "lap", .ofNat 5),
    (.name "telemetry", .array [
      .obj [(.name "distance", .num (.fin 10)), (.name "speed", .num (.fin 2)),
        (.name "throttle", .num (.fin 3))],
      .obj [(.name "speed", .num (.fin 5))]])]

/-- A network that answers every request with status 200 and the body above;
`undefined` converts to the number NaN. -/
def gapEnv : Env :=
  { fetch := fun _ => .response ⟨200, .ok "", .ok gapTelemetry⟩
    random := fun _ => 0
    toNumber := fun _ => .nan
    toStr := fun _ => "" }

/-! ## Frame lemmas -/

@[simp] theorem setPage_trace (w : World) (p : Page) : (w.setPage p).trace = w.trace := rfl
@[simp] theorem setApp_trace (w : World) (a : App) : (w.setApp a).trace = w.trace := rfl
@[simp] theorem defer_trace (w : World) (d : Deferred) : (w.defer d).trace = w.trace := rfl
@[simp] theorem emit_trace (w : World) (e : Effect) : (w.emit e).trace = w.trace ++ [e] := rfl
@[simp] theorem setPage_app (w : World) (p : Page) : (w.setPage p).app = w.app := rfl
@[simp] theorem setApp_app (w : World) (a : App) : (w.setApp a).app = a := rfl
@[simp] theorem setApp_page (w : World) (a : App) : (w.setApp a).page = w.page := rfl
@[simp] theorem setPage_page (w : World) (p : Page) : (w.setPage p).page = p := rfl
@[simp] theorem emit_app (w : World) (e : Effect) : (w.emit e).app = w.app := rfl
@[simp] theorem emit_page (w : World) (e : Effect) : (w.emit e).page = w.page := rfl
@[simp] theorem defer_app (w : World) (d : Deferred) : (w.defer d).app = w.app := rfl
@[simp] theorem defer_page (w : World) (d : Deferred) : (w.defer d).page = w.page := rfl
@[simp] theorem setPage_pending (w : World) (p : Page) : (w.setPage p).pending = w.pending := rfl
@[simp] theorem setApp_pending (w : World) (a : App) : (w.setApp a).pending = w.pending := rfl
@[simp] theorem emit_pending (w : World) (e : Effect) : (w.emit e).pending = w.pending := rfl
@[simp] theorem defer_pending (w : World) (d : Deferred) :
    (w.defer d).pending = w.pending ++ [d] := rfl
@[simp] theorem done_world (w : World) : (done w).world = w := rfl
@[simp] theorem done_thrown (w : World) : (done w).thrown = none := rfl
@[simp] theorem raise_world (w : World) (e : JsError) : (raise w e).world = w := rfl
@[simp] theorem raise_thrown (w : World) (e : JsError) : (raise w e).thrown = some e := rfl
@[simp] theorem finally_world (r : Res) (c : World → World) :
    (r.finally c).world = c r.world := rfl
@[simp] theorem finally_thrown (r : Res) (c : World → World) :
    (r.finally c).thrown = r.thrown := rfl

@[simp] theorem alertsOf_append (s t : List Effect) : alertsOf (s ++ t) = alertsOf s ++ alertsOf t := by
  simp [alertsOf, List.filterMap_append]

@[simp] theorem fetchesOf_append (s t : List Effect) :
    fetchesOf (s ++ t) = fetchesOf s ++ fetchesOf t := by
  simp [fetchesOf, List.filterMap_append]

@[simp] theorem alertsOf_single (e : Effect) :
    alertsOf [e] = match e with
      | .alert m => [m]
      | _ => [] := by
  cases e <;> rfl

@[simp] theorem fetchesOf_single (e : Effect) :
    fetchesOf [e] = match e with
      | .fetch r => [r]
      | _ => [] := by
  cases e <;> rfl

/-- A property of the world that holds after the first step and is kept by the
second holds after their sequence. -/
theorem Res.andThen_world (P : World → Prop) {r : Res} {f : World → Res}
    (hr : P r.world) (hf : ∀ v, P v → P (f v).world) : P (r.andThen f).world := by
  unfold Res.andThen
  split
  · exact hf _ hr
  · exact hr

/-- A property of the world that holds after the block and is kept by the
handler holds after the `catch`. -/
theorem Res.catch_world (P : World → Prop) {r : Res} {h : JsError → World → Res}
    (hr : P r.world) (hh : ∀ e v, P v → P (h e v).world) : P (r.catch h).world := by
  unfold Res.catch
  split
  · exact hr
  · exact hh _ _ hr

@[simp] theorem getOrCreate_trace (w : World) : (getOrCreateChartContainer w).trace = w.trace := by
  unfold getOrCreateChartContainer; split <;> rfl

@[simp] theorem getOrCreate_app (w : World) : (getOrCreateChartContainer w).app = w.app := by
  unfold getOrCreateChartContainer; split <;> rfl

@[simp] theorem getOrCreate_pending (w : World) :
    (getOrCreateChartContainer w).pending = w.pending := by
  unfold getOrCreateChartContainer; split <;> rfl

@[simp] theorem destroyLapChart_page (w : World) : (destroyLapChart w).page = w.page := by
  unfold destroyLapChart; split <;> rfl

@[simp] theorem destroyLapChart_alerts (w : World) :
    alertsOf (destroyLapChart w).trace = alertsOf w.trace := by
  unfold destroyLapChart; split <;> simp

@[simp] theorem destroyLapChart_fetches (w : World) :
    fetchesOf (destroyLapChart w).trace = fetchesOf w.trace := by
  unfold destroyLapChart; split <;> simp

@[simp] theorem destroyLapChart_race (w : World) :
    (destroyLapChart w).app.selectedRace = w.app.selectedRace := by
  unfold destroyLapChart; split <;> rfl

@[simp] theorem destroyLapChart_year (w : World) :
    (destroyLapChart w).app.selectedYear = w.app.selectedYear := by
  unfold destroyLapChart; split <;> rfl

theorem createLapChart_trace (w : World) : (createLapChart w).world.trace = w.trace := by
  unfold createLapChart
  cases h : w.app.selectedRace.getProp (.name "name") <;> simp [h]

theorem createLapTimeChart_trace (d : JsValue) (a b : String) (real : Bool) (w : World) :
    (createLapTimeChart d a b real w).world.trace = w.trace := by
  unfold createLapTimeChart
  cases hs : w.page.hasChartSection <;>
    cases h : w.app.selectedRace.getProp (.name "name") <;>
    simp [Res.andThen, h]

theorem loadRealLapTimesTry_alerts (env : Env) (a b : String) (w : World) :
    alertsOf (loadRealLapTimesTry env a b w).world.trace = alertsOf w.trace := by
  unfold loadRealLapTimesTry
  cases h : w.app.selectedRace.getProp (.name "name") with
  | error e => simp
  | ok raceName =>
    simp only []
    cases hf : env.fetch (.lapTimes w.app.selectedYear raceName a b) with
    | rejected e => simp
    | response resp =>
      cases hok : resp.ok <;> cases hj : resp.json <;>
        simp [createLapTimeChart_trace, hok, hj]

theorem loadRealLapTimes_alerts (env : Env) (a b : String) (w : World) :
    alertsOf (loadRealLapTimes env a b w).world.trace = alertsOf w.trace := by
  unfold loadRealLapTimes
  refine Res.andThen_world (fun v => alertsOf v.trace = alertsOf w.trace) ?_ ?_
  · split
    · rfl
    · rw [createLapChart_trace]
  · intro v hv
    split
    · simp [hv]
    · refine Res.catch_world (fun v => alertsOf v.trace = alertsOf w.trace) ?_ ?_
      · show alertsOf _ = _
        rw [loadRealLapTimesTry_alerts]; split <;> simp [hv]
      · intro e v' hv'
        split <;> simp [hv']

theorem loadSampleLapTimesTry_alerts (env : Env) (a b : String) (w : World) :
    alertsOf (loadSampleLapTimesTry env a b w).world.trace = alertsOf w.trace := by
  unfold loadSampleLapTimesTry
  simp only []
  cases hf : env.fetch (.lapTimesFile w.app.selectedYear) with
  | rejected e => simp
  | response resp =>
    cases hj : resp.json with
    | error e => simp [hj]
    | ok d =>
      cases hd : filterDrivers d a b <;> simp [createLapTimeChart_trace, hj, hd]

theorem loadSampleLapTimes_alerts (env : Env) (a b : String) (w : World) :
    alertsOf (loadSampleLapTimes env a b w).world.trace = alertsOf w.trace := by
  unfold loadSampleLapTimes
  refine Res.andThen_world (fun v => alertsOf v.trace = alertsOf w.trace) ?_ ?_
  · split
    · rfl
    · rw [createLapChart_trace]
  · intro v hv
    refine Res.catch_world (fun v => alertsOf v.trace = alertsOf w.trace) ?_ ?_
    · show alertsOf _ = _
      rw [loadSampleLapTimesTry_alerts, hv]
    · intro e v' hv'
      show alertsOf _ = _
      rw [createLapTimeChart_trace]
      simp [hv']

@[simp] theorem getDriverSelectionContainer_trace (w : World) :
    (getDriverSelectionContainer w).1.trace = w.trace := by
  unfold getDriverSelectionContainer; split <;> simp

@[simp] theorem showLoading_trace (m : String) (c : Option Container) (w : World) :
    (showLoading m c w).trace = w.trace := by
  unfold showLoading; split <;> simp

@[simp] theorem hideLoading_trace (c : Option Container) (w : World) :
    (hideLoading c w).trace = w.trace := by
  unfold hideLoading; split <;> simp

/-- After a first step that returns normally, what the second step establishes
from the state the first one leaves. -/
theorem Res.andThen_rule (P Q : World → Prop) {r : Res} {f : World → Res}
    (hn : r.thrown = none) (hr : P r.world) (hf : ∀ v, P v → Q (f v).world) :
    Q (r.andThen f).world := by
  unfold Res.andThen
  rw [hn]
  exact hf _ hr

theorem createLapChart_ok (w : World) (n : JsValue)
    (h : w.app.selectedRace.getProp (.name "name") = .ok n) :
    createLapChart w = done ((getOrCreateChartContainer w).setPage
      (((getOrCreateChartContainer w).setPage
        ((getOrCreateChartContainer w).page.setKids .chart [])).page.setKids .chart
          [.chartSection .canvas])) := by
  unfold createLapChart
  simp only [h, setApp_app, setPage_app, getOrCreate_app]
  rfl

theorem hasLapCanvas_setKids (p : Page) :
    (p.setKids .chart [.chartSection .canvas]).hasLapCanvas = true := by
  simp [Page.hasLapCanvas, Page.kids, Page.setKids, Kid.isLapCanvas]

theorem loadRealLapTimesTry_fetches (env : Env) (a b : String) (w : World) (n : JsValue)
    (h : w.app.selectedRace.getProp (.name "name") = .ok n) :
    fetchesOf (loadRealLapTimesTry env a b w).world.trace =
      fetchesOf w.trace ++ [.lapTimes w.app.selectedYear n a b] := by
  unfold loadRealLapTimesTry
  simp only [h]
  cases hf : env.fetch (.lapTimes w.app.selectedYear n a b) with
  | rejected e => simp
  | response resp =>
    cases hok : resp.ok <;> cases hj : resp.json <;>
      simp [createLapTimeChart_trace, hok, hj]

theorem loadRealLapTimes_fetches (env : Env) (a b : String) (w : World) (n : JsValue)
    (h : w.app.selectedRace.getProp (.name "name") = .ok n) :
    fetchesOf (loadRealLapTimes env a b w).world.trace =
      fetchesOf w.trace ++ [.lapTimes w.app.selectedYear n a b] := by
  unfold loadRealLapTimes
  refine Res.andThen_rule
    (fun v => v.page.hasLapCanvas = true ∧ v.app = w.app ∧ fetchesOf v.trace = fetchesOf w.trace)
    (fun v => fetchesOf v.trace = fetchesOf w.trace ++ [.lapTimes w.app.selectedYear n a b])
    ?_ ?_ ?_
  · split
    · rfl
    · rw [createLapChart_ok w n h]; rfl
  · split
    · rename_i hc; exact ⟨hc, rfl, rfl⟩
    · rw [createLapChart_ok w n h]
      exact ⟨hasLapCanvas_setKids _, by simp, by simp⟩
  · rintro v ⟨hc, ha, hfe⟩
    simp only [hc, Bool.not_true, Bool.false_eq_true, if_false]
    refine Res.catch_world
      (fun v => fetchesOf v.trace = fetchesOf w.trace ++ [.lapTimes w.app.selectedYear n a b])
      ?_ ?_
    · show fetchesOf _ = _
      have hr : ∀ u : World, u.app.selectedRace = w.app.selectedRace →
          u.app.selectedYear = w.app.selectedYear → fetchesOf u.trace = fetchesOf w.trace →
          fetchesOf (loadRealLapTimesTry env a b u).world.trace =
            fetchesOf w.trace ++ [.lapTimes w.app.selectedYear n a b] := by
        intro u hu1 hu2 hu3
        rw [loadRealLapTimesTry_fetches env a b u n (by rw [hu1]; exact h), hu2, hu3]
      apply hr
      · split <;> simp [ha]
      · split <;> simp [ha]
      · split <;> simp [hfe]
    · intro e v' hv'
      show fetchesOf _ = _
      split <;> simp [hv']

theorem loadSampleLapTimesTry_fetches (env : Env) (a b : String) (w : World) :
    fetchesOf (loadSampleLapTimesTry env a b w).world.trace =
      fetchesOf w.trace ++ [.lapTimesFile w.app.selectedYear] := by
  unfold loadSampleLapTimesTry
  simp only []
  cases hf : env.fetch (.lapTimesFile w.app.selectedYear) with
  | rejected e => simp
  | response resp =>
    cases hj : resp.json with
    | error e => simp [hj]
    | ok d =>
      cases hd : filterDrivers d a b <;> simp [createLapTimeChart_trace, hj, hd]

theorem loadSampleLapTimes_fetches (env : Env) (a b : String) (w : World) (n : JsValue)
    (h : w.app.selectedRace.getProp (.name "name") = .ok n) :
    fetchesOf (loadSampleLapTimes env a b w).world.trace =
      fetchesOf w.trace ++ [.lapTimesFile w.app.selectedYear] := by
  unfold loadSampleLapTimes
  refine Res.andThen_rule
    (fun v => v.app = w.app ∧ fetchesOf v.trace = fetchesOf w.trace)
    (fun v => fetchesOf v.trace = fetchesOf w.trace ++ [.lapTimesFile w.app.selectedYear])
    ?_ ?_ ?_
  · split
    · rfl
    · rw [createLapChart_ok w n h]; rfl
  · split
    · exact ⟨rfl, rfl⟩
    · rw [createLapChart_ok w n h]
      exact ⟨by simp, by simp⟩
  · rintro v ⟨ha, hfe⟩
    refine Res.catch_world
      (fun v => fetchesOf v.trace = fetchesOf w.trace ++ [.lapTimesFile w.app.selectedYear])
      ?_ ?_
    · show fetchesOf _ = _
      rw [loadSampleLapTimesTry_fetches, ha, hfe]
    · intro e v' hv'
      show fetchesOf _ = _
      rw [createLapTimeChart_trace]
      simp [hv']

@[simp] theorem getDriverSelectionContainer_app (w : World) :
    (getDriverSelectionContainer w).1.app = w.app := by
  unfold getDriverSelectionContainer; split <;> simp

@[simp] theorem showLoading_app (m : String) (c : Option Container) (w : World) :
    (showLoading m c w).app = w.app := by
  unfold showLoading; split <;> simp

@[simp] theorem hideLoading_app (c : Option Container) (w : World) :
    (hideLoading c w).app = w.app := by
  unfold hideLoading; split <;> simp

@[simp] theorem setPage_draws (w : World) (p : Page) : (w.setPage p).draws = w.draws := rfl
@[simp] theorem setApp_draws (w : World) (a : App) : (w.setApp a).draws = w.draws := rfl
@[simp] theorem emit_draws (w : World) (e : Effect) : (w.emit e).draws = w.draws := rfl
@[simp] theorem defer_draws (w : World) (d : Deferred) : (w.defer d).draws = w.draws := rfl
@[simp] theorem getOrCreate_draws (w : World) :
    (getOrCreateChartContainer w).draws = w.draws := by
  unfold getOrCreateChartContainer; split <;> rfl

@[simp] theorem chartsOf_append (s t : List Effect) :
    chartsOf (s ++ t) = chartsOf s ++ chartsOf t := by
  simp [chartsOf, List.filterMap_append]

@[simp] theorem chartsOf_single (e : Effect) :
    chartsOf [e] = match e with
      | .chartCreated c => [c]
      | _ => [] := by
  cases e <;> rfl

/-! ## Comparing two drivers -/

theorem app_isComparing_eta (a : App) (h : a.isComparing = false) :
    { a with isComparing := false } = a := by
  cases a; simp_all

/-- C1. A call of `compareLapTimes` that finds no comparison in progress and
both selects in the page is rejected, that is, it does nothing but show an
alert (no request, no callback, the application object and the page as they
were), if and only if a value is empty or the two are equal. Otherwise the
call is one run of the loader of the mode for the pair, and with a race
selected exactly one request is sent: the lap times of the pair in REMOTE
mode, the bundled file of the season in FALLBACK mode. -/
theorem compareLapTimes_rejects_iff (env : Env) (w : World)
    (driver1Select driver2Select : Select)
    (hidle : w.app.isComparing = false)
    (h1 : w.page.driver1 = some driver1Select) (h2 : w.page.driver2 = some driver2Select) :
    ((∃ message, compareLapTimes env w = done (w.emit (.alert message))) ↔
      (driver1Select.value = "" ∨ driver2Select.value = "" ∨
        driver1Select.value = driver2Select.value)) ∧
    (¬ (driver1Select.value = "" ∨ driver2Select.value = "" ∨
        driver1Select.value = driver2Select.value) →
      compareLapTimes env w =
        (((if w.app.useRealData then loadRealLapTimes env driver1Select.value driver2Select.value
          else loadSampleLapTimes env driver1Select.value driver2Select.value)
          (showLoading
            ("🔄 Comparing " ++ driver1Select.value ++ " vs " ++ driver2Select.value ++ "...")
            (some .chart)
            (getOrCreateChartContainer (w.setApp { w.app with isComparing := true })))).andThen
          fun v => done (hideLoading (some .chart) v)).finally
          fun v => v.setApp { v.app with isComparing := false }) ∧
    (¬ (driver1Select.value = "" ∨ driver2Select.value = "" ∨
        driver1Select.value = driver2Select.value) →
      ∀ raceName, w.app.selectedRace.getProp (.name "name") = .ok raceName →
        fetchesOf (compareLapTimes env w).world.trace = fetchesOf w.trace ++
          [if w.app.useRealData then
            .lapTimes w.app.selectedYear raceName driver1Select.value driver2Select.value
          else .lapTimesFile w.app.selectedYear]) := by
  have hrun : ¬ (driver1Select.value = "" ∨ driver2Select.value = "" ∨
        driver1Select.value = driver2Select.value) →
      compareLapTimes env w =
        (((if w.app.useRealData then loadRealLapTimes env driver1Select.value driver2Select.value
          else loadSampleLapTimes env driver1Select.value driver2Select.value)
          (showLoading
            ("🔄 Comparing " ++ driver1Select.value ++ " vs " ++ driver2Select.value ++ "...")
            (some .chart)
            (getOrCreateChartContainer (w.setApp { w.app with isComparing := true })))).andThen
          fun v => done (hideLoading (some .chart) v)).finally
          fun v => v.setApp { v.app with isComparing := false } := by
    intro hne
    unfold compareLapTimes compareLapTimesBody
    simp only [hidle, Bool.false_eq_true, if_false, setApp_page, h1, h2]
    rw [if_neg (by tauto), if_neg (by tauto)]
    simp only [showLoading_app, getOrCreate_app, setApp_app]
    cases w.app.useRealData <;> rfl
  refine ⟨⟨?_, ?_⟩, hrun, ?_⟩
  · rintro ⟨m, hm⟩
    by_contra hne
    have hal : alertsOf (compareLapTimes env w).world.trace = alertsOf w.trace := by
      rw [hrun hne]
      simp only [finally_world, setApp_trace]
      refine Res.andThen_world (fun v => alertsOf v.trace = alertsOf w.trace) ?_ ?_
      · split
        · show alertsOf _ = _
          rw [loadRealLapTimes_alerts, showLoading_trace]; simp
        · show alertsOf _ = _
          rw [loadSampleLapTimes_alerts, showLoading_trace]; simp
      · intro v hv
        simp [hv]
    rw [hm] at hal
    simp at hal
  · intro h
    unfold compareLapTimes compareLapTimesBody
    simp only [hidle, Bool.false_eq_true, if_false, setApp_page, h1, h2]
    by_cases he : driver1Select.value = "" ∨ driver2Select.value = ""
    · refine ⟨"Please select both drivers", ?_⟩
      rw [if_pos he]
      simp [Res.finally, done, World.emit, World.setApp, app_isComparing_eta _ hidle]
    · have heq : driver1Select.value = driver2Select.value := by tauto
      refine ⟨"Please select different drivers", ?_⟩
      rw [if_neg he, if_pos heq]
      simp [Res.finally, done, World.emit, World.setApp, app_isComparing_eta _ hidle]
  · intro hne raceName hrace
    rw [hrun hne]
    simp only [finally_world, setApp_trace]
    refine Res.andThen_world (fun v => fetchesOf v.trace = fetchesOf w.trace ++ _) ?_ ?_
    · cases hmode : w.app.useRealData
      · show fetchesOf _ = _
        simp only [Bool.false_eq_true, if_false]
        rw [loadSampleLapTimes_fetches _ _ _ _ raceName (by simpa using hrace)]
        simp
      · show fetchesOf _ = _
        simp only [if_true]
        rw [loadRealLapTimes_fetches _ _ _ _ raceName (by simpa using hrace)]
        simp
    · intro v hv
      simp [hv]

/-- C1, on the sample session: the selects hold `HAM` and `VER`, and the call
sends the one request for that pair. -/
theorem compareLapTimes_rejects_iff_witness :
    sampleWorld.app.isComparing = false ∧
    sampleWorld.page.driver1 = some ⟨["HAM", "VER"], some 0⟩ ∧
    sampleWorld.page.driver2 = some ⟨["HAM", "VER"], some 1⟩ ∧
    fetchesOf (compareLapTimes failingEnv sampleWorld).world.trace =
      [.lapTimes (some "2021") (.str "Bahrain Grand Prix") "HAM" "VER"] :=
  ⟨rfl, rfl, rfl,
    (compareLapTimes_rejects_iff failingEnv sampleWorld ⟨["HAM", "VER"], some 0⟩
      ⟨["HAM", "VER"], some 1⟩ rfl rfl rfl).2.2 (by decide) _ rfl⟩

/-! ## Selecting a season -/

theorem loadRaceSchedule_app (env : Env) (year : String) (w : World) :
    (loadRaceSchedule env year w).app =
      { w.app with f1Calendar := (loadRaceSchedule env year w).app.f1Calendar } := by
  unfold loadRaceSchedule
  simp only []
  split
  · rfl
  · split
    · split
      · rfl
      · split <;> rfl
    · rfl

theorem appendRaceLinks_app (w : World) (links : List GpLink) (races : List JsValue) :
    (appendRaceLinks w links races).world.app = w.app := by
  induction races generalizing links with
  | nil => rfl
  | cons race rest ih =>
    unfold appendRaceLinks
    cases race.getProp (.name "name") with
    | error e => rfl
    | ok n => exact ih _

theorem populateGPDropdown_app (env : Env) (year : String) (w : World) :
    (populateGPDropdown env year w).world.app = w.app := by
  unfold populateGPDropdown
  cases w.page.gpDropdown with
  | none => rfl
  | some links =>
    simp only [setPage_app]
    cases w.app.f1Calendar.getProp (Key.ofString year) with
    | error e => rfl
    | ok races =>
      simp only []
      split
      · cases races <;> simp [appendRaceLinks_app]
      · rfl

theorem selectYearTry_app (env : Env) (year : String) (w : World) :
    (selectYearTry env year w).world.app =
      { w.app with f1Calendar := (selectYearTry env year w).world.app.f1Calendar } := by
  unfold selectYearTry
  cases w.app.f1Calendar.getProp (Key.ofString year) with
  | error e => rfl
  | ok races =>
    simp only []
    refine Res.andThen_world
      (fun v => v.app = { w.app with f1Calendar := v.app.f1Calendar }) ?_ ?_
    · show _ = _
      rw [populateGPDropdown_app]
      split
      · split
        · rw [loadRaceSchedule_app]
        · rfl
      · rfl
    · intro v hv
      exact hv

/-- C2. For every world, every year and every answer of the network,
`selectYear(year)` returns normally with `selectedYear` equal to the year and
`selectedRace` equal to `null`: whether the schedule is not loaded at all, is
loaded, is refused with a status, or the request or anything else in the `try`
block throws. -/
theorem selectYear_sets_year_clears_race (env : Env) (year : String) (w : World) :
    (selectYear env year w).thrown = none ∧
    (selectYear env year w).world.app.selectedYear = some year ∧
    (selectYear env year w).world.app.selectedRace = .null := by
  have hcatch : ∀ v : World,
      (((selectYearTry env year v).catch fun _ w =>
        let w := w.emit (.consoleError "Error loading races:")
        done (w.setPage (w.page.setGpText "❌ Error Loading Races"))).finally fun w =>
        w.setPage (w.page.setGpDisabled false)).thrown = none := by
    intro v
    unfold Res.catch
    split <;> simp_all
  have hyear : ∀ v : World,
      (((selectYearTry env year v).catch fun _ w =>
        let w := w.emit (.consoleError "Error loading races:")
        done (w.setPage (w.page.setGpText "❌ Error Loading Races"))).finally fun w =>
        w.setPage (w.page.setGpDisabled false)).world.app.selectedYear = v.app.selectedYear := by
    intro v
    simp only [finally_world, setPage_app]
    refine Res.catch_world (fun u => u.app.selectedYear = v.app.selectedYear) ?_ ?_
    · show _ = _
      rw [selectYearTry_app]
    · intro e u hu
      simpa using hu
  unfold selectYear
  simp only [Res.andThen, hcatch]
  refine ⟨rfl, ?_, rfl⟩
  simp only [done_world, setPage_app, setApp_app]
  rw [hyear]
  rfl

/-! ## The busy flags -/

/-- C3. A call of `compareLapTimes` that finds `isComparing` set, and a call of
`loadTelemetry` that finds `isLoadingTelemetry` set, return normally and leave
the world as it was: the application object with its flag still set, the page,
the trace (no request, no chart created or destroyed) and the queue. -/
theorem busy_request_is_dropped (env : Env) (w : World) (driverCode : String)
    (lapNumber : JsValue) :
    (w.app.isComparing = true → compareLapTimes env w = done w) ∧
    (w.app.isLoadingTelemetry = true → loadTelemetry env driverCode lapNumber w = done w) := by
  constructor
  · intro h
    unfold compareLapTimes
    rw [if_pos h]
  · intro h
    unfold loadTelemetry
    split <;> rfl

/-- C3, on the sample session with both flags set. -/
theorem busy_request_is_dropped_witness :
    compareLapTimes failingEnv busyWorld = done busyWorld ∧
    loadTelemetry failingEnv "LEC" (.ofNat 5) busyWorld = done busyWorld :=
  ⟨(busy_request_is_dropped failingEnv busyWorld "LEC" (.ofNat 5)).1 rfl,
   (busy_request_is_dropped failingEnv busyWorld "LEC" (.ofNat 5)).2 rfl⟩

/-- A `catch` whose handler returns normally returns normally. -/
theorem catch_done_thrown (r : Res) (h : JsError → World → World) :
    (r.catch fun e w => done (h e w)).thrown = none := by
  unfold Res.catch
  split <;> simp_all

/-- The method `loadTelemetry` never throws: every error of its `try` block is
caught. -/
theorem loadTelemetry_thrown (env : Env) (driverCode : String) (lapNumber : JsValue)
    (w : World) : (loadTelemetry env driverCode lapNumber w).thrown = none := by
  unfold loadTelemetry
  split
  · rfl
  · split
    · rfl
    · simp only [finally_thrown]
      exact catch_done_thrown _ _

/-- C4. A call of `compareLapTimes` that finds `isComparing` clear leaves it
clear, whatever the call does and also when it throws; a call of
`loadTelemetry` that finds `isLoadingTelemetry` clear returns normally and
leaves it clear. The next call of either is therefore not dropped. -/
theorem busy_flag_cleared (env : Env) (w : World) (driverCode : String) (lapNumber : JsValue) :
    (w.app.isComparing = false → (compareLapTimes env w).world.app.isComparing = false) ∧
    (w.app.isLoadingTelemetry = false →
      (loadTelemetry env driverCode lapNumber w).thrown = none ∧
      (loadTelemetry env driverCode lapNumber w).world.app.isLoadingTelemetry = false) := by
  constructor
  · intro h
    unfold compareLapTimes
    rw [if_neg (by simp [h])]
    rfl
  · intro h
    unfold loadTelemetry
    split
    · exact ⟨rfl, h⟩
    · rw [if_neg (by simp [h])]
      refine ⟨?_, rfl⟩
      simp only [finally_thrown]
      exact catch_done_thrown _ _

/-- C4, on two sample sessions: with no race selected `compareLapTimes` throws
and still clears its flag; `loadTelemetry` on a failing network clears its
flag. -/
theorem busy_flag_cleared_witness :
    noRaceWorld.app.isComparing = false ∧
    (compareLapTimes failingEnv noRaceWorld).thrown =
      some (typeError "Cannot read properties of null") ∧
    (compareLapTimes failingEnv noRaceWorld).world.app.isComparing = false ∧
    sampleWorld.app.isLoadingTelemetry = false ∧
    (loadTelemetry failingEnv "LEC" (.ofNat 5) sampleWorld).thrown = none ∧
    (loadTelemetry failingEnv "LEC" (.ofNat 5) sampleWorld).world.app.isLoadingTelemetry = false :=
  ⟨rfl, by decide, (busy_flag_cleared failingEnv noRaceWorld "LEC" (.ofNat 5)).1 rfl, rfl,
    (busy_flag_cleared failingEnv sampleWorld "LEC" (.ofNat 5)).2 rfl⟩

/-! ## A failed telemetry request -/

/-- A failed telemetry request makes the `try` block throw after at most the
request itself: the application object, the page and the queue are as they
were. -/
theorem loadTelemetryTry_failed (env : Env) (driverCode : String) (lapNumber : JsValue)
    (w : World)
    (hfail : ∀ race,
      (env.fetch (.telemetry w.app.selectedYear race driverCode lapNumber)).failed = true) :
    ∃ e es, loadTelemetryTry env driverCode lapNumber w =
      raise { w with trace := w.trace ++ es } e ∧ chartsOf es = [] ∧ alertsOf es = [] := by
  unfold loadTelemetryTry
  cases w.app.selectedRace.getProp (.name "name") with
  | error e => exact ⟨e, [], by simp, rfl, rfl⟩
  | ok raceName =>
    have hf := hfail raceName
    simp only []
    cases hr : env.fetch (.telemetry w.app.selectedYear raceName driverCode lapNumber) with
    | rejected e => exact ⟨e, [.fetch _], rfl, rfl, rfl⟩
    | response resp =>
      rw [hr] at hf
      simp only [FetchResult.failed] at hf
      simp only [hf, if_true]
      exact ⟨_, [.fetch _], rfl, rfl, rfl⟩

/-- What is left of `loadTelemetry` once the flag is set, from the world `v`
the `try` block starts in, when the request fails. -/
theorem loadTelemetry_tail_failed (env : Env) (driverCode : String) (lapNumber : JsValue)
    (v : World) (existingTelemetry : Bool)
    (hfail : ∀ race,
      (env.fetch (.telemetry v.app.selectedYear race driverCode lapNumber)).failed = true) :
    ∃ (e : JsError) (es : List Effect), chartsOf es = [] ∧ alertsOf es = [] ∧
      (((loadTelemetryTry env driverCode lapNumber v).catch fun error w =>
        let w := w.emit (.consoleError "Error loading telemetry:")
        done (if existingTelemetry then
            w.setPage (w.page.setTelemetrySection (.failed driverCode lapNumber error.message))
          else w)).finally fun w =>
        w.setApp { w.app with isLoadingTelemetry := false }) =
      done
        { app := { v.app with isLoadingTelemetry := false }
          page := if existingTelemetry then
              v.page.setTelemetrySection (.failed driverCode lapNumber e.message)
            else v.page
          trace := v.trace ++ es
          pending := v.pending
          draws := v.draws } := by
  obtain ⟨e, es, he, hes, hal⟩ := loadTelemetryTry_failed env driverCode lapNumber v hfail
  refine ⟨e, es ++ [.consoleError "Error loading telemetry:"], by simp [hes], by simp [hal], ?_⟩
  rw [he]
  cases existingTelemetry <;>
    simp [Res.catch, Res.finally, raise, done, World.emit, World.setApp, World.setPage]

/-- C8. When the telemetry request of `loadTelemetry(driverCode, lapNumber)`
fails, by a rejected `fetch` or a response that is not ok, the call returns
normally, `telemetryChart` is as it was, nothing is queued (so
`createTelemetryChart` did not run), the trace creates no chart and no random
number is drawn. -/
theorem loadTelemetry_failure_no_chart (env : Env) (driverCode : String) (lapNumber : JsValue)
    (w : World)
    (hfail : ∀ race,
      (env.fetch (.telemetry w.app.selectedYear race driverCode lapNumber)).failed = true) :
    (loadTelemetry env driverCode lapNumber w).thrown = none ∧
    (loadTelemetry env driverCode lapNumber w).world.app.telemetryChart = w.app.telemetryChart ∧
    (loadTelemetry env driverCode lapNumber w).world.pending = w.pending ∧
    chartsOf (loadTelemetry env driverCode lapNumber w).world.trace = chartsOf w.trace ∧
    (loadTelemetry env driverCode lapNumber w).world.draws = w.draws := by
  unfold loadTelemetry
  split
  · exact ⟨rfl, rfl, rfl, rfl, rfl⟩
  · split
    · exact ⟨rfl, rfl, rfl, rfl, rfl⟩
    · simp only []
      generalize hv : (if (getOrCreateChartContainer
          (w.setApp { w.app with isLoadingTelemetry := true })).page.hasTelemetrySection then _
        else _) = v
      have hprops : v.app = { w.app with isLoadingTelemetry := true } ∧ v.pending = w.pending ∧
          v.trace = w.trace ∧ v.draws = w.draws := by
        rw [← hv]; split <;> simp
      obtain ⟨hvapp, hvpend, hvtrace, hvdraws⟩ := hprops
      obtain ⟨e, es, hes, -, heq⟩ := loadTelemetry_tail_failed env driverCode lapNumber v
        (getOrCreateChartContainer
          (w.setApp { w.app with isLoadingTelemetry := true })).page.hasTelemetrySection
        (by rw [hvapp]; exact hfail)
      rw [heq]
      simp [hvapp, hvpend, hvtrace, hvdraws, hes]

/-- C8, on the sample session, every request answered with status 500. -/
theorem loadTelemetry_failure_no_chart_witness :
    (∀ race, (failingEnv.fetch
      (.telemetry sampleWorld.app.selectedYear race "LEC" (.ofNat 5))).failed = true) ∧
    (loadTelemetry failingEnv "LEC" (.ofNat 5) sampleWorld).thrown = none ∧
    (loadTelemetry failingEnv "LEC" (.ofNat 5) sampleWorld).world.app.telemetryChart = none ∧
    (loadTelemetry failingEnv "LEC" (.ofNat 5) sampleWorld).world.pending = [] ∧
    chartsOf (loadTelemetry failingEnv "LEC" (.ofNat 5) sampleWorld).world.trace = [] ∧
    (loadTelemetry failingEnv "LEC" (.ofNat 5) sampleWorld).world.draws = 0 :=
  ⟨fun _ => rfl, loadTelemetry_failure_no_chart failingEnv "LEC" (.ofNat 5) sampleWorld
    fun _ => rfl⟩

/-! ## The datasets of the lap chart -/

theorem JsNum.gtZero_of_leZero {t : JsNum} (h : t.leZero = true) : t.gtZero = false := by
  cases t <;> simp_all [JsNum.leZero, JsNum.gtZero]

@[simp] theorem truthy_obj (props : List (Key × JsValue)) : (JsValue.obj props).truthy = true :=
  rfl

@[simp] theorem truthy_arr (items : List (Option JsValue)) (named : List (String × JsValue)) :
    (JsValue.arr items named).truthy = true := rfl

@[simp] theorem isArray_arr (items : List (Option JsValue)) (named : List (String × JsValue)) :
    (JsValue.arr items named).isArray = true := rfl

/-- A value with a property other than `length` is an array, an object or a
function, and truthy. -/
theorem truthy_of_field {v : JsValue} (name : String) (hname : name ≠ "length")
    (h : v.field name ≠ .undefined) : v.truthy = true := by
  cases v with
  | undefined => simp [JsValue.field, JsValue.getProp] at h
  | null => simp [JsValue.field, JsValue.getProp] at h
  | bool b => simp [JsValue.field, JsValue.getProp] at h
  | num n => simp [JsValue.field, JsValue.getProp] at h
  | str s => simp [JsValue.field, JsValue.getProp, hname] at h
  | arr items named => rfl
  | obj props => rfl
  | fn name length => rfl

theorem validLap_of_times {lap : JsValue} {n t : JsNum} (hl : lap.field "lap" = .num n)
    (ht : lap.field "time" = .num t) (hpos : t.gtZero = true) : validLap lap = true := by
  have htr : lap.truthy = true := truthy_of_field "lap" (by decide) (by rw [hl]; simp)
  simp [validLap, htr, hl, ht, hpos, JsValue.isNumber]

theorem validLap_false_of_time {lap : JsValue} {t : JsNum} (ht : lap.field "time" = .num t)
    (hle : t.leZero = true) : validLap lap = false := by
  simp [validLap, ht, JsNum.gtZero_of_leZero hle]

theorem datasetOf_none_of_invalid (code : String) (e : JsValue)
    (items : List (Option JsValue)) (named : List (String × JsValue))
    (hl : e.field "laps" = .arr items named)
    (h : ∀ lap ∈ arrayElements items, validLap lap = false) : datasetOf code e = none := by
  unfold datasetOf
  split
  · rfl
  · simp only [hl]
    rw [if_pos]
    simp only [List.length_eq_zero, List.filter_eq_nil_iff]
    intro lap hlap
    simp [h lap hlap]

theorem datasetOf_some_of_valid (code : String) (e : JsValue) (d : List (Key × JsValue))
    (items : List (Option JsValue)) (named : List (String × JsValue))
    (hd : e.field "driver" = .obj d) (hl : e.field "laps" = .arr items named)
    (h : ∀ lap ∈ arrayElements items, validLap lap = true) (hne : arrayElements items ≠ []) :
    datasetOf code e = some
      { driverName := (e.field "driver").field "name"
        driverCode := code
        data := (arrayElements items).map fun lap => ⟨lap.field "lap", lap.field "time"⟩
        color := ((e.field "driver").field "color").orElse (.str "#CCCCCC") } := by
  have htr : e.truthy = true := truthy_of_field "driver" (by decide) (by rw [hd]; simp)
  have hfil : (arrayElements items).filter validLap = arrayElements items :=
    List.filter_eq_self.mpr h
  unfold datasetOf
  rw [if_neg (by simp [htr, hd, hl])]
  simp only [hl, hfil]
  rw [if_neg (by simpa using hne)]

theorem propGet_head (k : Key) (v : JsValue) (rest : List (Key × JsValue)) :
    propGet k ((k, v) :: rest) = v := by
  simp [propGet]

theorem propGet_tail {k k' : Key} (h : k' ≠ k) (v : JsValue) (rest : List (Key × JsValue)) :
    propGet k ((k', v) :: rest) = propGet k rest := by
  simp [propGet, h]

/-- C5. For a payload with two entries under distinct keys, in either order,
one whose laps all have a time that is a number not above 0 and one with a
driver object whose laps, at least one, all have a numeric lap number and a
numeric time above 0: `renderChart` collects exactly one dataset; it carries
the key and the name of the valid driver and one point per lap of that driver,
in order; and with a race selected that dataset is the whole chart. -/
theorem renderChart_one_dataset (lapData : JsValue) (kBad kGood : Key) (eBad eGood : JsValue)
    (dGood : List (Key × JsValue))
    (badItems goodItems : List (Option JsValue)) (badNamed goodNamed : List (String × JsValue))
    (hkeys : kBad ≠ kGood)
    (hpayload : lapData = .obj [(kBad, eBad), (kGood, eGood)] ∨
      lapData = .obj [(kGood, eGood), (kBad, eBad)])
    (hbl : eBad.field "laps" = .arr badItems badNamed)
    (hgd : eGood.field "driver" = .obj dGood) (hgl : eGood.field "laps" = .arr goodItems goodNamed)
    (hbad : ∀ lap ∈ arrayElements badItems,
      ∃ t, lap.field "time" = .num t ∧ t.leZero = true)
    (hgood : ∀ lap ∈ arrayElements goodItems,
      ∃ n t, lap.field "lap" = .num n ∧ lap.field "time" = .num t ∧ t.gtZero = true)
    (hne : arrayElements goodItems ≠ []) :
    ∃ ds : Dataset, buildDatasets lapData = [ds] ∧
      ds.driverCode = kGood.toString ∧
      ds.driverName = (eGood.field "driver").field "name" ∧
      ds.data = (arrayElements goodItems).map (fun lap => ⟨lap.field "lap", lap.field "time"⟩) ∧
      ds.data.length = (arrayElements goodItems).length ∧
      ∀ (w : World) (driver1 driver2 : String) (isRealData : Bool) (raceName : JsValue),
        w.app.selectedRace.getProp (.name "name") = .ok raceName →
        (renderChart lapData driver1 driver2 isRealData w).world.app.lapChart =
          some ⟨[ds], raceName, w.app.selectedYear, isRealData⟩ := by
  have hb : ∀ code, datasetOf code eBad = none := fun code =>
    datasetOf_none_of_invalid code eBad badItems badNamed hbl fun lap hlap => by
      obtain ⟨t, ht, hle⟩ := hbad lap hlap
      exact validLap_false_of_time ht hle
  have hg := fun code => datasetOf_some_of_valid code eGood dGood goodItems goodNamed hgd hgl
    (fun lap hlap => by
      obtain ⟨n, t, hl, ht, hpos⟩ := hgood lap hlap
      exact validLap_of_times hl ht hpos) hne
  have hbuild : buildDatasets lapData = [
      { driverName := (eGood.field "driver").field "name"
        driverCode := kGood.toString
        data := (arrayElements goodItems).map fun lap => ⟨lap.field "lap", lap.field "time"⟩
        color := ((eGood.field "driver").field "color").orElse (.str "#CCCCCC") }] := by
    rcases hpayload with h | h <;> subst h
    · simp [buildDatasets, ownEntries, propGet_head, propGet_tail hkeys, hb, hg]
    · simp [buildDatasets, ownEntries, propGet_head, propGet_tail hkeys.symm, hb, hg]
  refine ⟨_, hbuild, rfl, rfl, rfl, by simp, ?_⟩
  intro w driver1 driver2 isRealData raceName hrace
  unfold renderChart
  simp [hbuild, hrace]
/-- C5, on a payload where `HAM` has only laps with time 0 and -1 and `VER` two
valid laps: one dataset, keyed `VER`, with two points. -/
theorem renderChart_one_dataset_witness :
    ∃ ds : Dataset, buildDatasets onePayload = [ds] ∧ ds.driverCode = "VER" ∧
      ds.data.length = 2 := by
  obtain ⟨ds, h1, h2, -, -, h5, -⟩ := renderChart_one_dataset onePayload (.name "HAM")
    (.name "VER") _ _ _ _ _ _ _ (by decide) (Or.inl rfl) rfl rfl rfl
    (by
      intro lap hlap
      simp [arrayElements] at hlap
      rcases hlap with rfl | rfl
      · exact ⟨_, rfl, by decide⟩
      · exact ⟨_, rfl, by decide⟩)
    (by
      intro lap hlap
      simp [arrayElements] at hlap
      rcases hlap with rfl | rfl
      · exact ⟨_, _, rfl, rfl, by decide⟩
      · exact ⟨_, _, rfl, rfl, by decide⟩)
    (by simp [arrayElements])
  exact ⟨ds, h1, h2, h5⟩


/-! ## The chart section of the page -/

theorem updateFirst_withChartBody (body : ChartSectionBody) (ks : List Kid) :
    (ks.any Kid.isChartSection = false → updateFirst (Kid.withChartBody body) ks = none) ∧
    (ks.any Kid.isChartSection = true → ∃ ks', updateFirst (Kid.withChartBody body) ks = some ks' ∧
      ks'.any Kid.isChartSection = true ∧
      (body = .canvas → ks'.any Kid.isLapCanvas = true)) := by
  induction ks with
  | nil => simp [updateFirst]
  | cons k ks ih =>
    cases k with
    | chartSection b =>
      refine ⟨by simp [Kid.isChartSection], fun _ => ⟨_, rfl, by simp [Kid.isChartSection], ?_⟩⟩
      intro hb
      simp [hb, Kid.isLapCanvas]
    | _ =>
      simp only [updateFirst, Kid.withChartBody, List.any_cons, Kid.isChartSection,
        Bool.false_or, Option.map_eq_none', Kid.isLapCanvas]
      refine ⟨ih.1, fun h => ?_⟩
      obtain ⟨ks', h1, h2, h3⟩ := ih.2 h
      exact ⟨_, by rw [h1]; rfl, by simpa [Kid.isChartSection] using h2,
        fun hb => by simpa [Kid.isLapCanvas] using h3 hb⟩

theorem isChartSection_of_isLapCanvas (k : Kid) (h : k.isLapCanvas = true) :
    k.isChartSection = true := by
  cases k with
  | chartSection b => rfl
  | _ => simp [Kid.isLapCanvas] at h

theorem hasChartSection_of_hasLapCanvas (p : Page) (h : p.hasLapCanvas = true) :
    p.hasChartSection = true := by
  unfold Page.hasLapCanvas at h
  unfold Page.hasChartSection
  rw [List.any_eq_true] at h ⊢
  obtain ⟨k, hk, hc⟩ := h
  exact ⟨k, hk, isChartSection_of_isLapCanvas k hc⟩

theorem setChartSection_spec (body : ChartSectionBody) (p : Page)
    (h : p.hasChartSection = true) :
    (p.setChartSection body).hasChartSection = true ∧
    (body = .canvas → (p.setChartSection body).hasLapCanvas = true) := by
  unfold Page.hasChartSection Page.kids at h
  rw [List.any_append, Bool.or_eq_true] at h
  unfold Page.setChartSection Page.updateFirst
  cases hds : p.driverSelection with
  | none =>
    rw [hds] at h
    simp only [Option.getD_none, List.any_nil, Bool.false_eq_true, false_or] at h
    cases hcc : p.chartContainer with
    | none => rw [hcc] at h; simp at h
    | some cc =>
      rw [hcc] at h
      obtain ⟨ks', h1, h2, h3⟩ := (updateFirst_withChartBody body cc).2 h
      simp only [Option.none_bind, Option.some_bind, h1]
      refine ⟨?_, fun hb => ?_⟩
      · simp [Page.hasChartSection, Page.kids, hds, h2]
      · simp [Page.hasLapCanvas, Page.kids, hds, h3 hb]
  | some ds =>
    rw [hds] at h
    simp only [Option.getD_some] at h
    cases hany : ds.any Kid.isChartSection with
    | true =>
      obtain ⟨ks', h1, h2, h3⟩ := (updateFirst_withChartBody body ds).2 hany
      simp only [Option.some_bind, h1]
      refine ⟨?_, fun hb => ?_⟩
      · simp [Page.hasChartSection, Page.kids, h2]
      · simp [Page.hasLapCanvas, Page.kids, h3 hb]
    | false =>
      have h0 := (updateFirst_withChartBody body ds).1 hany
      simp only [Option.some_bind, h0]
      rw [hany] at h
      simp only [Bool.false_eq_true, false_or] at h
      cases hcc : p.chartContainer with
      | none => rw [hcc] at h; simp at h
      | some cc =>
        rw [hcc] at h
        obtain ⟨ks', h1, h2, h3⟩ := (updateFirst_withChartBody body cc).2 h
        simp only [Option.some_bind, h1]
        refine ⟨?_, fun hb => ?_⟩
        · simp [Page.hasChartSection, Page.kids, hds, h2]
        · simp [Page.hasLapCanvas, Page.kids, hds, h3 hb]

@[simp] theorem destroyLapChart_lapChart (w : World) : (destroyLapChart w).app.lapChart = none := by
  unfold destroyLapChart
  split
  · rfl
  · rename_i h; simpa using h

@[simp] theorem destroyLapChart_pending (w : World) :
    (destroyLapChart w).pending = w.pending := by
  unfold destroyLapChart; split <;> rfl

@[simp] theorem destroyLapChart_draws (w : World) : (destroyLapChart w).draws = w.draws := by
  unfold destroyLapChart; split <;> rfl

@[simp] theorem destroyLapChart_charts (w : World) :
    chartsOf (destroyLapChart w).trace = chartsOf w.trace := by
  unfold destroyLapChart; split <;> simp

@[simp] theorem errorsOf_append (s t : List Effect) :
    errorsOf (s ++ t) = errorsOf s ++ errorsOf t := by
  simp [errorsOf, List.filterMap_append]

@[simp] theorem errorsOf_single (e : Effect) :
    errorsOf [e] = match e with
      | .consoleError m => [m]
      | _ => [] := by
  cases e <;> rfl

@[simp] theorem destroyLapChart_errors (w : World) :
    errorsOf (destroyLapChart w).trace = errorsOf w.trace := by
  unfold destroyLapChart; split <;> simp

/-- With a race selected, the loaders find or create the canvas and go on. -/
theorem canvas_entry (w : World) (n : JsValue)
    (hrace : w.app.selectedRace.getProp (.name "name") = .ok n) :
    ∃ v : World, (if w.page.hasLapCanvas then done w else createLapChart w) = done v ∧
      v.page.hasLapCanvas = true ∧ v.app = w.app ∧ v.trace = w.trace ∧
      v.pending = w.pending ∧ v.draws = w.draws := by
  cases hc : w.page.hasLapCanvas
  · refine ⟨_, by simpa using createLapChart_ok w n hrace, hasLapCanvas_setKids _, ?_, ?_, ?_, ?_⟩ <;>
      simp
  · exact ⟨w, by simp, hc, rfl, rfl, rfl, rfl⟩

/-- With a race selected and a chart section in the page, `createLapTimeChart`
rewrites the section with a canvas and queues the rendering. -/
theorem createLapTimeChart_ok (lapData : JsValue) (a b : String) (real : Bool) (w : World)
    (n : JsValue) (hrace : w.app.selectedRace.getProp (.name "name") = .ok n)
    (hsec : w.page.hasChartSection = true) :
    createLapTimeChart lapData a b real w =
      done ((w.setPage (w.page.setChartSection .canvas)).defer
        (.lapChartTimer lapData a b real)) := by
  unfold createLapTimeChart
  simp [hsec, hrace, Res.andThen]

/-- The remote load of a payload: the world it leaves has the canvas, no lap
chart, and the rendering of the payload queued. -/
theorem loadRealLapTimes_success (env : Env) (a b : String) (w : World) (n : JsValue)
    (resp : Response) (lapData : JsValue)
    (hrace : w.app.selectedRace.getProp (.name "name") = .ok n)
    (hfetch : env.fetch (.lapTimes w.app.selectedYear n a b) = .response resp)
    (hok : resp.ok = true) (hjson : resp.json = .ok lapData) :
    ∃ v : World, loadRealLapTimes env a b w = done (v.defer (.lapChartTimer lapData a b true)) ∧
      v.page.hasLapCanvas = true ∧ v.app.lapChart = none ∧
      v.app.selectedRace = w.app.selectedRace ∧ v.app.selectedYear = w.app.selectedYear ∧
      v.pending = w.pending ∧ v.draws = w.draws ∧ alertsOf v.trace = alertsOf w.trace ∧
      chartsOf v.trace = chartsOf w.trace ∧ errorsOf v.trace = errorsOf w.trace := by
  obtain ⟨v0, hv0, hcan, happ, htr, hpe, hdr⟩ := canvas_entry w n hrace
  unfold loadRealLapTimes
  rw [hv0]
  simp only [Res.andThen, done_thrown, done_world, hcan, Bool.not_true, Bool.false_eq_true,
    if_false]
  have hsec : (destroyLapChart v0).page.hasChartSection = true := by
    rw [destroyLapChart_page]; exact hasChartSection_of_hasLapCanvas _ hcan
  simp only [hsec, if_true]
  have hrace' : ((destroyLapChart v0).setPage
      ((destroyLapChart v0).page.setChartSection (.loading a b))).app.selectedRace.getProp
        (.name "name") = .ok n := by
    simp [happ, hrace]
  have hyear : ((destroyLapChart v0).setPage
      ((destroyLapChart v0).page.setChartSection (.loading a b))).app.selectedYear =
        w.app.selectedYear := by
    simp [happ]
  have hsec' := (setChartSection_spec (.loading a b) (destroyLapChart v0).page hsec).1
  unfold loadRealLapTimesTry
  simp only [hrace', hyear, hfetch, hok, hjson, Bool.not_true, Bool.false_eq_true, if_false]
  rw [createLapTimeChart_ok _ _ _ _ _ n (by simpa using hrace') (by simpa using hsec')]
  refine ⟨_, rfl, ?_, ?_, ?_, ?_, ?_, ?_, ?_, ?_, ?_⟩
  · exact (setChartSection_spec .canvas _ (by simpa using hsec')).2 rfl
  all_goals simp [happ, htr, hpe, hdr]

/-- The value read under a key is `undefined` or an entry of the list. -/
theorem propGet_mem (k : Key) (props : List (Key × JsValue)) :
    propGet k props = .undefined ∨ (k, propGet k props) ∈ props := by
  induction props with
  | nil => exact Or.inl rfl
  | cons kv rest ih =>
    obtain ⟨k', v⟩ := kv
    by_cases h : k' = k
    · subst h; simp [propGet]
    · simp only [propGet, h, if_false, List.mem_cons, Prod.mk.injEq]
      rcases ih with ih | ih
      · exact Or.inl ih
      · exact Or.inr (Or.inr ih)

/-- The value read under a key of the list is the entry under that key. -/
theorem propGet_mem_of_key (k : Key) (props : List (Key × JsValue))
    (h : k ∈ props.map Prod.fst) : (k, propGet k props) ∈ props := by
  induction props with
  | nil => simp at h
  | cons kv rest ih =>
    obtain ⟨k', v⟩ := kv
    by_cases hk : k' = k
    · subst hk; simp [propGet]
    · simp only [List.map_cons, List.mem_cons] at h
      rcases h with h | h
      · exact absurd h.symm hk
      · simp only [propGet, hk, if_false, List.mem_cons]
        exact Or.inr (ih h)

theorem datasetOf_none (code : String) (e : JsValue)
    (h : ∀ items named, e.field "laps" = .arr items named →
      ∀ lap ∈ arrayElements items, validLap lap = false) : datasetOf code e = none := by
  unfold datasetOf
  split
  · rfl
  · split
    · rename_i items named hl
      rw [if_pos]
      simp only [List.length_eq_zero, List.filter_eq_nil_iff]
      intro lap hlap
      simp [h items named hl lap hlap]
    · rfl

theorem field_undefined (name : String) : JsValue.undefined.field name = .undefined := rfl

/-- A payload without a valid lap yields no dataset. -/
theorem buildDatasets_nil (props : List (Key × JsValue))
    (hnone : ∀ kv ∈ props, ∀ items named, kv.2.field "laps" = .arr items named →
      ∀ lap ∈ arrayElements items, validLap lap = false) :
    buildDatasets (.obj props) = [] := by
  unfold buildDatasets ownEntries
  simp only [List.filterMap_map, List.filterMap_eq_nil_iff, Function.comp]
  intro kv _
  apply datasetOf_none
  rcases propGet_mem kv.1 props with hu | hm
  · rw [hu]; intro items named hl; simp [field_undefined] at hl
  · exact hnone _ hm

/-- Without a dataset `renderChart` alerts and returns. -/
theorem renderChart_no_valid (props : List (Key × JsValue))
    (hnone : ∀ kv ∈ props, ∀ items named, kv.2.field "laps" = .arr items named →
      ∀ lap ∈ arrayElements items, validLap lap = false)
    (a b : String) (real : Bool) (w : World) :
    renderChart (.obj props) a b real w =
      done (w.emit (.alert "No valid lap data found. Please try different drivers.")) := by
  unfold renderChart
  simp [buildDatasets_nil props hnone]

/-- The deferred rendering of a payload without a valid lap, in a page with the
canvas. -/
theorem lapChartTimer_no_valid (props : List (Key × JsValue))
    (hnone : ∀ kv ∈ props, ∀ items named, kv.2.field "laps" = .arr items named →
      ∀ lap ∈ arrayElements items, validLap lap = false)
    (a b : String) (real : Bool) (w : World) (hcan : w.page.hasLapCanvas = true) :
    lapChartTimer (.obj props) a b real w =
      done ((destroyLapChart w).emit
        (.alert "No valid lap data found. Please try different drivers.")) := by
  unfold lapChartTimer
  simp [hcan, JsValue.typeofObject, renderChart_no_valid props hnone]

/-- A key that is not an own property reads as `undefined`. -/
theorem propGet_of_not_has (k : Key) (props : List (Key × JsValue))
    (h : propHas k props = false) : propGet k props = .undefined := by
  induction props with
  | nil => rfl
  | cons kv rest ih =>
    simp only [propHas, List.any_cons, Bool.or_eq_false_iff, decide_eq_false_iff_not] at h
    unfold propGet
    rw [if_neg h.1]
    exact ih (by simpa [propHas] using h.2)

/-- An own property is an entry of the list. -/
theorem propGet_mem_of_has (k : Key) (props : List (Key × JsValue))
    (h : propHas k props = true) : (k, propGet k props) ∈ props := by
  apply propGet_mem_of_key
  simp only [propHas, List.any_eq_true, decide_eq_true_eq] at h
  obtain ⟨kv, hkv, rfl⟩ := h
  exact List.mem_map_of_mem _ hkv

/-- A name read from a list of functions is `undefined` or one of them. -/
theorem namedGet_functions (n : String) (l : List (String × JsValue))
    (hl : ∀ kv ∈ l, ∃ name length, kv.2 = JsValue.fn name length) :
    namedGet n l = .undefined ∨ ∃ name length, namedGet n l = .fn name length := by
  induction l with
  | nil => exact Or.inl rfl
  | cons kv rest ih =>
    unfold namedGet
    split
    · exact Or.inr (hl kv (List.mem_cons_self _ _))
    · exact ih fun kv' h => hl kv' (List.mem_cons_of_mem _ h)

/-- What an object inherits under a name is `undefined` or a function. -/
theorem namedGet_objectPrototype (n : String) :
    namedGet n objectPrototype = .undefined ∨
      ∃ name length, namedGet n objectPrototype = .fn name length := by
  apply namedGet_functions
  intro kv hkv
  simp only [objectPrototype, List.mem_cons, List.mem_singleton, List.not_mem_nil,
    or_false] at hkv
  rcases hkv with rfl | rfl | rfl | rfl | rfl | rfl | rfl | rfl | rfl | rfl | rfl <;>
    exact ⟨_, _, rfl⟩

/-- A value read through the prototype chain is an entry of the object,
`undefined` or a function. -/
theorem inheritedGet_cases (k : Key) (props : List (Key × JsValue)) :
    (k, inheritedGet k props) ∈ props ∨ inheritedGet k props = .undefined ∨
      ∃ name length, inheritedGet k props = .fn name length := by
  unfold inheritedGet
  split
  · rename_i h
    exact Or.inl (propGet_mem_of_has k props h)
  · cases k with
    | idx i => exact Or.inr (Or.inl rfl)
    | name n => exact Or.inr (namedGet_objectPrototype n)

/-- One copying statement on a body that is an object. -/
theorem copyDriver_obj (props : List (Key × JsValue)) (driver : String)
    (lapData : List (Key × JsValue)) :
    copyDriver (.obj props) driver lapData =
      .ok (if driver = "__proto__" then lapData
        else if (inheritedGet (Key.ofString driver) props).truthy then
          propSet (Key.ofString driver) (inheritedGet (Key.ofString driver) props) lapData
        else lapData) := by
  unfold copyDriver
  simp only [JsValue.getProp]
  split <;> rfl

/-- What `filterDrivers` keeps of an object: for each of the two codes other
than `__proto__`, the value read under it through the prototype chain, if it is
truthy, each under its key once. -/
theorem filterDrivers_obj (props : List (Key × JsValue)) (a b : String) :
    ∃ lapData : List (Key × JsValue), filterDrivers (.obj props) a b = .ok (.obj lapData) ∧
      (∀ k v, (k, v) ∈ lapData ↔
        ((a ≠ "__proto__" ∧ k = Key.ofString a) ∨ (b ≠ "__proto__" ∧ k = Key.ofString b)) ∧
          v = inheritedGet k props ∧ v.truthy = true) ∧
      (lapData.map Prod.fst).Nodup := by
  unfold filterDrivers
  simp only [copyDriver_obj]
  generalize Key.ofString a = k1
  generalize Key.ofString b = k2
  refine ⟨_, rfl, ?_, ?_⟩
  · intro k v
    by_cases ha : a = "__proto__" <;> by_cases hb' : b = "__proto__" <;>
      by_cases h1 : (inheritedGet k1 props).truthy = true <;>
      by_cases h2 : (inheritedGet k2 props).truthy = true <;>
      by_cases h12 : k1 = k2 <;>
      by_cases hb : k2.before k1 = true <;>
      simp only [ha, hb', h1, h2, h12, hb, propSet, if_true, if_false, List.mem_cons,
        List.mem_singleton, List.not_mem_nil, Prod.mk.injEq, or_false, Bool.false_eq_true,
        ne_eq, not_true_eq_false, not_false_eq_true, false_and, true_and, false_or, or_false] <;>
      aesop
  · by_cases ha : a = "__proto__" <;> by_cases hb' : b = "__proto__" <;>
      by_cases h1 : (inheritedGet k1 props).truthy = true <;>
      by_cases h2 : (inheritedGet k2 props).truthy = true <;>
      by_cases h12 : k1 = k2 <;>
      by_cases hb : k2.before k1 = true
    all_goals simp [ha, hb', h1, h2, h12, hb, propSet]
    all_goals aesop

/-- The bundled load of a resource that is an object: the world it leaves has
the canvas and the rendering of the filtered resource queued; the `catch`
block does not run. -/
theorem loadSampleLapTimes_success (env : Env) (a b : String) (w : World) (n : JsValue)
    (resp : Response) (props lapData : List (Key × JsValue))
    (hrace : w.app.selectedRace.getProp (.name "name") = .ok n)
    (hfetch : env.fetch (.lapTimesFile w.app.selectedYear) = .response resp)
    (hjson : resp.json = .ok (.obj props))
    (hfilter : filterDrivers (.obj props) a b = .ok (.obj lapData)) :
    ∃ v : World,
      loadSampleLapTimes env a b w = done (v.defer (.lapChartTimer (.obj lapData) a b false)) ∧
      v.page.hasLapCanvas = true ∧ v.app = w.app ∧ v.pending = w.pending ∧ v.draws = w.draws ∧
      alertsOf v.trace = alertsOf w.trace ∧ chartsOf v.trace = chartsOf w.trace ∧
      errorsOf v.trace = errorsOf w.trace := by
  obtain ⟨v0, hv0, hcan, happ, htr, hpe, hdr⟩ := canvas_entry w n hrace
  unfold loadSampleLapTimes
  rw [hv0]
  simp only [Res.andThen, done_thrown, done_world]
  unfold loadSampleLapTimesTry
  simp only [happ, hfetch, hjson, hfilter]
  rw [createLapTimeChart_ok _ _ _ _ _ n (by simpa [happ] using hrace)
    (by simpa using hasChartSection_of_hasLapCanvas _ hcan)]
  refine ⟨_, rfl, ?_, ?_, ?_, ?_, ?_, ?_, ?_⟩
  · exact (setChartSection_spec .canvas _
      (by simpa using hasChartSection_of_hasLapCanvas _ hcan)).2 rfl
  all_goals simp [happ, htr, hpe, hdr]

theorem runDeferred_single (env : Env) (v : World) (d : Deferred) (h : v.pending = []) :
    runDeferred env (v.defer d) = runCallback env { v.defer d with pending := [] } d := by
  unfold runDeferred
  simp [World.defer, h]

/-! ## A payload without a valid lap -/

/-- C6. For a payload that is an object none of whose entries has a lap passing
the filter of `renderChart`: `renderChart` alerts that no valid lap data was
found and returns, creating no chart. With a race selected and nothing else
waiting, the remote load of that payload queues its rendering and draws no
random number, and once the rendering has run there is no lap chart, the one
alert has been shown, no chart was created and still no random number drawn.
The bundled load of that resource does the same with the resource filtered to
the two drivers, and its `catch` block, which generates data, does not run (no
error is logged). -/
theorem no_valid_records_no_chart (props : List (Key × JsValue))
    (hnone : ∀ kv ∈ props, ∀ items named, kv.2.field "laps" = .arr items named →
      ∀ lap ∈ arrayElements items, validLap lap = false) :
    (∀ (w : World) (a b : String) (real : Bool),
      renderChart (.obj props) a b real w =
        done (w.emit (.alert "No valid lap data found. Please try different drivers."))) ∧
    (∀ (env : Env) (a b : String) (w : World) (n : JsValue) (resp : Response),
      w.pending = [] → w.app.selectedRace.getProp (.name "name") = .ok n →
      env.fetch (.lapTimes w.app.selectedYear n a b) = .response resp →
      resp.ok = true → resp.json = .ok (.obj props) →
      let r := loadRealLapTimes env a b w
      let t := runDeferred env r.world
      r.thrown = none ∧ r.world.pending = [.lapChartTimer (.obj props) a b true] ∧
      r.world.draws = w.draws ∧
      t.thrown = none ∧ t.world.app.lapChart = none ∧ t.world.pending = [] ∧
      alertsOf t.world.trace =
        alertsOf w.trace ++ ["No valid lap data found. Please try different drivers."] ∧
      chartsOf t.world.trace = chartsOf w.trace ∧ t.world.draws = w.draws) ∧
    (∀ (env : Env) (a b : String) (w : World) (n : JsValue) (resp : Response),
      w.pending = [] → w.app.selectedRace.getProp (.name "name") = .ok n →
      env.fetch (.lapTimesFile w.app.selectedYear) = .response resp →
      resp.json = .ok (.obj props) →
      let r := loadSampleLapTimes env a b w
      let t := runDeferred env r.world
      r.thrown = none ∧
      (∃ lapData, filterDrivers (.obj props) a b = .ok lapData ∧
        r.world.pending = [.lapChartTimer lapData a b false]) ∧
      errorsOf r.world.trace = errorsOf w.trace ∧ r.world.draws = w.draws ∧
      t.thrown = none ∧ t.world.app.lapChart = none ∧ t.world.pending = [] ∧
      alertsOf t.world.trace =
        alertsOf w.trace ++ ["No valid lap data found. Please try different drivers."] ∧
      chartsOf t.world.trace = chartsOf w.trace ∧ t.world.draws = w.draws) := by
  refine ⟨fun w a b real => renderChart_no_valid props hnone a b real w, ?_, ?_⟩
  · intro env a b w n resp hpend hrace hfetch hok hjson r t
    obtain ⟨v, hv, hcan, hchart, -, -, hpe, hdr, hal, hch, -⟩ :=
      loadRealLapTimes_success env a b w n resp (.obj props) hrace hfetch hok hjson
    have ht : t = done ((destroyLapChart { v.defer (.lapChartTimer (.obj props) a b true) with
        pending := [] }).emit
          (.alert "No valid lap data found. Please try different drivers.")) := by
      show runDeferred env (loadRealLapTimes env a b w).world = _
      rw [hv, done_world, runDeferred_single env v _ (by rw [hpe, hpend])]
      exact lapChartTimer_no_valid props hnone a b true _ hcan
    have hr : r = done (v.defer (.lapChartTimer (.obj props) a b true)) := hv
    rw [ht, hr]
    simp [hpe, hpend, hdr, hal, hch]
  · intro env a b w n resp hpend hrace hfetch hjson r t
    obtain ⟨lapData, hfil, hmem, -⟩ := filterDrivers_obj props a b
    have hnone' : ∀ kv ∈ lapData, ∀ items named, kv.2.field "laps" = .arr items named →
        ∀ lap ∈ arrayElements items, validLap lap = false := by
      intro kv hkv
      obtain ⟨-, hval, htruthy⟩ := (hmem kv.1 kv.2).1 hkv
      rcases inheritedGet_cases kv.1 props with hm | hu | ⟨name, length, hf⟩
      · rw [hval]; exact hnone _ hm
      · rw [hval, hu] at htruthy; simp [JsValue.truthy] at htruthy
      · intro items named hl
        rw [hval, hf] at hl
        simp [JsValue.field, JsValue.getProp] at hl
    obtain ⟨v, hv, hcan, -, hpe, hdr, hal, hch, her⟩ :=
      loadSampleLapTimes_success env a b w n resp props lapData hrace hfetch hjson hfil
    have ht : t = done ((destroyLapChart { v.defer (.lapChartTimer (.obj lapData) a b false) with
        pending := [] }).emit
          (.alert "No valid lap data found. Please try different drivers.")) := by
      show runDeferred env (loadSampleLapTimes env a b w).world = _
      rw [hv, done_world, runDeferred_single env v _ (by rw [hpe, hpend])]
      exact lapChartTimer_no_valid lapData hnone' a b false _ hcan
    have hr : r = done (v.defer (.lapChartTimer (.obj lapData) a b false)) := hv
    rw [ht, hr]
    refine ⟨rfl, ⟨_, hfil, by simp [hpe, hpend]⟩, ?_⟩
    simp [hpe, hpend, hdr, hal, hch, her]

/-- C6, on the sample session and a payload whose laps have time 0 or a lap
number that is a string: after the remote load and its rendering there is no
chart and the alert has been shown. -/
theorem no_valid_records_no_chart_witness :
    (runDeferred noValidEnv
      (loadRealLapTimes noValidEnv "HAM" "VER" sampleWorld).world).world.app.lapChart = none ∧
    alertsOf (runDeferred noValidEnv
      (loadRealLapTimes noValidEnv "HAM" "VER" sampleWorld).world).world.trace =
      ["No valid lap data found. Please try different drivers."] := by
  have hnone : ∀ kv ∈ noValidPayload, ∀ items named, kv.2.field "laps" = .arr items named →
      ∀ lap ∈ arrayElements items, validLap lap = false := by
    intro kv hkv items named hl lap hlap
    simp only [noValidPayload, List.mem_cons, List.mem_singleton, List.not_mem_nil,
      or_false] at hkv
    rcases hkv with rfl | rfl
    all_goals
      simp only [JsValue.field, JsValue.getProp, propGet, JsValue.array] at hl
      simp at hl
      obtain ⟨rfl, -⟩ := hl
      simp [arrayElements] at hlap
      subst hlap
      decide
  have h := (no_valid_records_no_chart noValidPayload hnone).2.1 noValidEnv "HAM" "VER"
    sampleWorld _ _ rfl rfl rfl rfl rfl
  exact ⟨h.2.2.2.2.1, h.2.2.2.2.2.2.1⟩

/-! ## A failed telemetry request is shown only in an existing section -/

/-- When the telemetry request fails, the page after `loadTelemetry` differs
from the page before at most in the chart container the call creates and in
the telemetry section found before the request: without such a section the
failure is written nowhere in the page, and no alert is shown either. -/
theorem loadTelemetry_failure_page (env : Env) (driverCode : String) (lapNumber : JsValue)
    (w : World) (hmode : w.app.useRealData = true) (hidle : w.app.isLoadingTelemetry = false)
    (hfail : ∀ race,
      (env.fetch (.telemetry w.app.selectedYear race driverCode lapNumber)).failed = true) :
    alertsOf (loadTelemetry env driverCode lapNumber w).world.trace = alertsOf w.trace ∧
    ∃ e : JsError, (loadTelemetry env driverCode lapNumber w).world.page =
      if (getOrCreateChartContainer w).page.hasTelemetrySection then
        (((getOrCreateChartContainer w).page.setTelemetrySection
          (.loading driverCode lapNumber)).setTelemetrySection
            (.failed driverCode lapNumber e.message))
      else (getOrCreateChartContainer w).page := by
  have hpage : (getOrCreateChartContainer
      (w.setApp { w.app with isLoadingTelemetry := true })).page =
        (getOrCreateChartContainer w).page := by
    unfold getOrCreateChartContainer
    simp only [setApp_page]
    split <;> rfl
  unfold loadTelemetry
  rw [if_neg (by simp [hmode]), if_neg (by simp [hidle])]
  simp only []
  rw [hpage]
  cases hex : (getOrCreateChartContainer w).page.hasTelemetrySection
  · obtain ⟨e, es, -, hal, heq⟩ := loadTelemetry_tail_failed env driverCode lapNumber
      (getOrCreateChartContainer (w.setApp { w.app with isLoadingTelemetry := true })) false
      (by simpa using hfail)
    simp only [Bool.false_eq_true, if_false] at heq ⊢
    rw [heq]
    exact ⟨by simp [hal], e, by simp [hpage]⟩
  · obtain ⟨e, es, -, hal, heq⟩ := loadTelemetry_tail_failed env driverCode lapNumber
      ((getOrCreateChartContainer (w.setApp { w.app with isLoadingTelemetry := true })).setPage
        ((getOrCreateChartContainer w).page.setTelemetrySection
          (.loading driverCode lapNumber))) true
      (by simpa using hfail)
    simp only [if_true] at heq ⊢
    rw [heq]
    exact ⟨by simp [hal], e, by simp⟩

/-- C9, the failing input. In REMOTE mode, the lap chart in the page and no
telemetry section yet, the telemetry of lap 5 of `LEC` is requested and the
server answers with status 500: the call returns normally, the page is exactly
as it was (no error panel), no alert is shown, and the failure is written to
the console only. -/
theorem loadTelemetry_failure_not_surfaced :
    chartWorld.app.useRealData = true ∧
    chartWorld.page.hasTelemetrySection = false ∧
    (∀ race, (failingEnv.fetch
      (.telemetry chartWorld.app.selectedYear race "LEC" (.ofNat 5))).failed = true) ∧
    (loadTelemetry failingEnv "LEC" (.ofNat 5) chartWorld).thrown = none ∧
    (loadTelemetry failingEnv "LEC" (.ofNat 5) chartWorld).world.page = chartWorld.page ∧
    alertsOf (loadTelemetry failingEnv "LEC" (.ofNat 5) chartWorld).world.trace = [] ∧
    errorsOf (loadTelemetry failingEnv "LEC" (.ofNat 5) chartWorld).world.trace =
      ["Error loading telemetry:"] := by
  refine ⟨rfl, rfl, fun _ => rfl, ?_, ?_, ?_, ?_⟩
  · exact loadTelemetry_thrown failingEnv "LEC" (.ofNat 5) chartWorld
  · obtain ⟨e, he⟩ := (loadTelemetry_failure_page failingEnv "LEC" (.ofNat 5) chartWorld rfl rfl
      fun _ => rfl).2
    rw [he]
    rfl
  · exact (loadTelemetry_failure_page failingEnv "LEC" (.ofNat 5) chartWorld rfl rfl
      fun _ => rfl).1
  · rfl

/-! ## Rounding to a double -/

/-- Rounding to the nearest integer does not cross an integer above. -/
theorem roundHalfEven_le (q : ℚ) (m : ℤ) (h : q ≤ m) : roundHalfEven q ≤ m := by
  have hfl : ⌊q⌋ ≤ m := by
    have h2 : (⌊q⌋ : ℚ) ≤ m := (Int.floor_le q).trans h
    exact_mod_cast h2
  have hup : (1 : ℚ) / 2 ≤ q - ⌊q⌋ → ⌊q⌋ + 1 ≤ m := by
    intro hfrac
    have hlt : (⌊q⌋ : ℚ) < m := by linarith
    have : ⌊q⌋ < m := by exact_mod_cast hlt
    omega
  unfold roundHalfEven
  simp only []
  split
  · exact hfl
  · rename_i h1
    push_neg at h1
    split
    · exact hup h1
    · split
      · exact hfl
      · exact hup h1

/-- Rounding to the nearest integer does not cross an integer below. -/
theorem le_roundHalfEven (q : ℚ) (m : ℤ) (h : (m : ℚ) ≤ q) : m ≤ roundHalfEven q := by
  have hfl : m ≤ ⌊q⌋ := Int.le_floor.mpr h
  unfold roundHalfEven
  simp only []
  split
  · exact hfl
  · split
    · omega
    · split
      · exact hfl
      · omega

theorem binade_le (x : ℚ) (e : ℤ) (he : 0 ≤ e) (h : |x| < 2 ^ (e + 1)) : binade x ≤ e := by
  unfold binade
  apply max_le _ (by omega)
  rcases eq_or_lt_of_le (abs_nonneg x) with h0 | hpos
  · rw [← h0, Int.log_zero_right]
    exact he
  · have := (Int.lt_zpow_iff_log_lt (b := 2) (by norm_num) hpos (x := e + 1)).mp
      (by exact_mod_cast h)
    omega

theorem binade_eq (x : ℚ) (e : ℤ) (he : -1022 ≤ e) (h1 : 2 ^ e ≤ |x|) (h2 : |x| < 2 ^ (e + 1)) :
    binade x = e := by
  have hpos : 0 < |x| := lt_of_lt_of_le (by positivity) h1
  have hlo := (Int.zpow_le_iff_le_log (b := 2) (by norm_num) hpos (x := e)).mp
    (by exact_mod_cast h1)
  have hhi := (Int.lt_zpow_iff_log_lt (b := 2) (by norm_num) hpos (x := e + 1)).mp
    (by exact_mod_cast h2)
  unfold binade
  rw [max_eq_left (by omega)]
  omega

/-- An integer is on the grid of every binade up to the 52nd: rounding a number
below `2^53` in magnitude does not cross an integer. -/
theorem roundDouble_le_int (x : ℚ) (c : ℤ) (hx : x ≤ c) (hsmall : |x| < 2 ^ (53 : ℤ)) :
    roundDouble x ≤ c := by
  have he : binade x - 52 ≤ 0 := by
    have := binade_le x 52 (by norm_num) (by norm_num; exact_mod_cast hsmall)
    omega
  obtain ⟨k, hk⟩ : ∃ k : ℕ, binade x - 52 = -(k : ℤ) := ⟨(-(binade x - 52)).toNat, by omega⟩
  unfold roundDouble
  simp only [hk]
  have hu : (0 : ℚ) < 2 ^ (-(k : ℤ)) := by positivity
  have hq : x / 2 ^ (-(k : ℤ)) ≤ ((c * 2 ^ k : ℤ) : ℚ) := by
    rw [div_le_iff₀ hu]
    push_cast
    rw [mul_assoc, zpow_neg, zpow_natCast, mul_inv_cancel₀ (by positivity), mul_one]
    exact hx
  have hr := roundHalfEven_le _ _ hq
  calc (roundHalfEven (x / 2 ^ (-(k : ℤ))) : ℚ) * 2 ^ (-(k : ℤ))
      ≤ ((c * 2 ^ k : ℤ) : ℚ) * 2 ^ (-(k : ℤ)) := by
        apply mul_le_mul_of_nonneg_right _ hu.le
        exact_mod_cast hr
    _ = c := by
        push_cast
        rw [mul_assoc, zpow_neg, zpow_natCast, mul_inv_cancel₀ (by positivity), mul_one]

theorem le_roundDouble_int (x : ℚ) (c : ℤ) (hx : (c : ℚ) ≤ x) (hsmall : |x| < 2 ^ (53 : ℤ)) :
    (c : ℚ) ≤ roundDouble x := by
  have he : binade x - 52 ≤ 0 := by
    have := binade_le x 52 (by norm_num) (by norm_num; exact_mod_cast hsmall)
    omega
  obtain ⟨k, hk⟩ : ∃ k : ℕ, binade x - 52 = -(k : ℤ) := ⟨(-(binade x - 52)).toNat, by omega⟩
  unfold roundDouble
  simp only [hk]
  have hu : (0 : ℚ) < 2 ^ (-(k : ℤ)) := by positivity
  have hq : ((c * 2 ^ k : ℤ) : ℚ) ≤ x / 2 ^ (-(k : ℤ)) := by
    rw [le_div_iff₀ hu]
    push_cast
    rw [mul_assoc, zpow_neg, zpow_natCast, mul_inv_cancel₀ (by positivity), mul_one]
    exact hx
  have hr := le_roundHalfEven _ _ hq
  calc (c : ℚ) = ((c * 2 ^ k : ℤ) : ℚ) * 2 ^ (-(k : ℤ)) := by
        push_cast
        rw [mul_assoc, zpow_neg, zpow_natCast, mul_inv_cancel₀ (by positivity), mul_one]
    _ ≤ (roundHalfEven (x / 2 ^ (-(k : ℤ))) : ℚ) * 2 ^ (-(k : ℤ)) := by
        apply mul_le_mul_of_nonneg_right _ hu.le
        exact_mod_cast hr

/-- The time `base + Math.random() * 5` for a draw in `[0, 1)` and a base that
is an integer between 0 and 1000. -/
theorem sampleTime_bounds (base : ℕ) (r : ℚ) (hbase : base ≤ 1000) (h0 : 0 ≤ r) (h1 : r < 1) :
    (base : ℚ) ≤ doubleAdd base (doubleMul r 5) ∧ doubleAdd base (doubleMul r 5) ≤ base + 5 := by
  have hm0 : (0 : ℚ) ≤ doubleMul r 5 := by
    have := le_roundDouble_int (r * 5) 0 (by push_cast; positivity)
      (by rw [abs_of_nonneg (by positivity)]; norm_num; linarith)
    simpa [doubleMul] using this
  have hm5 : doubleMul r 5 ≤ 5 := by
    have := roundDouble_le_int (r * 5) 5 (by push_cast; linarith)
      (by rw [abs_of_nonneg (by positivity)]; norm_num; linarith)
    simpa [doubleMul] using this
  have hb : (base : ℚ) ≤ 1000 := by exact_mod_cast hbase
  have hsmall : |(base : ℚ) + doubleMul r 5| < 2 ^ (53 : ℤ) := by
    rw [abs_of_nonneg (by positivity)]; norm_num; linarith
  constructor
  · have := le_roundDouble_int (base + doubleMul r 5) base (by push_cast; linarith) hsmall
    simpa [doubleAdd] using this
  · have := roundDouble_le_int (base + doubleMul r 5) (base + 5) (by push_cast; linarith) hsmall
    simpa [doubleAdd] using this

theorem roundHalfEven_down (q : ℚ) (f : ℤ) (h1 : (f : ℚ) ≤ q) (h2 : q - f < 1 / 2) :
    roundHalfEven q = f := by
  have hf : ⌊q⌋ = f := Int.floor_eq_iff.mpr ⟨h1, by linarith⟩
  unfold roundHalfEven
  simp only [hf]
  rw [if_pos h2]

theorem roundHalfEven_up (q : ℚ) (f : ℤ) (h1 : 1 / 2 < q - f) (h2 : q < f + 1) :
    roundHalfEven q = f + 1 := by
  have hf : ⌊q⌋ = f := Int.floor_eq_iff.mpr ⟨by linarith, h2⟩
  unfold roundHalfEven
  simp only [hf]
  rw [if_neg (by linarith), if_pos h1]

/-- The number `1 - 2^-52` is a double: the greatest value a generator with 52
random bits returns, and a value one with 53 bits returns. -/
theorem isDouble_pred_one : IsDouble (4503599627370495 / 4503599627370496) := by
  have hb : binade (4503599627370495 / 4503599627370496) = -1 :=
    binade_eq _ _ (by norm_num) (by rw [abs_of_nonneg (by norm_num)]; norm_num)
      (by rw [abs_of_nonneg (by norm_num)]; norm_num)
  unfold IsDouble roundDouble
  simp only [hb]
  rw [roundHalfEven_down _ 9007199254740990 (by norm_num) (by norm_num)]
  norm_num

theorem doubleMul_pred_one :
    doubleMul (4503599627370495 / 4503599627370496) 5 = 5629499534213119 / 1125899906842624 := by
  have hb : binade (4503599627370495 / 4503599627370496 * 5) = 2 :=
    binade_eq _ _ (by norm_num) (by rw [abs_of_nonneg (by norm_num)]; norm_num)
      (by rw [abs_of_nonneg (by norm_num)]; norm_num)
  unfold doubleMul roundDouble
  simp only [hb]
  rw [roundHalfEven_up _ 5629499534213118 (by norm_num) (by norm_num)]
  norm_num

theorem doubleAdd_90_pred :
    doubleAdd 90 (5629499534213119 / 1125899906842624) = 95 := by
  have hb : binade (90 + 5629499534213119 / 1125899906842624) = 6 :=
    binade_eq _ _ (by norm_num) (by rw [abs_of_nonneg (by norm_num)]; norm_num)
      (by rw [abs_of_nonneg (by norm_num)]; norm_num)
  unfold doubleAdd roundDouble
  simp only [hb]
  rw [roundHalfEven_up _ 6685030696878079 (by norm_num) (by norm_num)]
  norm_num

/-! ## The generated lap data -/

theorem Key.toString_ofString (s : String) : (Key.ofString s).toString = s := by
  unfold Key.ofString
  split
  · split
    · rename_i h; exact h.1
    · rfl
  · rfl

theorem Key.ofString_injective {a b : String} (h : Key.ofString a = Key.ofString b) : a = b := by
  rw [← Key.toString_ofString a, ← Key.toString_ofString b, h]

/-- The loop of `generateSampleLapData` in closed form: after `n` turns each
array holds the laps 1 to `n`, the times of the first driver from the draws of
even rank and those of the second from the draws of odd rank. -/
theorem sampleLoop_closed (random : Nat → ℚ) (draws n : Nat) :
    (List.range' 1 n).foldl (sampleStep random) ([], [], draws) =
      ((List.range n).map (fun i => JsValue.obj [(.name "lap", .ofNat (i + 1)),
          (.name "time", .num (.fin (doubleAdd 90 (doubleMul (random (draws + 2 * i)) 5))))]),
       (List.range n).map (fun i => JsValue.obj [(.name "lap", .ofNat (i + 1)),
          (.name "time", .num (.fin (doubleAdd 91 (doubleMul (random (draws + 2 * i + 1)) 5))))]),
       draws + 2 * n) := by
  induction n with
  | zero => rfl
  | succ n ih =>
    rw [List.range'_concat, List.foldl_append, ih, List.range_succ]
    simp only [List.foldl_cons, List.foldl_nil, sampleStep, List.map_append, List.map_cons,
      List.map_nil, mul_one]
    refine Prod.ext ?_ (Prod.ext ?_ ?_)
    · simp [Nat.add_comm]
    · simp [Nat.add_comm]
    · simp only []; omega

/-- The value `generateSampleLapData` returns for two distinct codes: the two
entries under their keys. -/
theorem generateSampleLapData_entries (random : Nat → ℚ) (draws : Nat) (driver1 driver2 : String)
    (hne : driver1 ≠ driver2) :
    ∃ props : List (Key × JsValue),
      (generateSampleLapData random draws driver1 driver2).1 = .obj props ∧
      (∀ code, code ∈ (ownEntries (.obj props)).map Prod.fst ↔
        code = driver1 ∨ code = driver2) ∧
      (ownEntries (.obj props)).length = 2 ∧
      propGet (Key.ofString driver1) props = sampleEntry driver1 "#00D2BE"
        ((List.range 20).map (fun i => JsValue.obj [(.name "lap", .ofNat (i + 1)),
          (.name "time", .num (.fin (doubleAdd 90 (doubleMul (random (draws + 2 * i)) 5))))])) ∧
      propGet (Key.ofString driver2) props = sampleEntry driver2 "#FF8700"
        ((List.range 20).map (fun i => JsValue.obj [(.name "lap", .ofNat (i + 1)),
          (.name "time",
            .num (.fin (doubleAdd 91 (doubleMul (random (draws + 2 * i + 1)) 5))))])) := by
  have hk : Key.ofString driver1 ≠ Key.ofString driver2 := fun h => hne (Key.ofString_injective h)
  unfold generateSampleLapData
  simp only [sampleLoop_closed]
  refine ⟨_, rfl, ?_, ?_, ?_, ?_⟩
  · intro code
    by_cases hb : (Key.ofString driver2).before (Key.ofString driver1) = true
    · simp [propSet, hk, hb, ownEntries, Key.toString_ofString, or_comm, eq_comm]
    · simp [propSet, hk, hb, ownEntries, Key.toString_ofString, eq_comm]
  · by_cases hb : (Key.ofString driver2).before (Key.ofString driver1) = true <;>
      simp [propSet, hk, hb, ownEntries]
  · by_cases hb : (Key.ofString driver2).before (Key.ofString driver1) = true <;>
      simp [propSet, propGet, hk, hk.symm, hb]
  · by_cases hb : (Key.ofString driver2).before (Key.ofString driver1) = true <;>
      simp [propSet, propGet, hk, hk.symm, hb]

/-- C10, as amended. For two distinct codes and draws in `[0, 1)`,
`generateSampleLapData` returns an object whose keys are exactly the two codes;
each entry holds 20 laps numbered 1 to 20 in order; every time of the first
driver lies in `[90, 95]` and every time of the second in `[91, 96]`, both ends
included. -/
theorem generateSampleLapData_bounds (random : Nat → ℚ) (draws : Nat) (driver1 driver2 : String)
    (hne : driver1 ≠ driver2) (hrand : ∀ i, 0 ≤ random i ∧ random i < 1) :
    ∃ (props : List (Key × JsValue)) (laps1 laps2 : List JsValue),
      (generateSampleLapData random draws driver1 driver2).1 = .obj props ∧
      (∀ code, code ∈ (ownEntries (.obj props)).map Prod.fst ↔
        code = driver1 ∨ code = driver2) ∧
      (ownEntries (.obj props)).length = 2 ∧
      (propGet (Key.ofString driver1) props).field "laps" = .array laps1 ∧
      (propGet (Key.ofString driver2) props).field "laps" = .array laps2 ∧
      laps1.length = 20 ∧ laps2.length = 20 ∧
      laps1.map (fun lap => lap.field "lap") = (List.range' 1 20).map JsValue.ofNat ∧
      laps2.map (fun lap => lap.field "lap") = (List.range' 1 20).map JsValue.ofNat ∧
      (∀ lap ∈ laps1, ∃ time : ℚ, lap.field "time" = .num (.fin time) ∧
        90 ≤ time ∧ time ≤ 95) ∧
      (∀ lap ∈ laps2, ∃ time : ℚ, lap.field "time" = .num (.fin time) ∧
        91 ≤ time ∧ time ≤ 96) := by
  obtain ⟨props, hp, hkeys, hlen, h1, h2⟩ :=
    generateSampleLapData_entries random draws driver1 driver2 hne
  refine ⟨props, _, _, hp, hkeys, hlen, by rw [h1]; rfl, by rw [h2]; rfl, by simp, by simp,
    ?_, ?_, ?_, ?_⟩
  · simp only [List.map_map]
    rfl
  · simp only [List.map_map]
    rfl
  · intro lap hlap
    simp only [List.mem_map, List.mem_range] at hlap
    obtain ⟨i, -, rfl⟩ := hlap
    have hb := sampleTime_bounds 90 (random (draws + 2 * i)) (by norm_num) (hrand _).1 (hrand _).2
    exact ⟨_, rfl, by simpa using hb.1, by norm_num at hb; exact hb.2⟩
  · intro lap hlap
    simp only [List.mem_map, List.mem_range] at hlap
    obtain ⟨i, -, rfl⟩ := hlap
    have hb := sampleTime_bounds 91 (random (draws + 2 * i + 1)) (by norm_num) (hrand _).1
      (hrand _).2
    exact ⟨_, rfl, by simpa using hb.1, by norm_num at hb; exact hb.2⟩

/-- C10, the bound as claimed fails. The double `1 - 2^-52` is a draw in
`[0, 1)`; with it the first driver's times are not all below 95: five times the
draw rounds to `5 - 2^-50`, and 90 plus that rounds to 95. -/
theorem generateSampleLapData_reaches_upper_end :
    IsDouble (4503599627370495 / 4503599627370496) ∧
    (0 : ℚ) ≤ 4503599627370495 / 4503599627370496 ∧
    (4503599627370495 / 4503599627370496 : ℚ) < 1 ∧
    ∃ (props : List (Key × JsValue)) (laps1 : List JsValue),
      (generateSampleLapData (fun _ => 4503599627370495 / 4503599627370496) 0 "HAM" "VER").1 =
        .obj props ∧
      (propGet (Key.ofString "HAM") props).field "laps" = .array laps1 ∧
      ¬ ∀ lap ∈ laps1, ∃ time : ℚ, lap.field "time" = .num (.fin time) ∧
        90 ≤ time ∧ time < 95 := by
  refine ⟨isDouble_pred_one, by norm_num, by norm_num, ?_⟩
  obtain ⟨props, hp, -, -, h1, -⟩ :=
    generateSampleLapData_entries (fun _ => 4503599627370495 / 4503599627370496) 0 "HAM" "VER"
      (by decide)
  refine ⟨props, _, hp, by rw [h1]; rfl, ?_⟩
  intro hall
  obtain ⟨time, ht, -, hlt⟩ := hall
    (.obj [(.name "lap", .ofNat (0 + 1)), (.name "time",
      .num (.fin (doubleAdd 90 (doubleMul (4503599627370495 / 4503599627370496) 5))))])
    (List.mem_map.mpr ⟨0, by simp, rfl⟩)
  rw [doubleMul_pred_one, doubleAdd_90_pred] at ht
  have h95 : time = 95 := by
    have hf : JsValue.field (.obj [(.name "lap", .ofNat (0 + 1)),
        (.name "time", .num (.fin 95))]) "time" = .num (.fin 95) := rfl
    rw [hf] at ht
    injection ht with ht
    injection ht with ht
    exact ht.symm
  rw [h95] at hlt
  exact absurd hlt (by norm_num)

/-- C10 as amended, for `HAM` and `VER` and every draw equal to 0. -/
theorem generateSampleLapData_bounds_witness :
    ∃ (props : List (Key × JsValue)) (laps1 laps2 : List JsValue),
      (generateSampleLapData (fun _ => 0) 0 "HAM" "VER").1 = .obj props ∧
      (∀ code, code ∈ (ownEntries (.obj props)).map Prod.fst ↔ code = "HAM" ∨ code = "VER") ∧
      (ownEntries (.obj props)).length = 2 ∧
      (propGet (Key.ofString "HAM") props).field "laps" = .array laps1 ∧
      (propGet (Key.ofString "VER") props).field "laps" = .array laps2 ∧
      laps1.length = 20 ∧ laps2.length = 20 ∧
      laps1.map (fun lap => lap.field "lap") = (List.range' 1 20).map JsValue.ofNat ∧
      laps2.map (fun lap => lap.field "lap") = (List.range' 1 20).map JsValue.ofNat ∧
      (∀ lap ∈ laps1, ∃ time : ℚ, lap.field "time" = .num (.fin time) ∧
        90 ≤ time ∧ time ≤ 95) ∧
      (∀ lap ∈ laps2, ∃ time : ℚ, lap.field "time" = .num (.fin time) ∧
        91 ≤ time ∧ time ≤ 96) :=
  generateSampleLapData_bounds (fun _ => 0) 0 "HAM" "VER" (by decide)
    (fun _ => ⟨le_refl 0, by norm_num⟩)

/-! ## The probe of the mode -/

/-- C11: in a session whose `useRealData` is still false, as the constructor
leaves it, `testApiConnection` ends in REMOTE mode exactly when the health
request was answered by a response that is ok; a rejected request (a network
error) and a response that is not ok both end in FALLBACK mode. -/
theorem testApiConnection_mode (env : Env) (w : World) (hfresh : w.app.useRealData = false) :
    ((testApiConnection env w).app.useRealData = true ↔
      ∃ resp : Response, env.fetch .health = .response resp ∧ resp.ok = true) ∧
    (∀ e : JsError, env.fetch .health = .rejected e →
      (testApiConnection env w).app.useRealData = false) ∧
    (∀ resp : Response, env.fetch .health = .response resp → resp.ok = false →
      (testApiConnection env w).app.useRealData = false) := by
  unfold testApiConnection
  cases hf : env.fetch .health with
  | rejected e => simp
  | response resp =>
    cases hok : resp.ok <;> simp [hok, hfresh]

/-- The probe of the fresh session against the network that answers 500. -/
theorem testApiConnection_mode_witness :
    freshWorld.app.useRealData = false ∧
    ((testApiConnection failingEnv freshWorld).app.useRealData = true ↔
      ∃ resp : Response, failingEnv.fetch .health = .response resp ∧ resp.ok = true) :=
  ⟨rfl, (testApiConnection_mode failingEnv freshWorld rfl).1⟩

/-! ## A telemetry body of the wrong shape -/

/-- C12, failing input: in the sample session with the lap chart built, the
telemetry request for lap 5 of `LEC` is answered with status 200 and a body
that has the keys `driver` and `lap` only. `loadTelemetry` returns normally and so does the
timer that appends the telemetry section; the frame callback that shapes the
payload then throws a `TypeError` nothing catches: no chart is built and
nothing is logged by the code. -/
theorem telemetry_wrong_shape_escapes :
    (loadTelemetry shapelessEnv "LEC" (.ofNat 5) chartWorld).thrown = none ∧
    (runDeferred shapelessEnv
      (loadTelemetry shapelessEnv "LEC" (.ofNat 5) chartWorld).world).thrown = none ∧
    (runDeferred shapelessEnv (runDeferred shapelessEnv
      (loadTelemetry shapelessEnv "LEC" (.ofNat 5) chartWorld).world).world).thrown =
      some (typeError "Cannot read properties of undefined (reading 'slice')") ∧
    (runDeferred shapelessEnv (runDeferred shapelessEnv
      (loadTelemetry shapelessEnv "LEC" (.ofNat 5)
        chartWorld).world).world).world.app.telemetryChart = none ∧
    errorsOf (runDeferred shapelessEnv (runDeferred shapelessEnv
      (loadTelemetry shapelessEnv "LEC" (.ofNat 5) chartWorld).world).world).world.trace = [] := by
  refine ⟨rfl, rfl, rfl, rfl, rfl⟩

/-! ## Built-in data and the bundled fallback -/

/-- The bundled calendar yielding no body, `loadF1CalendarFallback` logs the
error and stores the built-in calendar. -/
theorem loadF1CalendarFallback_unreadable (env : Env) (w : World)
    (h : (env.fetch .calendarFile).unreadable = true) :
    loadF1CalendarFallback env w =
      { w with
        app := { w.app with f1Calendar := builtinCalendar }
        trace := w.trace ++ [.fetch .calendarFile, .consoleError "Error loading F1 calendar"] } := by
  unfold loadF1CalendarFallback
  cases hf : env.fetch .calendarFile with
  | rejected e => simp [World.emit, World.setApp]
  | response resp =>
    rw [hf] at h
    cases hj : resp.json with
    | error e => simp [World.emit, World.setApp, hj]
    | ok v => simp [FetchResult.unreadable, hj] at h

/-- A failed driver request stores the built-in list. -/
theorem loadAvailableDrivers_failed (env : Env) (w : World)
    (hyear : yearTruthy w.app.selectedYear = true) (hrace : w.app.selectedRace.truthy = true)
    (hmode : w.app.useRealData = true)
    (h : (env.fetch (.drivers w.app.selectedYear (w.app.selectedRace.field "name"))).failed = true ∨
      (env.fetch (.drivers w.app.selectedYear (w.app.selectedRace.field "name"))).unreadable = true) :
    loadAvailableDrivers env w =
      { w with
        app := { w.app with availableDrivers := getDefaultDrivers }
        trace := w.trace ++
          [.fetch (.drivers w.app.selectedYear (w.app.selectedRace.field "name"))] } := by
  unfold loadAvailableDrivers
  rw [if_neg (by simp [hyear, hrace, hmode])]
  simp only []
  cases hf : env.fetch (.drivers w.app.selectedYear (w.app.selectedRace.field "name")) with
  | rejected e => simp [World.emit, World.setApp]
  | response resp =>
    rw [hf] at h
    cases hok : resp.ok
    · simp [World.emit, World.setApp, hok]
    · cases hj : resp.json with
      | error e => simp [World.emit, World.setApp, hj]
      | ok v => simp [FetchResult.unreadable, FetchResult.failed, hj, hok] at h

/-- A failed race request changes nothing but the trace. -/
theorem loadRaceSchedule_failed (env : Env) (year : String) (w : World)
    (h : (env.fetch (.races year)).failed = true ∨ (env.fetch (.races year)).unreadable = true) :
    (loadRaceSchedule env year w).app = w.app ∧ (loadRaceSchedule env year w).page = w.page ∧
    (loadRaceSchedule env year w).pending = w.pending ∧
    alertsOf (loadRaceSchedule env year w).trace = alertsOf w.trace ∧
    fetchesOf (loadRaceSchedule env year w).trace = fetchesOf w.trace ++ [.races year] := by
  unfold loadRaceSchedule
  simp only []
  cases hf : env.fetch (.races year) with
  | rejected e =>
    simp
    exact ⟨rfl, rfl⟩
  | response resp =>
    rw [hf] at h
    cases hok : resp.ok
    · simp [hok]
    · cases hj : resp.json with
      | error e =>
        simp [hj, hok]
        exact ⟨rfl, rfl⟩
      | ok v => simp [FetchResult.unreadable, FetchResult.failed, hj, hok] at h

/-- A failed telemetry request builds nothing: the chart is as it was and no
callback is queued. -/
theorem loadTelemetry_failed_frame (env : Env) (driverCode : String) (lapNumber : JsValue)
    (w : World)
    (hfail : ∀ race,
      (env.fetch (.telemetry w.app.selectedYear race driverCode lapNumber)).failed = true) :
    (loadTelemetry env driverCode lapNumber w).world.app.telemetryChart = w.app.telemetryChart ∧
    (loadTelemetry env driverCode lapNumber w).world.pending = w.pending := by
  unfold loadTelemetry
  split
  · exact ⟨rfl, rfl⟩
  · split
    · exact ⟨rfl, rfl⟩
    · simp only []
      generalize hv : (if (getOrCreateChartContainer
          (w.setApp { w.app with isLoadingTelemetry := true })).page.hasTelemetrySection then _
        else _) = v
      have hprops : v.app = { w.app with isLoadingTelemetry := true } ∧ v.pending = w.pending := by
        rw [← hv]; split <;> simp
      obtain ⟨hvapp, hvpend⟩ := hprops
      obtain ⟨e, es, -, -, heq⟩ := loadTelemetry_tail_failed env driverCode lapNumber v
        (getOrCreateChartContainer
          (w.setApp { w.app with isLoadingTelemetry := true })).page.hasTelemetrySection
        (by rw [hvapp]; exact hfail)
      rw [heq]
      simp [hvapp, hvpend]

/-- A failed lap-time request makes the `try` block of `loadRealLapTimes` throw
right after the request. -/
theorem loadRealLapTimesTry_failed (env : Env) (a b : String) (w : World) (n : JsValue)
    (h : w.app.selectedRace.getProp (.name "name") = .ok n)
    (hfail : (env.fetch (.lapTimes w.app.selectedYear n a b)).failed = true ∨
      (env.fetch (.lapTimes w.app.selectedYear n a b)).unreadable = true) :
    ∃ e : JsError, loadRealLapTimesTry env a b w =
      raise (w.emit (.fetch (.lapTimes w.app.selectedYear n a b))) e := by
  unfold loadRealLapTimesTry
  rw [h]
  simp only []
  cases hf : env.fetch (.lapTimes w.app.selectedYear n a b) with
  | rejected e => exact ⟨e, rfl⟩
  | response resp =>
    rw [hf] at hfail
    cases hok : resp.ok
    · exact ⟨httpError resp, by simp [hok]⟩
    · cases hj : resp.json with
      | error e => exact ⟨e, by simp [hok, hj]⟩
      | ok v => simp [FetchResult.unreadable, FetchResult.failed, hj, hok] at hfail

/-- A failed lap-time request in REMOTE mode: the call returns normally, queues
nothing and logs the error. -/
theorem loadRealLapTimes_failed (env : Env) (a b : String) (w : World) (n : JsValue)
    (h : w.app.selectedRace.getProp (.name "name") = .ok n)
    (hfail : (env.fetch (.lapTimes w.app.selectedYear n a b)).failed = true ∨
      (env.fetch (.lapTimes w.app.selectedYear n a b)).unreadable = true) :
    (loadRealLapTimes env a b w).thrown = none ∧
    (loadRealLapTimes env a b w).world.pending = w.pending ∧
    errorsOf (loadRealLapTimes env a b w).world.trace =
      errorsOf w.trace ++ ["Error loading real lap times:"] := by
  have key : ∀ v : World, v.page.hasLapCanvas = true → v.app = w.app →
      ((fun w : World =>
        if !w.page.hasLapCanvas then
          done (w.emit (.consoleError "Canvas element still not found after creating lap chart"))
        else
          let w := destroyLapChart w
          let chartContainer := w.page.hasChartSection
          let w := if chartContainer then
              w.setPage (w.page.setChartSection (.loading a b))
            else w
          (loadRealLapTimesTry env a b w).catch fun error w =>
            let w := w.emit (.consoleError "Error loading real lap times:")
            done (if chartContainer then w.setPage (w.page.setChartSection (.failed error.message))
              else w)) v).thrown = none ∧
      ((fun w : World =>
        if !w.page.hasLapCanvas then
          done (w.emit (.consoleError "Canvas element still not found after creating lap chart"))
        else
          let w := destroyLapChart w
          let chartContainer := w.page.hasChartSection
          let w := if chartContainer then
              w.setPage (w.page.setChartSection (.loading a b))
            else w
          (loadRealLapTimesTry env a b w).catch fun error w =>
            let w := w.emit (.consoleError "Error loading real lap times:")
            done (if chartContainer then w.setPage (w.page.setChartSection (.failed error.message))
              else w)) v).world.pending = v.pending ∧
      errorsOf ((fun w : World =>
        if !w.page.hasLapCanvas then
          done (w.emit (.consoleError "Canvas element still not found after creating lap chart"))
        else
          let w := destroyLapChart w
          let chartContainer := w.page.hasChartSection
          let w := if chartContainer then
              w.setPage (w.page.setChartSection (.loading a b))
            else w
          (loadRealLapTimesTry env a b w).catch fun error w =>
            let w := w.emit (.consoleError "Error loading real lap times:")
            done (if chartContainer then w.setPage (w.page.setChartSection (.failed error.message))
              else w)) v).world.trace = errorsOf v.trace ++ ["Error loading real lap times:"] := by
    intro v hc ha
    simp only [hc, Bool.not_true, Bool.false_eq_true, if_false]
    generalize hu : (if (destroyLapChart v).page.hasChartSection = true then
        (destroyLapChart v).setPage ((destroyLapChart v).page.setChartSection (.loading a b))
      else destroyLapChart v) = u
    have hprops : u.app.selectedRace = w.app.selectedRace ∧
        u.app.selectedYear = w.app.selectedYear ∧ u.pending = v.pending ∧
        errorsOf u.trace = errorsOf v.trace := by
      rw [← hu]; split <;> simp [ha]
    obtain ⟨hur, huy, hup, hue⟩ := hprops
    obtain ⟨e, he⟩ := loadRealLapTimesTry_failed env a b u n (by rw [hur]; exact h)
      (by rw [huy]; exact hfail)
    rw [he]
    simp only [Res.catch, raise]
    refine ⟨rfl, ?_, ?_⟩
    · split <;> simp [hup]
    · split <;> simp [hue, errorsOf_append] <;> rfl
  unfold loadRealLapTimes
  by_cases hc : w.page.hasLapCanvas = true
  · simp only [hc, if_true]
    exact key w hc rfl
  · simp only [hc, Bool.false_eq_true, if_false]
    rw [createLapChart_ok w n h]
    have := key ((getOrCreateChartContainer w).setPage
      (((getOrCreateChartContainer w).setPage
        ((getOrCreateChartContainer w).page.setKids .chart [])).page.setKids .chart
          [.chartSection .canvas])) (hasLapCanvas_setKids _) (by simp)
    simpa [Res.andThen, done] using this

/-- The one request `loadF1CalendarFallback` sends. -/
theorem loadF1CalendarFallback_fetches (env : Env) (w : World) :
    fetchesOf (loadF1CalendarFallback env w).trace = fetchesOf w.trace ++ [.calendarFile] := by
  unfold loadF1CalendarFallback
  simp only []
  split
  · simp; rfl
  · split
    · simp; rfl
    · simp

/-- In REMOTE mode a season request that yields no body is followed by the
request for the bundled calendar. -/
theorem loadAvailableYears_fallback (env : Env) (w : World) (hmode : w.app.useRealData = true)
    (h : (env.fetch .years).unreadable = true) :
    fetchesOf (loadAvailableYears env w).trace = fetchesOf w.trace ++ [.years, .calendarFile] := by
  have hthrow : ∃ e : JsError, loadRealYearsTry env w = raise (w.emit (.fetch .years)) e := by
    unfold loadRealYearsTry
    simp only []
    cases hf : env.fetch .years with
    | rejected e => exact ⟨e, rfl⟩
    | response resp =>
      rw [hf] at h
      cases hj : resp.json with
      | error e => exact ⟨e, by simp [hj]⟩
      | ok v => simp [FetchResult.unreadable, hj] at h
  obtain ⟨e, he⟩ := hthrow
  unfold loadAvailableYears
  rw [if_pos hmode, he]
  simp only [raise]
  rw [loadF1CalendarFallback_fetches]
  simp
  rfl

/-- C13, counterexample: in the sample session (REMOTE mode) on the network that
answers every request with status 500 and a body that does not parse, the
season request and the request for the bundled calendar both fail; the calendar
is then the built-in one of three seasons, and the page and the alerts are as
they were: data is made up and no error is shown. -/
theorem calendar_built_in_on_failure :
    (loadAvailableYears failingEnv sampleWorld).app.f1Calendar = builtinCalendar ∧
    fetchesOf (loadAvailableYears failingEnv sampleWorld).trace = [.years, .calendarFile] ∧
    (loadAvailableYears failingEnv sampleWorld).page = sampleWorld.page ∧
    alertsOf (loadAvailableYears failingEnv sampleWorld).trace = [] :=
  ⟨rfl, rfl, rfl, rfl⟩

/-- C13, amended: lap times are not the only kind with built-in data. When the
bundled calendar yields no body, `loadF1CalendarFallback` stores the built-in
calendar; when the driver request fails in REMOTE mode with a season and a race
selected, `loadAvailableDrivers` stores the built-in list of eight drivers;
neither changes the page or alerts. Races and telemetry have no built-in data:
a failed race request leaves the application object and the page as they were,
a failed telemetry request leaves the chart as it was and queues nothing. -/
theorem builtin_data_on_failure (env : Env) (w : World) :
    ((env.fetch .calendarFile).unreadable = true →
      (loadF1CalendarFallback env w).app.f1Calendar = builtinCalendar ∧
      (loadF1CalendarFallback env w).page = w.page ∧
      alertsOf (loadF1CalendarFallback env w).trace = alertsOf w.trace) ∧
    (yearTruthy w.app.selectedYear = true → w.app.selectedRace.truthy = true →
      w.app.useRealData = true →
      ((env.fetch (.drivers w.app.selectedYear (w.app.selectedRace.field "name"))).failed = true ∨
        (env.fetch (.drivers w.app.selectedYear
          (w.app.selectedRace.field "name"))).unreadable = true) →
      (loadAvailableDrivers env w).app.availableDrivers = getDefaultDrivers ∧
      (loadAvailableDrivers env w).page = w.page ∧
      alertsOf (loadAvailableDrivers env w).trace = alertsOf w.trace) ∧
    (∀ year : String,
      ((env.fetch (.races year)).failed = true ∨ (env.fetch (.races year)).unreadable = true) →
      (loadRaceSchedule env year w).app = w.app ∧ (loadRaceSchedule env year w).page = w.page) ∧
    (∀ (driverCode : String) (lapNumber : JsValue),
      (∀ race, (env.fetch
        (.telemetry w.app.selectedYear race driverCode lapNumber)).failed = true) →
      (loadTelemetry env driverCode lapNumber w).world.app.telemetryChart = w.app.telemetryChart ∧
      (loadTelemetry env driverCode lapNumber w).world.pending = w.pending) := by
  refine ⟨fun h => ?_, fun hy hr hm h => ?_, fun year h => ?_, fun c l h => ?_⟩
  · rw [loadF1CalendarFallback_unreadable env w h]
    refine ⟨rfl, rfl, ?_⟩
    simp
    rfl
  · rw [loadAvailableDrivers_failed env w hy hr hm h]
    refine ⟨rfl, rfl, ?_⟩
    simp
  · exact ⟨(loadRaceSchedule_failed env year w h).1, (loadRaceSchedule_failed env year w h).2.1⟩
  · exact loadTelemetry_failed_frame env c l w h

/-- The four loaders on the sample session, every request answered with status
500. -/
theorem builtin_data_on_failure_witness :
    (loadF1CalendarFallback failingEnv sampleWorld).app.f1Calendar = builtinCalendar ∧
    (loadAvailableDrivers failingEnv sampleWorld).app.availableDrivers = getDefaultDrivers ∧
    (loadRaceSchedule failingEnv "2021" sampleWorld).app = sampleWorld.app ∧
    (loadTelemetry failingEnv "LEC" (.ofNat 5) sampleWorld).world.pending = [] :=
  ⟨((builtin_data_on_failure failingEnv sampleWorld).1 rfl).1,
    ((builtin_data_on_failure failingEnv sampleWorld).2.1 rfl rfl rfl (Or.inl rfl)).1,
    ((builtin_data_on_failure failingEnv sampleWorld).2.2.1 "2021" (Or.inl rfl)).1,
    ((builtin_data_on_failure failingEnv sampleWorld).2.2.2 "LEC" (.ofNat 5) fun _ => rfl).2⟩

/-- C14, counterexample: in the sample session (REMOTE mode) the lap-time
request for `HAM` and `VER` is answered with status 500. `loadRealLapTimes`
returns normally having sent that one request: the bundled lap-time file is not
asked for, nothing is queued, and the chart section shows the error. -/
theorem lap_time_failure_no_bundled_request :
    (loadRealLapTimes failingEnv "HAM" "VER" sampleWorld).thrown = none ∧
    fetchesOf (loadRealLapTimes failingEnv "HAM" "VER" sampleWorld).world.trace =
      [.lapTimes (some "2021") (.str "Bahrain Grand Prix") "HAM" "VER"] ∧
    (loadRealLapTimes failingEnv "HAM" "VER" sampleWorld).world.pending = [] ∧
    (loadRealLapTimes failingEnv "HAM" "VER" sampleWorld).world.page.chartContainer =
      some [.chartSection (.failed "HTTP 500: Internal Server Error")] :=
  ⟨rfl, rfl, rfl, rfl⟩

/-- C14, amended: of the remote loaders only the season list falls back to a
bundled resource. In REMOTE mode, when the season request yields no body,
`loadAvailableYears` goes on to request the bundled calendar. A failed
lap-time request is the only request `loadRealLapTimes` sends: the call returns
normally, queues nothing and logs the error. A failed race request is the only
request `loadRaceSchedule` sends, and the application object is as it was. -/
theorem remote_failure_fallbacks (env : Env) (w : World) :
    (w.app.useRealData = true → (env.fetch .years).unreadable = true →
      fetchesOf (loadAvailableYears env w).trace =
        fetchesOf w.trace ++ [.years, .calendarFile]) ∧
    (∀ (driver1 driver2 : String) (raceName : JsValue),
      w.app.selectedRace.getProp (.name "name") = .ok raceName →
      ((env.fetch (.lapTimes w.app.selectedYear raceName driver1 driver2)).failed = true ∨
        (env.fetch (.lapTimes w.app.selectedYear raceName driver1 driver2)).unreadable = true) →
      (loadRealLapTimes env driver1 driver2 w).thrown = none ∧
      fetchesOf (loadRealLapTimes env driver1 driver2 w).world.trace =
        fetchesOf w.trace ++ [.lapTimes w.app.selectedYear raceName driver1 driver2] ∧
      (loadRealLapTimes env driver1 driver2 w).world.pending = w.pending ∧
      errorsOf (loadRealLapTimes env driver1 driver2 w).world.trace =
        errorsOf w.trace ++ ["Error loading real lap times:"]) ∧
    (∀ year : String,
      ((env.fetch (.races year)).failed = true ∨ (env.fetch (.races year)).unreadable = true) →
      fetchesOf (loadRaceSchedule env year w).trace = fetchesOf w.trace ++ [.races year] ∧
      (loadRaceSchedule env year w).app = w.app) := by
  refine ⟨fun hm h => loadAvailableYears_fallback env w hm h, fun a b n hn h => ?_,
    fun year h => ?_⟩
  · obtain ⟨h1, h2, h3⟩ := loadRealLapTimes_failed env a b w n hn h
    exact ⟨h1, loadRealLapTimes_fetches env a b w n hn, h2, h3⟩
  · exact ⟨(loadRaceSchedule_failed env year w h).2.2.2.2, (loadRaceSchedule_failed env year w h).1⟩

/-- The three loaders on the sample session, every request answered with status
500. -/
theorem remote_failure_fallbacks_witness :
    fetchesOf (loadAvailableYears failingEnv sampleWorld).trace = [.years, .calendarFile] ∧
    (loadRealLapTimes failingEnv "HAM" "VER" sampleWorld).world.pending = [] ∧
    (loadRaceSchedule failingEnv "2021" sampleWorld).app = sampleWorld.app :=
  ⟨(remote_failure_fallbacks failingEnv sampleWorld).1 rfl rfl,
    ((remote_failure_fallbacks failingEnv sampleWorld).2.1 "HAM" "VER" (.str "Bahrain Grand Prix")
      rfl (Or.inl rfl)).2.2.1,
    ((remote_failure_fallbacks failingEnv sampleWorld).2.2 "2021" (Or.inl rfl)).2⟩

/-! ## A remote body with a third driver -/

/-- C15, failing input: in the sample session (REMOTE mode) `HAM` and `VER` are
compared and the lap-time request, the only one sent, is answered with a body
that also has an entry for `LEC`. The chart the timer builds has three
datasets, the third keyed by `LEC`: the remote path does not restrict the body
to the requested pair. -/
theorem remote_chart_keeps_other_drivers :
    (loadRealLapTimes threeEnv "HAM" "VER" sampleWorld).thrown = none ∧
    fetchesOf (loadRealLapTimes threeEnv "HAM" "VER" sampleWorld).world.trace =
      [.lapTimes (some "2021") (.str "Bahrain Grand Prix") "HAM" "VER"] ∧
    (runDeferred threeEnv
      (loadRealLapTimes threeEnv "HAM" "VER" sampleWorld).world).world.app.lapChart.map
        (fun chart => chart.datasets.map fun d => d.driverCode) = some ["HAM", "VER", "LEC"] := by
  refine ⟨rfl, rfl, rfl⟩

/-! ## The range of the distance axis -/

/-- The least of `a` and the numbers of a list. -/
theorem foldl_least_spec (qs : List ℚ) (a : ℚ) :
    (qs.foldl (fun m q => if m ≤ q then m else q) a = a ∨
      qs.foldl (fun m q => if m ≤ q then m else q) a ∈ qs) ∧
    qs.foldl (fun m q => if m ≤ q then m else q) a ≤ a ∧
    ∀ q ∈ qs, qs.foldl (fun m q => if m ≤ q then m else q) a ≤ q := by
  induction qs generalizing a with
  | nil => simp
  | cons x xs ih =>
    simp only [List.foldl_cons, List.mem_cons]
    obtain ⟨h1, h2, h3⟩ := ih (if a ≤ x then a else x)
    refine ⟨?_, ?_, ?_⟩
    · rcases h1 with h | h
      · by_cases hax : a ≤ x
        · left; rw [h, if_pos hax]
        · right; left; rw [h, if_neg hax]
      · right; right; exact h
    · refine le_trans h2 ?_
      split
      · exact le_rfl
      · linarith
    · intro q hq
      rcases hq with rfl | hq
      · refine le_trans h2 ?_
        split
        · assumption
        · exact le_rfl
      · exact h3 q hq

/-- The greatest of `a` and the numbers of a list. -/
theorem foldl_greatest_spec (qs : List ℚ) (a : ℚ) :
    (qs.foldl (fun m q => if m ≤ q then q else m) a = a ∨
      qs.foldl (fun m q => if m ≤ q then q else m) a ∈ qs) ∧
    a ≤ qs.foldl (fun m q => if m ≤ q then q else m) a ∧
    ∀ q ∈ qs, q ≤ qs.foldl (fun m q => if m ≤ q then q else m) a := by
  induction qs generalizing a with
  | nil => simp
  | cons x xs ih =>
    simp only [List.foldl_cons, List.mem_cons]
    obtain ⟨h1, h2, h3⟩ := ih (if a ≤ x then x else a)
    refine ⟨?_, ?_, ?_⟩
    · rcases h1 with h | h
      · by_cases hax : a ≤ x
        · right; left; rw [h, if_pos hax]
        · left; rw [h, if_neg hax]
      · right; right; exact h
    · refine le_trans ?_ h2
      split
      · assumption
      · exact le_rfl
    · intro q hq
      rcases hq with rfl | hq
      · refine le_trans ?_ h2
        split
        · exact le_rfl
        · linarith
      · exact h3 q hq

/-- The fold of `Math.min` over finite numbers. -/
theorem foldl_min_fin (env : Env) (qs : List ℚ) (a : ℚ) :
    (qs.map fun q => JsValue.num (.fin q)).foldl (fun (m : JsNum) v => m.min (env.numberOf v))
        (JsNum.fin a) =
      JsNum.fin (qs.foldl (fun m q => if m ≤ q then m else q) a) := by
  induction qs generalizing a with
  | nil => rfl
  | cons x xs ih =>
    simp only [List.map_cons, List.foldl_cons, Env.numberOf, JsNum.min]
    exact ih _

/-- The fold of `Math.max` over finite numbers. -/
theorem foldl_max_fin (env : Env) (qs : List ℚ) (a : ℚ) :
    (qs.map fun q => JsValue.num (.fin q)).foldl (fun (m : JsNum) v => m.max (env.numberOf v))
        (JsNum.fin a) =
      JsNum.fin (qs.foldl (fun m q => if m ≤ q then q else m) a) := by
  induction qs generalizing a with
  | nil => rfl
  | cons x xs ih =>
    simp only [List.map_cons, List.foldl_cons, Env.numberOf, JsNum.max]
    exact ih _

/-- `Math.min` of finite numbers, at least one: the least of them. -/
theorem mathMin_fin (env : Env) (qs : List ℚ) (hne : qs ≠ []) :
    ∃ lo : ℚ, mathMin env (qs.map fun q => .num (.fin q)) = .fin lo ∧ lo ∈ qs ∧
      ∀ q ∈ qs, lo ≤ q := by
  cases qs with
  | nil => exact absurd rfl hne
  | cons x xs =>
    refine ⟨xs.foldl (fun m q => if m ≤ q then m else q) x, ?_, ?_, ?_⟩
    · unfold mathMin
      simp only [List.map_cons, List.foldl_cons, Env.numberOf, JsNum.min]
      exact foldl_min_fin env xs x
    · rcases (foldl_least_spec xs x).1 with h | h
      · rw [h]; exact List.mem_cons_self _ _
      · exact List.mem_cons_of_mem _ h
    · intro q hq
      rcases List.mem_cons.1 hq with rfl | hq
      · exact (foldl_least_spec xs q).2.1
      · exact (foldl_least_spec xs x).2.2 q hq

/-- `Math.max` of finite numbers, at least one: the greatest of them. -/
theorem mathMax_fin (env : Env) (qs : List ℚ) (hne : qs ≠ []) :
    ∃ hi : ℚ, mathMax env (qs.map fun q => .num (.fin q)) = .fin hi ∧ hi ∈ qs ∧
      ∀ q ∈ qs, q ≤ hi := by
  cases qs with
  | nil => exact absurd rfl hne
  | cons x xs =>
    refine ⟨xs.foldl (fun m q => if m ≤ q then q else m) x, ?_, ?_, ?_⟩
    · unfold mathMax
      simp only [List.map_cons, List.foldl_cons, Env.numberOf, JsNum.max]
      exact foldl_max_fin env xs x
    · rcases (foldl_greatest_spec xs x).1 with h | h
      · rw [h]; exact List.mem_cons_self _ _
      · exact List.mem_cons_of_mem _ h
    · intro q hq
      rcases List.mem_cons.1 hq with rfl | hq
      · exact (foldl_greatest_spec xs q).2.1
      · exact (foldl_greatest_spec xs x).2.2 q hq

/-- A property that reads as a number is read without an error. -/
theorem getProp_of_field_num (p : JsValue) (name : String) (n : JsNum)
    (h : p.field name = .num n) : p.getProp (.name name) = .ok (.num n) := by
  unfold JsValue.field at h
  cases hg : p.getProp (.name name) with
  | error e => rw [hg] at h; cases h
  | ok x => rw [hg] at h; rw [← h]

/-- The distances of points that all have a numeric one. -/
theorem mapDistance_numeric (points : List JsValue) (qs : List ℚ)
    (hd : points.map (fun p => p.field "distance") = qs.map fun q => JsValue.num (.fin q)) :
    mapDistance (points.map some) = .ok ((qs.map fun q => JsValue.num (.fin q)).map some) := by
  induction points generalizing qs with
  | nil =>
    cases qs with
    | nil => rfl
    | cons q qs => cases hd
  | cons p ps ih =>
    cases qs with
    | nil => cases hd
    | cons q qs =>
      simp only [List.map_cons, List.cons.injEq] at hd
      simp only [List.map_cons, mapDistance]
      rw [getProp_of_field_num p "distance" _ hd.1, ih qs hd.2]
      rfl

/-- An array without holes: every element is visited. -/
theorem arrayElements_map_some (xs : List JsValue) : arrayElements (xs.map some) = xs := by
  unfold arrayElements
  induction xs with
  | nil => rfl
  | cons x xs ih => simp [List.filterMap_cons, ih]

/-- The frame callback on a body whose points all have a finite distance. -/
theorem telemetryFrame_numeric (env : Env) (data : JsValue) (w : World) (points : List JsValue)
    (qs : List ℚ) (hcanvas : w.page.hasTelemetryCanvas = true)
    (htel : data.getProp (.name "telemetry") = .ok (.array points))
    (hd : points.map (fun p => p.field "distance") = qs.map fun q => JsValue.num (.fin q)) :
    (telemetryFrame env data w).thrown = none ∧
    (telemetryFrame env data w).world.app.telemetryChart = some
      { speed := points.map fun point => ⟨point.field "distance", point.field "speed"⟩
        throttle := points.map fun point => ⟨point.field "distance", point.field "throttle"⟩
        xMin := mathMin env (qs.map fun q => .num (.fin q))
        xMax := mathMax env (qs.map fun q => .num (.fin q)) } := by
  unfold telemetryFrame
  rw [if_neg (by simp [hcanvas]), htel]
  simp only [JsValue.array, mapDistance_numeric points qs hd, arrayElements_map_some]
  simp [done, World.setApp, List.map_map, Function.comp_def]

/-- A value one property of which can be read has every property readable. -/
theorem getProp_ok_of_ok (v : JsValue) (k k' : Key) (x : JsValue) (h : v.getProp k = .ok x) :
    ∃ y, v.getProp k' = .ok y := by
  cases v with
  | undefined => cases h
  | null => cases h
  | bool b => exact ⟨_, rfl⟩
  | num n => exact ⟨_, rfl⟩
  | str s =>
    cases k' with
    | idx i =>
      simp only [JsValue.getProp]
      split <;> exact ⟨_, rfl⟩
    | name n =>
      simp only [JsValue.getProp]
      split <;> exact ⟨_, rfl⟩
  | arr items named =>
    cases k' with
    | idx i => exact ⟨_, rfl⟩
    | name n =>
      simp only [JsValue.getProp]
      split <;> exact ⟨_, rfl⟩
  | obj props => exact ⟨_, rfl⟩
  | fn name length =>
    cases k' with
    | idx i => exact ⟨_, rfl⟩
    | name n =>
      simp only [JsValue.getProp]
      split
      · exact ⟨_, rfl⟩
      · split <;> exact ⟨_, rfl⟩

/-- The canvas of the section `createTelemetryChartDelayed` appends is found. -/
theorem hasTelemetryCanvas_append (p : Page) :
    (p.setKids .chart (p.kidsOf .chart ++ [.telemetrySection .canvas])).hasTelemetryCanvas
      = true := by
  simp [Page.hasTelemetryCanvas, Page.kids, Page.setKids, Page.kidsOf, Kid.isTelemetryCanvas]

/-- Where every point has a finite numeric distance. For a telemetry body whose
`telemetry` array is not empty and whose points all have a finite numeric
distance, with nothing else waiting:
`createTelemetryChartDelayed` returns normally, the frame callback returns
normally and builds the chart; both series have one point per element, at the
distance of that element; the range of the distance axis is from the least
distance to the greatest, both attained by a point, so every plotted point lies
in the range, and the range starts at 0 only if no distance is below 0. -/
theorem telemetry_axis_range (env : Env) (data : JsValue) (w : World) (points : List JsValue)
    (qs : List ℚ) (hidle : w.pending = [])
    (htel : data.getProp (.name "telemetry") = .ok (.array points))
    (hne : points ≠ [])
    (hd : points.map (fun p => p.field "distance") = qs.map fun q => JsValue.num (.fin q)) :
    (createTelemetryChartDelayed data w).thrown = none ∧
    (runDeferred env (createTelemetryChartDelayed data w).world).thrown = none ∧
    ∃ (chart : TelemetryChart) (lo hi : ℚ),
      (runDeferred env (createTelemetryChartDelayed data w).world).world.app.telemetryChart =
        some chart ∧
      chart.speed.map (fun pt => pt.x) = qs.map (fun q => .num (.fin q)) ∧
      chart.throttle.map (fun pt => pt.x) = qs.map (fun q => .num (.fin q)) ∧
      chart.xMin = .fin lo ∧ chart.xMax = .fin hi ∧ lo ∈ qs ∧ hi ∈ qs ∧
      (∀ q ∈ qs, lo ≤ q ∧ q ≤ hi) ∧ (lo = 0 → ∀ q ∈ qs, 0 ≤ q) := by
  have hqs : qs ≠ [] := by
    intro h
    rw [h] at hd
    exact hne (List.map_eq_nil_iff.1 hd)
  obtain ⟨d, hdrv⟩ := getProp_ok_of_ok data _ (.name "driver") _ htel
  have hcreate : createTelemetryChartDelayed data w =
      done ((w.setPage (w.page.setKids .chart
        (w.page.kidsOf .chart ++ [.telemetrySection .canvas]))).defer (.telemetryFrame data)) := by
    unfold createTelemetryChartDelayed
    rw [hdrv]
  obtain ⟨lo, hlo, hlomem, hlole⟩ := mathMin_fin env qs hqs
  obtain ⟨hi, hhi, hhimem, hhile⟩ := mathMax_fin env qs hqs
  rw [hcreate, done_world, runDeferred_single env _ _ (by simpa using hidle)]
  have hframe := telemetryFrame_numeric env data
    { (w.setPage (w.page.setKids .chart
        (w.page.kidsOf .chart ++ [Kid.telemetrySection .canvas]))).defer (.telemetryFrame data) with
      pending := [] } points qs (hasTelemetryCanvas_append w.page) htel hd
  refine ⟨rfl, hframe.1, _, lo, hi, hframe.2, ?_, ?_, hlo, hhi, hlomem, hhimem,
    fun q hq => ⟨hlole q hq, hhile q hq⟩, fun h0 q hq => h0 ▸ hlole q hq⟩
  · simpa [List.map_map, Function.comp_def] using hd
  · simpa [List.map_map, Function.comp_def] using hd

/-- The chart of the body of two points, at distances 100 and 250. -/
theorem telemetry_axis_range_witness :
    ∃ (chart : TelemetryChart) (lo hi : ℚ),
      (runDeferred failingEnv
        (createTelemetryChartDelayed twoPointTelemetry chartWorld).world).world.app.telemetryChart =
          some chart ∧
      chart.speed.map (fun pt => pt.x) = [(100 : ℚ), 250].map (fun q => .num (.fin q)) ∧
      chart.throttle.map (fun pt => pt.x) = [(100 : ℚ), 250].map (fun q => .num (.fin q)) ∧
      chart.xMin = .fin lo ∧ chart.xMax = .fin hi ∧ lo ∈ [(100 : ℚ), 250] ∧
      hi ∈ [(100 : ℚ), 250] ∧
      (∀ q ∈ [(100 : ℚ), 250], lo ≤ q ∧ q ≤ hi) ∧ (lo = 0 → ∀ q ∈ [(100 : ℚ), 250], 0 ≤ q) :=
  (telemetry_axis_range failingEnv twoPointTelemetry chartWorld _ [100, 250] rfl rfl
    (by simp) rfl).2.2

/-- C16, failing input: with the lap chart on the page, telemetry is loaded for
`LEC`, lap 5, and the answer is a body of two points, the first at distance 10
and the second without a `distance`. The load and the two callbacks return
normally and the chart is built with both points in the speed series, the
second at the distance `undefined`; `Math.min` and `Math.max` over the
distances are NaN, so the range of the distance axis is from NaN to NaN: not
the least and the greatest distance among the plotted points, and no plotted
point lies in it. -/
theorem telemetry_range_is_nan :
    (loadTelemetry gapEnv "LEC" (.ofNat 5) chartWorld).thrown = none ∧
    (runDeferred gapEnv (runDeferred gapEnv
      (loadTelemetry gapEnv "LEC" (.ofNat 5) chartWorld).world).world).thrown = none ∧
    (runDeferred gapEnv (runDeferred gapEnv
      (loadTelemetry gapEnv "LEC" (.ofNat 5) chartWorld).world).world).world.app.telemetryChart.map
        (fun chart => (chart.xMin, chart.xMax, chart.speed.map fun pt => pt.x)) =
      some (.nan, .nan, [.num (.fin 10), .undefined]) :=
  ⟨rfl, rfl, rfl⟩

/-! ## The mode after the probe -/

@[simp] theorem showError_app (m : String) (w : World) : (showError m w).app = w.app := by
  unfold showError; simp

theorem destroyLapChart_mode (w : World) :
    (destroyLapChart w).app.useRealData = w.app.useRealData := by
  unfold destroyLapChart; split <;> rfl

theorem destroyTelemetryChart_mode (w : World) :
    (destroyTelemetryChart w).app.useRealData = w.app.useRealData := by
  unfold destroyTelemetryChart; split <;> rfl

theorem loadRaceSchedule_mode (env : Env) (year : String) (w : World) :
    (loadRaceSchedule env year w).app.useRealData = w.app.useRealData := by
  rw [loadRaceSchedule_app]

theorem selectYear_mode (env : Env) (year : String) (w : World) :
    (selectYear env year w).world.app.useRealData = w.app.useRealData := by
  unfold selectYear
  refine Res.andThen_world (fun v => v.app.useRealData = w.app.useRealData) ?_ (fun v hv => hv)
  show (Res.finally _ _).world.app.useRealData = _
  rw [finally_world, setPage_app]
  refine Res.catch_world (fun v => v.app.useRealData = w.app.useRealData) ?_ (fun e v hv => hv)
  show (selectYearTry _ _ _).world.app.useRealData = _
  rw [selectYearTry_app]
  rfl

theorem loadF1CalendarFallback_mode (env : Env) (w : World) :
    (loadF1CalendarFallback env w).app.useRealData = w.app.useRealData := by
  unfold loadF1CalendarFallback
  simp only []
  split
  · rfl
  · split <;> rfl

theorem addYears_mode (env : Env) (w : World) (years : List JsValue) :
    (addYears env w years).world.app.useRealData = w.app.useRealData := by
  induction years generalizing w with
  | nil => rfl
  | cons year rest ih =>
    unfold addYears
    split
    · rfl
    · rfl
    · rfl
    · split
      · rfl
      · rename_i heq _ _ _
        cases heq
        rw [ih]
        rfl

theorem loadRealYearsTry_mode (env : Env) (w : World) :
    (loadRealYearsTry env w).world.app.useRealData = w.app.useRealData := by
  unfold loadRealYearsTry
  simp only []
  split
  · rfl
  · split
    · rfl
    · split
      · rfl
      · rw [addYears_mode]; rfl

theorem loadAvailableYears_mode (env : Env) (w : World) :
    (loadAvailableYears env w).app.useRealData = w.app.useRealData := by
  unfold loadAvailableYears
  split
  · split
    · exact loadRealYearsTry_mode env w
    · rw [loadF1CalendarFallback_mode, emit_app, loadRealYearsTry_mode]
  · exact loadF1CalendarFallback_mode env w

theorem loadAvailableDrivers_mode (env : Env) (w : World) :
    (loadAvailableDrivers env w).app.useRealData = w.app.useRealData := by
  unfold loadAvailableDrivers
  split
  · rfl
  · simp only []
    split
    · rfl
    · split
      · split <;> rfl
      · rfl

theorem createDriverSelector_mode (env : Env) (w : World) :
    (createDriverSelector env w).world.app.useRealData = w.app.useRealData := by
  unfold createDriverSelector
  simp only []
  split <;> simp

theorem driverDefaults_mode (env : Env) (w : World) :
    (driverDefaults env w).world.app.useRealData = w.app.useRealData := by
  unfold driverDefaults
  split
  · split <;> rfl
  · rfl

theorem loadRaceData_mode (env : Env) (w : World) :
    (loadRaceData env w).app.useRealData = w.app.useRealData := by
  unfold loadRaceData
  split
  · rfl
  · simp only []
    refine Res.catch_world (fun v => v.app.useRealData = w.app.useRealData) ?_ ?_
    · show (createDriverSelector _ _).world.app.useRealData = _
      rw [createDriverSelector_mode]
      split <;> simp
    · intro e v hv
      simpa using hv

theorem selectRaceHead_mode (env : Env) (race : JsValue) (w : World) :
    (selectRaceHead env race w).world.app.useRealData = w.app.useRealData := by
  unfold selectRaceHead
  simp only []
  refine Res.andThen_world (fun v => v.app.useRealData = w.app.useRealData) ?_ ?_
  · split
    · split <;> rfl
    · rfl
  · intro v hv
    split
    · split
      · exact hv
      · simpa using hv
    · exact hv

theorem selectRace_mode (env : Env) (race : JsValue) (w : World) :
    (selectRace env race w).world.app.useRealData = w.app.useRealData := by
  unfold selectRace
  refine Res.andThen_world (fun v => v.app.useRealData = w.app.useRealData)
    (selectRaceHead_mode env race w) ?_
  intro v hv
  refine Res.catch_world (fun u => u.app.useRealData = w.app.useRealData) ?_ ?_
  · show (loadRaceData _ _).app.useRealData = _
    rw [loadRaceData_mode]
    split
    · rw [loadAvailableDrivers_mode]; exact hv
    · exact hv
  · intro e u hu
    split
    · exact hu
    · simpa using hu

theorem createLapChart_mode (w : World) :
    (createLapChart w).world.app.useRealData = w.app.useRealData := by
  unfold createLapChart
  simp only []
  split <;> simp

theorem renderChart_mode (lapData : JsValue) (a b : String) (isRealData : Bool) (w : World) :
    (renderChart lapData a b isRealData w).world.app.useRealData = w.app.useRealData := by
  unfold renderChart
  simp only []
  split
  · rfl
  · split <;> rfl

theorem lapChartTimer_mode (lapData : JsValue) (a b : String) (isRealData : Bool) (w : World) :
    (lapChartTimer lapData a b isRealData w).world.app.useRealData = w.app.useRealData := by
  unfold lapChartTimer
  split
  · rfl
  · simp only []
    split
    · exact destroyLapChart_mode w
    · rw [renderChart_mode, destroyLapChart_mode]

theorem createLapTimeChart_mode (lapData : JsValue) (a b : String) (isRealData : Bool)
    (w : World) :
    (createLapTimeChart lapData a b isRealData w).world.app.useRealData = w.app.useRealData := by
  unfold createLapTimeChart
  simp only []
  refine Res.andThen_world (fun v => v.app.useRealData = w.app.useRealData) ?_ (fun v hv => hv)
  split
  · split <;> rfl
  · rfl

theorem loadRealLapTimesTry_mode (env : Env) (a b : String) (w : World) :
    (loadRealLapTimesTry env a b w).world.app.useRealData = w.app.useRealData := by
  unfold loadRealLapTimesTry
  split
  · rfl
  · simp only []
    split
    · rfl
    · split
      · rfl
      · split
        · rfl
        · rw [createLapTimeChart_mode]; rfl

theorem loadRealLapTimes_mode (env : Env) (a b : String) (w : World) :
    (loadRealLapTimes env a b w).world.app.useRealData = w.app.useRealData := by
  unfold loadRealLapTimes
  simp only []
  refine Res.andThen_world (fun v => v.app.useRealData = w.app.useRealData) ?_ ?_
  · split
    · rfl
    · exact createLapChart_mode w
  · intro v hv
    split
    · exact hv
    · refine Res.catch_world (fun u => u.app.useRealData = w.app.useRealData) ?_ ?_
      · show (loadRealLapTimesTry _ _ _ _).world.app.useRealData = _
        rw [loadRealLapTimesTry_mode]
        split
        · rw [setPage_app, destroyLapChart_mode]; exact hv
        · rw [destroyLapChart_mode]; exact hv
      · intro e u hu
        show (done _).world.app.useRealData = _
        rw [done_world]
        split
        · simpa using hu
        · simpa using hu

theorem loadSampleLapTimesTry_mode (env : Env) (a b : String) (w : World) :
    (loadSampleLapTimesTry env a b w).world.app.useRealData = w.app.useRealData := by
  unfold loadSampleLapTimesTry
  simp only []
  split
  · rfl
  · split
    · rfl
    · split
      · rfl
      · rw [createLapTimeChart_mode]; rfl

theorem loadSampleLapTimes_mode (env : Env) (a b : String) (w : World) :
    (loadSampleLapTimes env a b w).world.app.useRealData = w.app.useRealData := by
  unfold loadSampleLapTimes
  simp only []
  refine Res.andThen_world (fun v => v.app.useRealData = w.app.useRealData) ?_ ?_
  · split
    · rfl
    · exact createLapChart_mode w
  · intro v hv
    refine Res.catch_world (fun u => u.app.useRealData = w.app.useRealData) ?_ ?_
    · show (loadSampleLapTimesTry _ _ _ _).world.app.useRealData = _
      rw [loadSampleLapTimesTry_mode]; exact hv
    · intro e u hu
      show (createLapTimeChart _ _ _ _ _).world.app.useRealData = _
      rw [createLapTimeChart_mode]
      exact hu

theorem compareLapTimesBody_mode (env : Env) (w : World) :
    (compareLapTimesBody env w).world.app.useRealData = w.app.useRealData := by
  unfold compareLapTimesBody
  split
  · simp only []
    split
    · rfl
    · split
      · rfl
      · refine Res.andThen_world (fun v => v.app.useRealData = w.app.useRealData) ?_
          (fun v hv => by simpa using hv)
        split
        · rw [loadRealLapTimes_mode]; simp
        · rw [loadSampleLapTimes_mode]; simp
  · rfl

theorem compareLapTimes_mode (env : Env) (w : World) :
    (compareLapTimes env w).world.app.useRealData = w.app.useRealData := by
  unfold compareLapTimes
  split
  · rfl
  · rw [finally_world]
    show (compareLapTimesBody _ _).world.app.useRealData = _
    rw [compareLapTimesBody_mode]
    rfl

theorem createTelemetryChart_mode (data : JsValue) (w : World) :
    (createTelemetryChart data w).world.app.useRealData = w.app.useRealData := by
  unfold createTelemetryChart
  split
  · rfl
  · simp [destroyTelemetryChart_mode]

theorem loadTelemetryTry_mode (env : Env) (code : String) (lap : JsValue) (w : World) :
    (loadTelemetryTry env code lap w).world.app.useRealData = w.app.useRealData := by
  unfold loadTelemetryTry
  split
  · rfl
  · simp only []
    split
    · rfl
    · split
      · rfl
      · split
        · rfl
        · rw [createTelemetryChart_mode]; rfl

theorem loadTelemetry_mode (env : Env) (code : String) (lap : JsValue) (w : World) :
    (loadTelemetry env code lap w).world.app.useRealData = w.app.useRealData := by
  unfold loadTelemetry
  split
  · rfl
  · split
    · rfl
    · simp only []
      rw [finally_world]
      show (Res.catch _ _).world.app.useRealData = _
      refine Res.catch_world (fun u => u.app.useRealData = w.app.useRealData) ?_ ?_
      · show (loadTelemetryTry _ _ _ _).world.app.useRealData = _
        rw [loadTelemetryTry_mode]
        split <;> simp
      · intro e u hu
        show (done _).world.app.useRealData = _
        rw [done_world]
        split
        · simpa using hu
        · simpa using hu

theorem telemetryFrame_mode (env : Env) (data : JsValue) (w : World) :
    (telemetryFrame env data w).world.app.useRealData = w.app.useRealData := by
  unfold telemetryFrame
  split
  · rfl
  · simp only []
    split
    all_goals first
      | exact destroyTelemetryChart_mode w
      | (split
         · exact destroyTelemetryChart_mode w
         · exact destroyTelemetryChart_mode w)

theorem createTelemetryChartDelayed_mode (data : JsValue) (w : World) :
    (createTelemetryChartDelayed data w).world.app.useRealData = w.app.useRealData := by
  unfold createTelemetryChartDelayed
  split <;> rfl

theorem runCallback_mode (env : Env) (w : World) (d : Deferred) :
    (runCallback env w d).world.app.useRealData = w.app.useRealData := by
  cases d with
  | lapChartTimer lapData a b isRealData => exact lapChartTimer_mode lapData a b isRealData w
  | telemetryTimer data => exact createTelemetryChartDelayed_mode data w
  | telemetryFrame data => exact telemetryFrame_mode env data w
  | driverDefaults => exact driverDefaults_mode env w

theorem runDeferred_mode (env : Env) (w : World) :
    (runDeferred env w).world.app.useRealData = w.app.useRealData := by
  unfold runDeferred
  split
  · rfl
  · rw [runCallback_mode]

theorem lapChartClick_mode (env : Env) (i j : Nat) (w : World) :
    (lapChartClick env i j w).world.app.useRealData = w.app.useRealData := by
  unfold lapChartClick
  split
  · rfl
  · split
    · split
      · rfl
      · split
        · rfl
        · split
          · rfl
          · exact loadTelemetry_mode env _ _ w
    · rfl


/-- C17. Whatever the state, the arguments and the answers of the network, none
of `loadAvailableYears`, `loadF1CalendarFallback`, `selectYear`,
`loadRaceSchedule`, `selectRace`, `loadAvailableDrivers`, `loadRaceData`,
`compareLapTimes`, `loadRealLapTimes`, `loadSampleLapTimes`, `loadTelemetry`,
the click handler of the lap chart, the chart-building methods and the
callbacks they queue changes `useRealData`; `testApiConnection` does write it:
on the fresh session it turns the flag on when the health request is answered
with status 200. -/
theorem mode_unchanged_after_probe (env : Env) (w : World) :
    (loadAvailableYears env w).app.useRealData = w.app.useRealData ∧
    (loadF1CalendarFallback env w).app.useRealData = w.app.useRealData ∧
    (∀ year : String, (selectYear env year w).world.app.useRealData = w.app.useRealData) ∧
    (∀ year : String, (loadRaceSchedule env year w).app.useRealData = w.app.useRealData) ∧
    (∀ race : JsValue, (selectRace env race w).world.app.useRealData = w.app.useRealData) ∧
    (loadAvailableDrivers env w).app.useRealData = w.app.useRealData ∧
    (loadRaceData env w).app.useRealData = w.app.useRealData ∧
    (compareLapTimes env w).world.app.useRealData = w.app.useRealData ∧
    (∀ driver1 driver2 : String,
      (loadRealLapTimes env driver1 driver2 w).world.app.useRealData = w.app.useRealData ∧
      (loadSampleLapTimes env driver1 driver2 w).world.app.useRealData = w.app.useRealData) ∧
    (∀ (driverCode : String) (lapNumber : JsValue),
      (loadTelemetry env driverCode lapNumber w).world.app.useRealData = w.app.useRealData) ∧
    (∀ datasetIndex dataIndex : Nat,
      (lapChartClick env datasetIndex dataIndex w).world.app.useRealData = w.app.useRealData) ∧
    (createLapChart w).world.app.useRealData = w.app.useRealData ∧
    (createDriverSelector env w).world.app.useRealData = w.app.useRealData ∧
    (∀ (lapData : JsValue) (driver1 driver2 : String) (isRealData : Bool),
      (createLapTimeChart lapData driver1 driver2 isRealData w).world.app.useRealData =
        w.app.useRealData ∧
      (renderChart lapData driver1 driver2 isRealData w).world.app.useRealData =
        w.app.useRealData) ∧
    (∀ telemetryData : JsValue,
      (createTelemetryChart telemetryData w).world.app.useRealData = w.app.useRealData ∧
      (createTelemetryChartDelayed telemetryData w).world.app.useRealData =
        w.app.useRealData) ∧
    (∀ d : Deferred, (runCallback env w d).world.app.useRealData = w.app.useRealData) ∧
    (runDeferred env w).world.app.useRealData = w.app.useRealData ∧
    (freshWorld.app.useRealData = false ∧
      (testApiConnection threeEnv freshWorld).app.useRealData = true) :=
  ⟨loadAvailableYears_mode env w, loadF1CalendarFallback_mode env w,
    fun year => selectYear_mode env year w, fun year => loadRaceSchedule_mode env year w,
    fun race => selectRace_mode env race w, loadAvailableDrivers_mode env w,
    loadRaceData_mode env w, compareLapTimes_mode env w,
    fun a b => ⟨loadRealLapTimes_mode env a b w, loadSampleLapTimes_mode env a b w⟩,
    fun code lap => loadTelemetry_mode env code lap w,
    fun i j => lapChartClick_mode env i j w, createLapChart_mode w,
    createDriverSelector_mode env w,
    fun lapData a b r => ⟨createLapTimeChart_mode lapData a b r w, renderChart_mode lapData a b r w⟩,
    fun data => ⟨createTelemetryChart_mode data w, createTelemetryChartDelayed_mode data w⟩,
    fun d => runCallback_mode env w d, runDeferred_mode env w, rfl, rfl⟩

/-! ## The points of a dataset -/

/-- C18, counterexample, in two parts. First, an entry with a driver object
whose one lap has lap number 1 and the time `Infinity` (what the JSON number
`1e999` parses to): the time is a number above 0, so the lap passes the filter
of `renderChart` and is the one point of the dataset, though the time is not
finite. Second, a payload whose one entry has a laps array with a lap that
passes (lap number 1, time 93) and no `driver`: a valid record remains in the
payload, yet the entry is skipped, no dataset is collected, and `renderChart`
shows the alert `No valid lap data found. Please try different drivers.` and
builds no chart. -/
theorem infinite_time_kept_driverless_entry_dropped :
    (datasetOf "HAM" infiniteLapEntry).map (fun d => d.data.map fun pt => (pt.x, pt.y)) =
      some [(.ofNat 1, .num .posInf)] ∧
    validLap (.obj [(.name "lap", .ofNat 1), (.name "time", .num (.fin 93))]) = true ∧
    buildDatasets driverlessPayload = [] ∧
    (renderChart driverlessPayload "HAM" "VER" false sampleWorld).thrown = none ∧
    (renderChart driverlessPayload "HAM" "VER" false sampleWorld).world.app.lapChart = none ∧
    alertsOf (renderChart driverlessPayload "HAM" "VER" false sampleWorld).world.trace =
      ["No valid lap data found. Please try different drivers."] :=
  ⟨rfl, rfl, rfl, rfl, rfl, rfl⟩

/-- The filter of `renderChart` keeps a lap exactly when its lap number is a
number and its time is a number above 0. -/
theorem validLap_iff (lap : JsValue) :
    validLap lap = true ↔
      ∃ n t : JsNum, lap.field "lap" = .num n ∧ lap.field "time" = .num t ∧ t.gtZero = true := by
  constructor
  · intro h
    unfold validLap at h
    simp only [Bool.and_eq_true] at h
    obtain ⟨⟨-, hn⟩, ht⟩ := h
    cases hl : lap.field "lap" with
    | num n =>
      cases htime : lap.field "time" with
      | num t =>
        rw [htime] at ht
        exact ⟨n, t, rfl, rfl, ht⟩
      | _ => rw [htime] at ht; cases ht
    | _ => rw [hl] at hn; cases hn
  · rintro ⟨n, t, hl, ht, hpos⟩
    exact validLap_of_times hl ht hpos

/-- The dataset of an entry with a driver and a laps array. -/
theorem datasetOf_filter (code : String) (e : JsValue)
    (items : List (Option JsValue)) (named : List (String × JsValue))
    (hd : (e.field "driver").truthy = true) (hl : e.field "laps" = .arr items named) :
    datasetOf code e =
      if ((arrayElements items).filter validLap).length = 0 then none
      else some
        { driverName := (e.field "driver").field "name"
          driverCode := code
          data := ((arrayElements items).filter validLap).map fun lap =>
            ⟨lap.field "lap", lap.field "time"⟩
          color := ((e.field "driver").field "color").orElse (.str "#CCCCCC") } := by
  have het : e.truthy = true :=
    truthy_of_field "driver" (by decide) (by intro h; rw [h] at hd; cases hd)
  unfold datasetOf
  rw [if_neg (by simp [het, hd, hl])]
  simp only [hl]

/-- An entry without a driver, or without a lap that passes in a laps array,
has no dataset. -/
theorem datasetOf_none_of_entry (code : String) (e : JsValue)
    (h : (e.field "driver").truthy = false ∨
      ∀ items named, e.field "laps" = .arr items named →
        ∀ lap ∈ arrayElements items, validLap lap = false) : datasetOf code e = none := by
  rcases h with h | h
  · unfold datasetOf
    rw [if_pos (by simp [h])]
  · exact datasetOf_none code e h

/-- A payload none of whose entries has both a driver and a lap that passes in
a laps array: `renderChart` alerts and returns. -/
theorem renderChart_no_entry (props : List (Key × JsValue))
    (hnone : ∀ kv ∈ props, (kv.2.field "driver").truthy = false ∨
      ∀ items named, kv.2.field "laps" = .arr items named →
        ∀ lap ∈ arrayElements items, validLap lap = false)
    (a b : String) (real : Bool) (w : World) :
    renderChart (.obj props) a b real w =
      done (w.emit (.alert "No valid lap data found. Please try different drivers.")) := by
  have hnil : buildDatasets (.obj props) = [] := by
    unfold buildDatasets ownEntries
    simp only [List.filterMap_map, List.filterMap_eq_nil_iff, Function.comp]
    intro kv _
    apply datasetOf_none_of_entry
    rcases propGet_mem kv.1 props with hu | hm
    · rw [hu]; exact Or.inl rfl
    · exact hnone _ hm
  unfold renderChart
  simp [hnil]

/-- The dataset of an entry of the payload is one of the datasets collected. -/
theorem buildDatasets_mem (props : List (Key × JsValue)) (k : Key) (e : JsValue) (ds : Dataset)
    (hmem : (k, e) ∈ props) (hget : propGet k props = e)
    (hds : datasetOf k.toString e = some ds) : ds ∈ buildDatasets (.obj props) := by
  unfold buildDatasets ownEntries
  rw [List.mem_filterMap]
  refine ⟨(k.toString, propGet k props), ?_, by rw [hget]; exact hds⟩
  rw [List.mem_map]
  exact ⟨(k, e), hmem, rfl⟩

/-- With a dataset and a race selected `renderChart` builds the chart. -/
theorem renderChart_some (lapData : JsValue) (a b : String) (real : Bool) (w : World)
    (n : JsValue) (hne : buildDatasets lapData ≠ [])
    (hrace : w.app.selectedRace.getProp (.name "name") = .ok n) :
    renderChart lapData a b real w =
      done ((w.emit (.chartCreated "lapChart")).setApp { w.app with
        lapChart := some ⟨buildDatasets lapData, n, w.app.selectedYear, real⟩ }) := by
  unfold renderChart
  simp only []
  rw [if_neg (by simpa [List.length_eq_zero] using hne), hrace]
  rfl

/-- C18, amended: for an entry with a driver (a driver object, or any other
value that is not falsy) and a laps array, under any key. The filter keeps a lap
exactly when its lap number is a number and its time is a number above 0
(finite or not). The entry has a dataset exactly when a lap passes; its points
are the laps that pass, in the order of the array, each as (lap number, time).
When such an entry of a payload has a lap that passes, with a race selected
`renderChart` returns normally without an alert and builds a chart that has the
dataset of the entry. And when no entry of a payload has both a driver and a
lap that passes in a laps array, whatever laps the other entries hold,
`renderChart` returns normally, builds no chart and shows the alert
`No valid lap data found. Please try different drivers.` -/
theorem dataset_is_the_valid_laps (driverCode : String) (entry : JsValue)
    (items : List (Option JsValue)) (named : List (String × JsValue))
    (hdriver : (entry.field "driver").truthy = true)
    (hlaps : entry.field "laps" = .arr items named) :
    (∀ lap : JsValue, validLap lap = true ↔
      ∃ n t : JsNum, lap.field "lap" = .num n ∧ lap.field "time" = .num t ∧ t.gtZero = true) ∧
    datasetOf driverCode entry =
      (if ((arrayElements items).filter validLap).length = 0 then none
      else some
        { driverName := (entry.field "driver").field "name"
          driverCode := driverCode
          data := ((arrayElements items).filter validLap).map fun lap =>
            ⟨lap.field "lap", lap.field "time"⟩
          color := ((entry.field "driver").field "color").orElse (.str "#CCCCCC") }) ∧
    (∀ (props : List (Key × JsValue)) (k : Key) (driver1 driver2 : String) (isRealData : Bool)
      (w : World) (raceName : JsValue),
      (k, entry) ∈ props → propGet k props = entry →
      (∃ lap ∈ arrayElements items, validLap lap = true) →
      w.app.selectedRace.getProp (.name "name") = .ok raceName →
      (renderChart (.obj props) driver1 driver2 isRealData w).thrown = none ∧
      alertsOf (renderChart (.obj props) driver1 driver2 isRealData w).world.trace =
        alertsOf w.trace ∧
      ∃ (chart : LapChart) (ds : Dataset),
        (renderChart (.obj props) driver1 driver2 isRealData w).world.app.lapChart = some chart ∧
        datasetOf k.toString entry = some ds ∧ ds ∈ chart.datasets) ∧
    (∀ (props : List (Key × JsValue)) (driver1 driver2 : String) (isRealData : Bool) (w : World),
      (∀ kv ∈ props, (kv.2.field "driver").truthy = false ∨
        ∀ items named, kv.2.field "laps" = .arr items named →
          ∀ lap ∈ arrayElements items, validLap lap = false) →
      (renderChart (.obj props) driver1 driver2 isRealData w).thrown = none ∧
      (renderChart (.obj props) driver1 driver2 isRealData w).world.app.lapChart =
        w.app.lapChart ∧
      alertsOf (renderChart (.obj props) driver1 driver2 isRealData w).world.trace =
        alertsOf w.trace ++ ["No valid lap data found. Please try different drivers."]) := by
  refine ⟨validLap_iff, datasetOf_filter driverCode entry items named hdriver hlaps, ?_, ?_⟩
  · intro props k a b real w n hmem hget hvalid hrace
    have hds := datasetOf_filter k.toString entry items named hdriver hlaps
    have hlen : ((arrayElements items).filter validLap).length ≠ 0 := by
      obtain ⟨lap, hlap, hv⟩ := hvalid
      rw [Ne, List.length_eq_zero]
      intro hnil
      have : lap ∈ (arrayElements items).filter validLap := List.mem_filter.2 ⟨hlap, hv⟩
      rw [hnil] at this
      cases this
    rw [if_neg hlen] at hds
    have hin := buildDatasets_mem props k entry _ hmem hget hds
    rw [renderChart_some (.obj props) a b real w n (List.ne_nil_of_mem hin) hrace]
    refine ⟨rfl, ?_, _, _, rfl, hds, hin⟩
    simp
  · intro props a b real w hnone
    rw [renderChart_no_entry props hnone a b real w]
    refine ⟨rfl, rfl, ?_⟩
    simp [alertsOf, World.emit]

/-- The dataset of the entry with four laps: the first and the fourth pass. -/
theorem dataset_is_the_valid_laps_witness :
    datasetOf "VER" mixedEntry = some
      { driverName := .str "Max Verstappen"
        driverCode := "VER"
        data := [⟨.ofNat 1, .num (.fin 93)⟩, ⟨.ofNat 4, .num (.fin 91)⟩]
        color := .str "#CCCCCC" } :=
  ((dataset_is_the_valid_laps "VER" mixedEntry _ _ rfl rfl).2.1).trans rfl

/-! ## The driver list of the selected race -/

theorem createDriverSelector_app (env : Env) (w : World) :
    (createDriverSelector env w).world.app = w.app := by
  unfold createDriverSelector
  simp only []
  split <;> simp

theorem loadRaceData_app (env : Env) (w : World) : (loadRaceData env w).app = w.app := by
  unfold loadRaceData
  split
  · rfl
  · simp only []
    refine Res.catch_world (fun v => v.app = w.app) ?_ ?_
    · show (createDriverSelector _ _).world.app = _
      rw [createDriverSelector_app]
      split <;> simp
    · intro e v hv
      simpa using hv

theorem selectRaceHead_app (env : Env) (race : JsValue) (w : World) :
    (selectRaceHead env race w).world.app = { w.app with selectedRace := race } := by
  unfold selectRaceHead
  simp only []
  refine Res.andThen_world (fun v => v.app = { w.app with selectedRace := race }) ?_ ?_
  · split
    · split <;> rfl
    · rfl
  · intro v hv
    split
    · split
      · exact hv
      · simpa using hv
    · exact hv

/-- Reading a property of a truthy value does not throw. -/
theorem getProp_of_truthy (v : JsValue) (k : Key) (h : v.truthy = true) :
    ∃ x, v.getProp k = .ok x := by
  cases v with
  | undefined => cases h
  | null => cases h
  | bool b => exact ⟨_, rfl⟩
  | num n => exact ⟨_, rfl⟩
  | str s =>
    cases k with
    | idx i =>
      simp only [JsValue.getProp]
      split <;> exact ⟨_, rfl⟩
    | name n =>
      simp only [JsValue.getProp]
      split <;> exact ⟨_, rfl⟩
  | arr items named =>
    cases k with
    | idx i => exact ⟨_, rfl⟩
    | name n =>
      simp only [JsValue.getProp]
      split <;> exact ⟨_, rfl⟩
  | obj props => exact ⟨_, rfl⟩
  | fn name length =>
    cases k with
    | idx i => exact ⟨_, rfl⟩
    | name n =>
      simp only [JsValue.getProp]
      split
      · exact ⟨_, rfl⟩
      · split <;> exact ⟨_, rfl⟩

theorem selectRaceHead_thrown (env : Env) (race : JsValue) (w : World)
    (h : race.truthy = true) : (selectRaceHead env race w).thrown = none := by
  obtain ⟨x, hx⟩ := getProp_of_truthy race (.name "name") h
  unfold selectRaceHead
  simp only [hx]
  cases hg : w.page.gpButton <;> cases hd : w.page.driverSelection <;>
    simp [Res.andThen, done, World.setPage, World.setApp, Page.setGpText, hd, hg]

theorem loadAvailableDrivers_app (env : Env) (w : World) :
    (loadAvailableDrivers env w).app =
      { w.app with availableDrivers := (loadAvailableDrivers env w).app.availableDrivers } := by
  unfold loadAvailableDrivers
  split
  · rfl
  · simp only []
    split
    · rfl
    · split
      · split <;> rfl
      · rfl

/-- Past its guard `loadAvailableDrivers` stores the body of a response that is
ok, and the built-in list on any failure. -/
theorem loadAvailableDrivers_obtained (env : Env) (w : World)
    (hyear : yearTruthy w.app.selectedYear = true) (hrace : w.app.selectedRace.truthy = true)
    (hmode : w.app.useRealData = true) :
    (∃ (resp : Response) (drivers : JsValue),
      env.fetch (.drivers w.app.selectedYear (w.app.selectedRace.field "name")) =
        .response resp ∧ resp.ok = true ∧ resp.json = .ok drivers ∧
      (loadAvailableDrivers env w).app.availableDrivers = drivers) ∨
    (((env.fetch (.drivers w.app.selectedYear (w.app.selectedRace.field "name"))).failed = true ∨
      (env.fetch (.drivers w.app.selectedYear
        (w.app.selectedRace.field "name"))).unreadable = true) ∧
      (loadAvailableDrivers env w).app.availableDrivers = getDefaultDrivers) := by
  unfold loadAvailableDrivers
  rw [if_neg (by simp [hyear, hrace, hmode])]
  simp only []
  cases hf : env.fetch (.drivers w.app.selectedYear (w.app.selectedRace.field "name")) with
  | rejected e => exact Or.inr ⟨Or.inl rfl, rfl⟩
  | response resp =>
    cases hok : resp.ok
    · refine Or.inr ⟨Or.inl (by simp [FetchResult.failed, hok]), ?_⟩
      simp [hok]
    · cases hj : resp.json with
      | error e =>
        refine Or.inr ⟨Or.inr (by simp [FetchResult.unreadable, hj]), ?_⟩
        simp [hok, hj]
      | ok drivers =>
        exact Or.inl ⟨resp, drivers, rfl, hok, hj, by simp [hok, hj]⟩

/-- What `selectRace` leaves of the application object when the statements
before its `try` block do not throw. -/
theorem selectRace_app (env : Env) (race : JsValue) (w : World)
    (h : (selectRaceHead env race w).thrown = none) :
    (selectRace env race w).thrown = none ∧
    (selectRace env race w).world.app =
      (if w.app.useRealData then
        (loadAvailableDrivers env (selectRaceHead env race w).world).app
      else { w.app with selectedRace := race }) := by
  have hmode : (selectRaceHead env race w).world.app.useRealData = w.app.useRealData := by
    rw [selectRaceHead_app]
  unfold selectRace
  simp only [Res.andThen, h, Res.catch, done, hmode]
  refine ⟨trivial, ?_⟩
  rw [loadRaceData_app]
  split
  · rfl
  · exact selectRaceHead_app env race w

/-- C19, amended: `selectRace(race)` always stores the race. In REMOTE mode with
a truthy season and a truthy race it returns normally and `availableDrivers`
is afterwards the body of the driver response, when that is ok and parses, and
the built-in list when the request fails. In FALLBACK mode, and when the season
or the race is falsy, `availableDrivers` is left as it was. -/
theorem selectRace_driver_list (env : Env) (race : JsValue) (w : World) :
    (selectRace env race w).world.app.selectedRace = race ∧
    (w.app.useRealData = true → yearTruthy w.app.selectedYear = true → race.truthy = true →
      (selectRace env race w).thrown = none ∧
      ((∃ (resp : Response) (drivers : JsValue),
        env.fetch (.drivers w.app.selectedYear (race.field "name")) = .response resp ∧
        resp.ok = true ∧ resp.json = .ok drivers ∧
        (selectRace env race w).world.app.availableDrivers = drivers) ∨
      (((env.fetch (.drivers w.app.selectedYear (race.field "name"))).failed = true ∨
        (env.fetch (.drivers w.app.selectedYear (race.field "name"))).unreadable = true) ∧
        (selectRace env race w).world.app.availableDrivers = getDefaultDrivers))) ∧
    ((w.app.useRealData = false ∨ yearTruthy w.app.selectedYear = false ∨
        race.truthy = false) →
      (selectRace env race w).world.app.availableDrivers = w.app.availableDrivers) := by
  have happ := selectRaceHead_app env race w
  refine ⟨?_, ?_, ?_⟩
  · cases hth : (selectRaceHead env race w).thrown with
    | some e =>
      unfold selectRace
      simp only [Res.andThen, hth]
      rw [happ]
    | none =>
      rw [(selectRace_app env race w hth).2]
      split
      · rw [loadAvailableDrivers_app, happ]
      · rfl
  · intro hmode hyear hrace
    have hth := selectRaceHead_thrown env race w hrace
    obtain ⟨h1, h2⟩ := selectRace_app env race w hth
    refine ⟨h1, ?_⟩
    rw [h2, if_pos hmode]
    have := loadAvailableDrivers_obtained env (selectRaceHead env race w).world
      (by rw [happ]; exact hyear) (by rw [happ]; exact hrace) (by rw [happ]; exact hmode)
    rw [happ] at this
    exact this
  · intro hguard
    cases hth : (selectRaceHead env race w).thrown with
    | some e =>
      unfold selectRace
      simp only [Res.andThen, hth]
      rw [happ]
    | none =>
      rw [(selectRace_app env race w hth).2]
      split
      · rename_i hmode
        unfold loadAvailableDrivers
        rw [if_pos, happ]
        rw [happ]
        rcases hguard with h | h | h
        · rw [hmode] at h; cases h
        · simp [h]
        · simp [h]
      · rfl

/-- C19, counterexample: REMOTE mode, the season whose identifier is the empty
string selected, `availableDrivers` still the list of the race selected before.
`selectRace` of another race returns normally and stores the race, but the
guard of `loadAvailableDrivers` returns before any request: the list is the old
one, neither empty nor obtained for this race. -/
theorem stale_driver_list_survives :
    (selectRace threeEnv imolaRace staleWorld).thrown = none ∧
    (selectRace threeEnv imolaRace staleWorld).world.app.selectedRace = imolaRace ∧
    (selectRace threeEnv imolaRace staleWorld).world.app.availableDrivers =
      .array [builtinDriver "ALO" "Fernando Alonso" "Alpine"] ∧
    fetchesOf (selectRace threeEnv imolaRace staleWorld).world.trace = [] :=
  ⟨rfl, rfl, rfl, rfl⟩

/-- A race selected on the sample session, the driver request answered with
status 500, and on the session with the empty season. -/
theorem selectRace_driver_list_witness :
    (selectRace failingEnv imolaRace sampleWorld).world.app.selectedRace = imolaRace ∧
    (selectRace failingEnv imolaRace sampleWorld).world.app.availableDrivers =
      getDefaultDrivers ∧
    (selectRace threeEnv imolaRace staleWorld).world.app.availableDrivers =
      staleWorld.app.availableDrivers :=
  ⟨(selectRace_driver_list failingEnv imolaRace sampleWorld).1,
    (((selectRace_driver_list failingEnv imolaRace sampleWorld).2.1 rfl rfl rfl).2.resolve_left
      (by rintro ⟨resp, drivers, h, hok, -⟩; cases h; cases hok)).2,
    (selectRace_driver_list threeEnv imolaRace staleWorld).2.2 (Or.inr (Or.inl rfl))⟩

/-! ## The code read back from a label -/

/-- The class `[^)]` takes a run without a closing parenthesis whole. -/
theorem takeWhile_append_stop (l : List Char) (h : ')' ∉ l) :
    (l ++ [')']).takeWhile (fun x => x != ')') = l ∧
    (l ++ [')']).dropWhile (fun x => x != ')') = [')'] := by
  induction l with
  | nil => exact ⟨rfl, rfl⟩
  | cons c cs ih =>
    have hc : c ≠ ')' := fun hc => h (hc ▸ List.mem_cons_self _ _)
    have hcs : ')' ∉ cs := fun hm => h (List.mem_cons_of_mem _ hm)
    obtain ⟨h1, h2⟩ := ih hcs
    simp only [List.cons_append, List.takeWhile_cons, List.dropWhile_cons]
    have : (c != ')') = true := by simpa using hc
    rw [this]
    exact ⟨by simp [h1], by simp [h2]⟩

/-- The capture is the code when the name has no opening parenthesis and the
code is not empty and has no closing one. -/
theorem firstGroup_label (name code : List Char) (hname : '(' ∉ name) (hne : code ≠ [])
    (hcode : ')' ∉ code) :
    firstGroup (name ++ (' ' :: '(' :: (code ++ [')']))) = some code := by
  induction name with
  | nil =>
    obtain ⟨h1, h2⟩ := takeWhile_append_stop code hcode
    simp only [List.nil_append]
    unfold firstGroup
    rw [if_neg (fun h => absurd h.1 (by decide))]
    unfold firstGroup
    rw [if_pos ⟨rfl, by rw [h1]; exact hne, by rw [h2]; simp⟩, h1]
  | cons c cs ih =>
    have hc : c ≠ '(' := fun hc => hname (hc ▸ List.mem_cons_self _ _)
    simp only [List.cons_append]
    unfold firstGroup
    rw [if_neg (fun h => hc h.1)]
    exact ih fun hm => hname (List.mem_cons_of_mem _ hm)

/-- The code is read back from a label whose name has no opening parenthesis
and whose code is not empty and has no closing one. -/
theorem matchCode_label (name code : String) (hname : '(' ∉ name.toList) (hne : code ≠ "")
    (hcode : ')' ∉ code.toList) :
    matchCode (name ++ " (" ++ code ++ ")") = .ok code := by
  unfold matchCode
  have hl : (name ++ " (" ++ code ++ ")").toList =
      name.toList ++ (' ' :: '(' :: (code.toList ++ [')'])) := by
    simp [String.toList]
  have hcl : code.toList ≠ [] := by
    intro h
    apply hne
    cases code
    simp_all [String.toList]
  rw [hl, firstGroup_label name.toList code.toList hname hcl hcode]
  rfl


/-- C20, failing input: in the sample session (REMOTE mode) the lap-time body
names the driver of the entry `PER` "Sergio (Checo) Pérez". The dataset is
keyed `PER` and labelled "Sergio (Checo) Pérez (PER)"; the handler takes the
first group in parentheses, so the code it recovers is `Checo`, and a click on
the first point of that dataset requests the telemetry of `Checo`. -/
theorem click_recovers_nickname :
    ((runDeferred nicknameEnv
      (loadRealLapTimes nicknameEnv "PER" "VER" sampleWorld).world).world.app.lapChart.map
        fun chart => chart.datasets.map fun d => (d.driverCode, d.label nicknameEnv)) =
      some [("PER", "Sergio (Checo) Pérez (PER)"), ("VER", "Max Verstappen (VER)")] ∧
    matchCode "Sergio (Checo) Pérez (PER)" = .ok "Checo" ∧
    fetchesOf (lapChartClick nicknameEnv 0 0 (runDeferred nicknameEnv
      (loadRealLapTimes nicknameEnv "PER" "VER" sampleWorld).world).world).world.trace =
      [.lapTimes (some "2021") (.str "Bahrain Grand Prix") "PER" "VER",
        .telemetry (some "2021") (.str "Bahrain Grand Prix") "Checo" (.ofNat 1)] := by
  refine ⟨?_, ?_, ?_⟩
  · decide
  · rfl
  · rfl

/-! ## The generated payload in the chart -/

/-- The laps the loop of `generateSampleLapData` builds all pass the filter of
`renderChart`. -/
theorem sampleLaps_valid (base : ℕ) (hpos : 0 < base) (hbase : base ≤ 1000) (f : ℕ → ℚ)
    (hf : ∀ i, 0 ≤ f i ∧ f i < 1) (n : ℕ) :
    ∀ lap ∈ (List.range n).map (fun i => JsValue.obj [(.name "lap", .ofNat (i + 1)),
        (.name "time", .num (.fin (doubleAdd base (doubleMul (f i) 5))))]),
      validLap lap = true := by
  intro lap hlap
  rw [List.mem_map] at hlap
  obtain ⟨i, -, rfl⟩ := hlap
  refine validLap_of_times (n := .fin (i + 1 : ℕ)) (t := .fin _) rfl rfl ?_
  have h := (sampleTime_bounds base (f i) hbase (hf i).1 (hf i).2).1
  have hb : (0 : ℚ) < base := by exact_mod_cast hpos
  simp only [JsNum.gtZero, decide_eq_true_eq]
  linarith

/-- The dataset of an entry `generateSampleLapData` builds. -/
theorem datasetOf_sampleEntry (driver color : String) (base : ℕ) (hpos : 0 < base)
    (hbase : base ≤ 1000) (f : ℕ → ℚ) (hf : ∀ i, 0 ≤ f i ∧ f i < 1) :
    ∃ ds : Dataset,
      datasetOf driver (sampleEntry driver color ((List.range 20).map (fun i =>
        JsValue.obj [(.name "lap", .ofNat (i + 1)),
          (.name "time", .num (.fin (doubleAdd base (doubleMul (f i) 5))))]))) = some ds ∧
      ds.driverCode = driver ∧ ds.driverName = .str driver ∧ ds.data.length = 20 ∧
      ds.data.map (fun pt => pt.x) = (List.range' 1 20).map JsValue.ofNat := by
  have hv := sampleLaps_valid base hpos hbase f hf 20
  have hds := datasetOf_some_of_valid driver
    (sampleEntry driver color ((List.range 20).map (fun i =>
      JsValue.obj [(.name "lap", .ofNat (i + 1)),
        (.name "time", .num (.fin (doubleAdd base (doubleMul (f i) 5))))])))
    [(.name "name", .str driver), (.name "code", .str driver), (.name "color", .str color)]
    (((List.range 20).map (fun i =>
      JsValue.obj [(.name "lap", .ofNat (i + 1)),
        (.name "time", .num (.fin (doubleAdd base (doubleMul (f i) 5))))])).map some) []
    rfl rfl (by rw [arrayElements_map_some]; exact hv)
    (by rw [arrayElements_map_some]; simp)
  refine ⟨_, hds, rfl, rfl, ?_, ?_⟩
  · show (List.map _ (arrayElements _)).length = 20
    rw [arrayElements_map_some]
    simp
  · show List.map _ (List.map _ (arrayElements _)) = _
    rw [arrayElements_map_some]
    rfl

/-- The datasets of a payload of two entries that each have one. -/
theorem buildDatasets_pair (ka kb : Key) (ea eb : JsValue) (h : ka ≠ kb) (dsa dsb : Dataset)
    (ha : datasetOf ka.toString ea = some dsa) (hb : datasetOf kb.toString eb = some dsb) :
    buildDatasets (.obj [(ka, ea), (kb, eb)]) = [dsa, dsb] := by
  unfold buildDatasets ownEntries
  simp [propGet, h, ha, hb]

/-- C22. For two distinct codes and draws in `[0, 1)`, the payload
`generateSampleLapData` returns passes the filter of `renderChart` whole: the
datasets collected are exactly two, in the order the keys are enumerated; one
is keyed and labelled with the first code, the other with the second; each has
20 points whose lap numbers are 1 to 20 in order. With a race selected
`renderChart` returns normally without an alert and builds the chart of these
datasets. -/
theorem sample_payload_renders (env : Env) (random : Nat → ℚ) (draws : Nat)
    (driver1 driver2 : String) (hne : driver1 ≠ driver2)
    (hrand : ∀ i, 0 ≤ random i ∧ random i < 1) :
    ∃ ds1 ds2 : Dataset,
      (buildDatasets (generateSampleLapData random draws driver1 driver2).1 = [ds1, ds2] ∨
        buildDatasets (generateSampleLapData random draws driver1 driver2).1 = [ds2, ds1]) ∧
      ds1.driverCode = driver1 ∧ ds1.label env = driver1 ++ " (" ++ driver1 ++ ")" ∧
      ds1.data.length = 20 ∧
      ds1.data.map (fun pt => pt.x) = (List.range' 1 20).map JsValue.ofNat ∧
      ds2.driverCode = driver2 ∧ ds2.label env = driver2 ++ " (" ++ driver2 ++ ")" ∧
      ds2.data.length = 20 ∧
      ds2.data.map (fun pt => pt.x) = (List.range' 1 20).map JsValue.ofNat ∧
      ∀ (a b : String) (isRealData : Bool) (w : World) (raceName : JsValue),
        w.app.selectedRace.getProp (.name "name") = .ok raceName →
        (renderChart (generateSampleLapData random draws driver1 driver2).1 a b isRealData
          w).thrown = none ∧
        alertsOf (renderChart (generateSampleLapData random draws driver1 driver2).1 a b
          isRealData w).world.trace = alertsOf w.trace ∧
        ∃ chart : LapChart,
          (renderChart (generateSampleLapData random draws driver1 driver2).1 a b isRealData
            w).world.app.lapChart = some chart ∧
          chart.datasets = buildDatasets (generateSampleLapData random draws driver1 driver2).1 := by
  have hk : Key.ofString driver1 ≠ Key.ofString driver2 := fun h => hne (Key.ofString_injective h)
  obtain ⟨ds1, h1, hc1, hn1, hl1, hx1⟩ := datasetOf_sampleEntry driver1 "#00D2BE" 90 (by norm_num)
    (by norm_num) (fun i => random (draws + 2 * i)) (fun i => hrand _)
  obtain ⟨ds2, h2, hc2, hn2, hl2, hx2⟩ := datasetOf_sampleEntry driver2 "#FF8700" 91 (by norm_num)
    (by norm_num) (fun i => random (draws + 2 * i + 1)) (fun i => hrand _)
  have hbuild : buildDatasets (generateSampleLapData random draws driver1 driver2).1 = [ds1, ds2] ∨
      buildDatasets (generateSampleLapData random draws driver1 driver2).1 = [ds2, ds1] := by
    unfold generateSampleLapData
    simp only [sampleLoop_closed]
    simp only [propSet, if_neg hk]
    split
    · right
      exact buildDatasets_pair _ _ _ _ hk.symm ds2 ds1
        (by rw [Key.toString_ofString]; exact_mod_cast h2)
        (by rw [Key.toString_ofString]; exact_mod_cast h1)
    · left
      exact buildDatasets_pair _ _ _ _ hk ds1 ds2
        (by rw [Key.toString_ofString]; exact_mod_cast h1)
        (by rw [Key.toString_ofString]; exact_mod_cast h2)
  refine ⟨ds1, ds2, hbuild, hc1, ?_, hl1, hx1, hc2, ?_, hl2, hx2, ?_⟩
  · simp [Dataset.label, hn1, hc1, Env.stringOf]
  · simp [Dataset.label, hn2, hc2, Env.stringOf]
  · intro a b real w n hrace
    have hnil : buildDatasets (generateSampleLapData random draws driver1 driver2).1 ≠ [] := by
      rcases hbuild with h | h <;> rw [h] <;> simp
    rw [renderChart_some _ a b real w n hnil hrace]
    exact ⟨rfl, by simp, _, rfl, rfl⟩

/-- The datasets of the payload generated for `HAM` and `VER`, every draw 0. -/
theorem sample_payload_renders_witness :
    ∃ ds1 ds2 : Dataset,
      (buildDatasets (generateSampleLapData (fun _ => 0) 0 "HAM" "VER").1 = [ds1, ds2] ∨
        buildDatasets (generateSampleLapData (fun _ => 0) 0 "HAM" "VER").1 = [ds2, ds1]) ∧
      ds1.driverCode = "HAM" ∧ ds1.label failingEnv = "HAM" ++ " (" ++ "HAM" ++ ")" ∧
      ds1.data.length = 20 ∧
      ds1.data.map (fun pt => pt.x) = (List.range' 1 20).map JsValue.ofNat ∧
      ds2.driverCode = "VER" ∧ ds2.label failingEnv = "VER" ++ " (" ++ "VER" ++ ")" ∧
      ds2.data.length = 20 ∧
      ds2.data.map (fun pt => pt.x) = (List.range' 1 20).map JsValue.ofNat := by
  obtain ⟨ds1, ds2, h⟩ := sample_payload_renders failingEnv (fun _ => 0) 0 "HAM" "VER"
    (by decide) (fun _ => ⟨le_refl _, by norm_num⟩)
  exact ⟨ds1, ds2, h.1, h.2.1, h.2.2.1, h.2.2.2.1, h.2.2.2.2.1, h.2.2.2.2.2.1, h.2.2.2.2.2.2.1,
    h.2.2.2.2.2.2.2.1, h.2.2.2.2.2.2.2.2.1⟩

/-! ## A session in FALLBACK mode -/

/-- The children of a page one container of which was assigned. -/
theorem kids_setKids (p : Page) (c : Container) (ks : List Kid) :
    ∀ k ∈ (p.setKids c ks).kids, k ∈ ks ∨ k ∈ p.kids := by
  intro k hk
  cases c with
  | driverSelection =>
    simp only [Page.setKids, Page.kids, Option.getD_some, List.mem_append] at hk ⊢
    rcases hk with h | h
    · exact Or.inl h
    · exact Or.inr (Or.inr h)
  | chart =>
    simp only [Page.setKids, Page.kids, Option.getD_some, List.mem_append] at hk ⊢
    rcases hk with h | h
    · exact Or.inr (Or.inl h)
    · exact Or.inl h

theorem getOrCreate_kids (w : World) : (getOrCreateChartContainer w).page.kids = w.page.kids := by
  unfold getOrCreateChartContainer
  split
  · rfl
  · rename_i h
    simp [Page.kids, World.setPage, h]

theorem getDriverSelectionContainer_kids (w : World) :
    (getDriverSelectionContainer w).1.page.kids = w.page.kids := by
  unfold getDriverSelectionContainer
  split
  · rfl
  · exact getOrCreate_kids w

theorem getDriverSelectionContainer_pending (w : World) :
    (getDriverSelectionContainer w).1.pending = w.pending := by
  unfold getDriverSelectionContainer
  split
  · rfl
  · simp

theorem getDriverSelectionContainer_draws (w : World) :
    (getDriverSelectionContainer w).1.draws = w.draws := by
  unfold getDriverSelectionContainer
  split
  · rfl
  · simp

/-- What holds of every child holds after the first one `f` applies to is
replaced, when `f` preserves it. -/
theorem updateFirst_mem (f : Kid → Option Kid) (P : Kid → Prop)
    (hf : ∀ k k', P k → f k = some k' → P k') (ks ks' : List Kid)
    (h : updateFirst f ks = some ks') (hks : ∀ k ∈ ks, P k) : ∀ k ∈ ks', P k := by
  induction ks generalizing ks' with
  | nil => cases h
  | cons x xs ih =>
    unfold updateFirst at h
    cases hx : f x with
    | some x' =>
      rw [hx] at h
      cases h
      intro k hk
      rcases List.mem_cons.1 hk with rfl | hk
      · exact hf x _ (hks x (List.mem_cons_self _ _)) hx
      · exact hks k (List.mem_cons_of_mem _ hk)
    | none =>
      rw [hx] at h
      cases hu : updateFirst f xs with
      | none => rw [hu] at h; cases h
      | some ys =>
        rw [hu] at h
        cases h
        intro k hk
        rcases List.mem_cons.1 hk with rfl | hk
        · exact hks _ (List.mem_cons_self _ _)
        · exact ih ys hu (fun k hk => hks k (List.mem_cons_of_mem _ hk)) k hk

theorem Page.updateFirst_kids (f : Kid → Option Kid) (P : Kid → Prop)
    (hf : ∀ k k', P k → f k = some k' → P k') (p : Page) (hp : ∀ k ∈ p.kids, P k) :
    ∀ k ∈ (p.updateFirst f).kids, P k := by
  unfold Page.updateFirst
  cases hd : p.driverSelection with
  | none =>
    simp only [Option.bind]
    cases hc : p.chartContainer with
    | none => simp [Page.kids, hd, hc]
    | some cs =>
      simp only [Option.bind]
      cases hu : F1.updateFirst f cs with
      | none => simpa [Page.kids, hd, hc] using hp
      | some cs' =>
        intro k hk
        simp only [Page.kids, hd, Option.getD_none, Option.getD_some, List.nil_append] at hk
        exact updateFirst_mem f P hf cs cs' hu
          (fun k hk => hp k (by simp [Page.kids, hd, hc, hk])) k hk
  | some ds =>
    simp only [Option.bind]
    cases hu : F1.updateFirst f ds with
    | some ds' =>
      intro k hk
      simp only [Page.kids, Option.getD_some, List.mem_append] at hk
      rcases hk with hk | hk
      · exact updateFirst_mem f P hf ds ds' hu
          (fun k hk => hp k (by simp [Page.kids, hd, hk])) k hk
      · exact hp k (by simp only [Page.kids, hd, Option.getD_some, List.mem_append]; exact Or.inr hk)
    | none =>
      cases hc : p.chartContainer with
      | none => simpa [Page.kids, hd, hc] using hp
      | some cs =>
        simp only [Option.bind]
        cases hu2 : F1.updateFirst f cs with
        | none => simpa [Page.kids, hd, hc] using hp
        | some cs' =>
          intro k hk
          simp only [Page.kids, hd, Option.getD_some, List.mem_append] at hk
          rcases hk with hk | hk
          · exact hp k (by simp [Page.kids, hd, hk])
          · exact updateFirst_mem f P hf cs cs' hu2
              (fun k hk => hp k (by simp [Page.kids, hd, hc, hk])) k hk

theorem loadTelemetry_fallback (env : Env) (code : String) (lap : JsValue) (w : World)
    (h : w.app.useRealData = false) : loadTelemetry env code lap w = done w := by
  unfold loadTelemetry
  simp [h]

theorem lapChartClick_fallback (env : Env) (i j : Nat) (w : World)
    (h : w.app.useRealData = false) : (lapChartClick env i j w).world = w := by
  unfold lapChartClick
  split
  · rfl
  · split
    · split
      · rfl
      · split
        · rfl
        · split
          · rfl
          · rw [loadTelemetry_fallback env _ _ w h]; rfl
    · rfl

/-- A select that offers the placeholder only has the empty value. -/
theorem Select.value_placeholder (s : Select) (h : s.options = [""]) : s.value = "" := by
  unfold Select.value
  rw [h]
  cases s.selectedIndex with
  | none => rfl
  | some i => cases i <;> rfl

/-- The first select found is that of a block of the page. -/
theorem driver1_placeholder (p : Page) (hp : ∀ k ∈ p.kids, k.placeholderOnly = true)
    (s : Select) (h : p.driver1 = some s) : s.options = [""] := by
  unfold Page.driver1 at h
  obtain ⟨k, hk, hs⟩ := List.exists_of_findSome?_eq_some h
  have := hp k hk
  cases k with
  | driverSection s1 s2 =>
    simp only [Kid.select1, Option.some.injEq] at hs
    subst hs
    simp only [Kid.placeholderOnly, Bool.and_eq_true, decide_eq_true_eq] at this
    exact this.1
  | _ => cases hs

/-- The second select found is that of a block of the page. -/
theorem driver2_placeholder (p : Page) (hp : ∀ k ∈ p.kids, k.placeholderOnly = true)
    (s : Select) (h : p.driver2 = some s) : s.options = [""] := by
  unfold Page.driver2 at h
  obtain ⟨k, hk, hs⟩ := List.exists_of_findSome?_eq_some h
  have := hp k hk
  cases k with
  | driverSection s1 s2 =>
    simp only [Kid.select2, Option.some.injEq] at hs
    subst hs
    simp only [Kid.placeholderOnly, Bool.and_eq_true, decide_eq_true_eq] at this
    exact this.2
  | _ => cases hs

/-- With no comparison in progress and selects that offer the placeholder
only, `compareLapTimes` does nothing but alert, and that only when the page
has both selects. -/
theorem compareLapTimes_placeholder (env : Env) (w : World)
    (hidle : w.app.isComparing = false)
    (hp : ∀ k ∈ w.page.kids, k.placeholderOnly = true) :
    compareLapTimes env w =
      done (if w.page.driver1.isSome ∧ w.page.driver2.isSome then
        w.emit (.alert "Please select both drivers") else w) := by
  unfold compareLapTimes compareLapTimesBody
  rw [if_neg (by simp [hidle])]
  simp only [setApp_page]
  cases h1 : w.page.driver1 with
  | none =>
    simp [Res.finally, done, World.setApp, app_isComparing_eta _ hidle]
  | some s1 =>
    cases h2 : w.page.driver2 with
    | none =>
      simp [Res.finally, done, World.setApp, app_isComparing_eta _ hidle]
    | some s2 =>
      have hv := Select.value_placeholder s1 (driver1_placeholder w.page hp s1 h1)
      simp [hv, Res.finally, done, World.setApp, World.emit, app_isComparing_eta _ hidle]

/-- The timer of the selects leaves their options as they are. -/
theorem withDefaults_placeholder (second : Int) (k k' : Kid) (hk : k.placeholderOnly = true)
    (h : Kid.withDefaults second k = some k') : k'.placeholderOnly = true := by
  cases k with
  | driverSection s1 s2 =>
    simp only [Kid.withDefaults, Option.some.injEq] at h
    subst h
    simpa [Kid.placeholderOnly, Select.setIndex] using hk
  | _ => cases h

theorem driverDefaults_fallback (env : Env) (w0 w : World) (h : FallbackInvariant w0 w) :
    FallbackInvariant w0 (driverDefaults env w).world := by
  obtain ⟨hm, hd, hi, hk, hp, hf, hc, hr⟩ := h
  unfold driverDefaults
  split
  · rw [hd]
    simp only [JsValue.array, List.map_nil, JsValue.getProp]
    exact ⟨hm, hd, hi,
      Page.updateFirst_kids _ (fun k => k.placeholderOnly = true)
        (withDefaults_placeholder _) w.page hk, hp, hf, hc, hr⟩
  · exact ⟨hm, hd, hi, hk, hp, hf, hc, hr⟩

theorem runDeferred_fallback (env : Env) (w0 w : World) (h : FallbackInvariant w0 w) :
    FallbackInvariant w0 (runDeferred env w).world := by
  unfold runDeferred
  split
  · exact h
  · rename_i d rest hpend
    obtain ⟨hm, hd, hi, hk, hp, hf, hc, hr⟩ := h
    have hdd : d = .driverDefaults := hp d (by rw [hpend]; exact List.mem_cons_self _ _)
    subst hdd
    exact driverDefaults_fallback env w0 { w with pending := rest }
      ⟨hm, hd, hi, hk, fun d hd' => hp d (by rw [hpend]; exact List.mem_cons_of_mem _ hd'),
        hf, hc, hr⟩

theorem setKids_fallback (w0 w : World) (c : Container) (ks : List Kid)
    (h : FallbackInvariant w0 w) (hks : ∀ k ∈ ks, k.placeholderOnly = true) :
    FallbackInvariant w0 (w.setPage (w.page.setKids c ks)) := by
  obtain ⟨hm, hd, hi, hk, hp, hf, hc, hr⟩ := h
  refine ⟨hm, hd, hi, ?_, hp, hf, hc, hr⟩
  intro k hkk
  rcases kids_setKids w.page c ks k hkk with h | h
  · exact hks k h
  · exact hk k h

theorem getDriverSelectionContainer_fallback (w0 w : World) (h : FallbackInvariant w0 w) :
    FallbackInvariant w0 (getDriverSelectionContainer w).1 := by
  obtain ⟨hm, hd, hi, hk, hp, hf, hc, hr⟩ := h
  refine ⟨by simpa using hm, by simpa using hd, by simpa using hi, ?_, ?_, by simpa using hf,
    by simpa using hc, ?_⟩
  · rw [getDriverSelectionContainer_kids]; exact hk
  · rw [getDriverSelectionContainer_pending]; exact hp
  · rw [getDriverSelectionContainer_draws]; exact hr

theorem showLoading_fallback (w0 w : World) (m : String) (c : Container)
    (h : FallbackInvariant w0 w) : FallbackInvariant w0 (showLoading m (some c) w) := by
  unfold showLoading
  exact setKids_fallback w0 w c _ h (by simp [Kid.placeholderOnly])

theorem showError_fallback (w0 w : World) (m : String) (h : FallbackInvariant w0 w) :
    FallbackInvariant w0 (showError m w) := by
  unfold showError
  exact setKids_fallback w0 _ _ _ (getDriverSelectionContainer_fallback w0 w h)
    (by simp [Kid.placeholderOnly])

theorem emit_error_fallback (w0 w : World) (m : String) (h : FallbackInvariant w0 w) :
    FallbackInvariant w0 (w.emit (.consoleError m)) := by
  obtain ⟨hm, hd, hi, hk, hp, hf, hc, hr⟩ := h
  refine ⟨hm, hd, hi, hk, hp, ?_, ?_, hr⟩
  · simp only [emit_trace, fetchesOf_append, hf]
    exact List.append_nil _
  · simp only [emit_trace, chartsOf_append, hc]
    exact List.append_nil _

theorem createDriverSelector_fallback (env : Env) (w0 w : World) (h : FallbackInvariant w0 w) :
    FallbackInvariant w0 (createDriverSelector env w).world := by
  have h1 := setKids_fallback w0 _ (getDriverSelectionContainer w).2 []
    (getDriverSelectionContainer_fallback w0 w h) (by simp)
  unfold createDriverSelector
  simp only []
  have hd : ((getDriverSelectionContainer w).1.setPage
      ((getDriverSelectionContainer w).1.page.setKids (getDriverSelectionContainer w).2
        [])).app.availableDrivers = .array [] := h1.2.1
  rw [hd]
  have hopt : getDriverOptions env (.array []) = .ok [""] := rfl
  rw [hopt]
  simp only []
  have h2 := setKids_fallback w0 _ (getDriverSelectionContainer w).2
    [.driverSection ⟨[""], some 0⟩ ⟨[""], some 0⟩] h1 (by simp [Kid.placeholderOnly])
  obtain ⟨hm, hdr, hi, hk, hp, hf, hc, hr⟩ := h2
  refine ⟨hm, hdr, hi, hk, ?_, hf, hc, hr⟩
  intro d hd'
  simp only [done_world, defer_pending, List.mem_append, List.mem_singleton] at hd'
  rcases hd' with hd' | hd'
  · exact hp d hd'
  · exact hd'

theorem loadRaceData_fallback (env : Env) (w0 w : World) (h : FallbackInvariant w0 w) :
    FallbackInvariant w0 (loadRaceData env w) := by
  unfold loadRaceData
  split
  · exact h
  · simp only []
    refine Res.catch_world (FallbackInvariant w0) ?_ ?_
    · apply createDriverSelector_fallback
      split
      · exact showLoading_fallback w0 w _ _ h
      · exact h
    · intro e v hv
      exact showError_fallback w0 _ _ (emit_error_fallback w0 v _ hv)

theorem selectRaceHead_fallback (env : Env) (race : JsValue) (w0 w : World)
    (h : FallbackInvariant w0 w) : FallbackInvariant w0 (selectRaceHead env race w).world := by
  have h0 : FallbackInvariant w0 (w.setApp { w.app with selectedRace := race }) := h
  unfold selectRaceHead
  simp only []
  refine Res.andThen_world (FallbackInvariant w0) ?_ ?_
  · split
    · split
      · exact h0
      · exact h0
    · exact h0
  · intro v hv
    have hv' : FallbackInvariant w0
        (v.setPage { v.page with analysisVisible := v.page.analysisVisible.map fun _ => true }) :=
      hv
    split
    · split
      · exact hv'
      · exact showLoading_fallback w0 _ _ _ hv'
    · exact hv'

theorem selectRace_fallback (env : Env) (race : JsValue) (w0 w : World)
    (h : FallbackInvariant w0 w) : FallbackInvariant w0 (selectRace env race w).world := by
  unfold selectRace
  refine Res.andThen_world (FallbackInvariant w0) (selectRaceHead_fallback env race w0 w h) ?_
  intro v hv
  refine Res.catch_world (FallbackInvariant w0) ?_ ?_
  · show FallbackInvariant w0 (loadRaceData env _)
    apply loadRaceData_fallback
    rw [if_neg (by simp [hv.1])]
    exact hv
  · intro e u hu
    split
    · exact emit_error_fallback w0 u _ hu
    · exact showError_fallback w0 _ _ (emit_error_fallback w0 u _ hu)

theorem appendRaceLinks_fallback (w0 w : World) (links : List GpLink) (races : List JsValue)
    (h : FallbackInvariant w0 w) :
    FallbackInvariant w0 (appendRaceLinks w links races).world := by
  induction races generalizing links with
  | nil => exact h
  | cons race rest ih =>
    unfold appendRaceLinks
    split
    · exact h
    · exact ih _

theorem populateGPDropdown_fallback (env : Env) (year : String) (w0 w : World)
    (h : FallbackInvariant w0 w) :
    FallbackInvariant w0 (populateGPDropdown env year w).world := by
  have h1 : FallbackInvariant w0 (w.setPage { w.page with gpDropdown := some [] }) := h
  unfold populateGPDropdown
  split
  · exact h
  · simp only []
    split
    · exact h1
    · split
      · split
        · exact appendRaceLinks_fallback w0 _ _ _ h1
        · exact h1
      · exact h1

theorem selectYearTry_fallback (env : Env) (year : String) (w0 w : World)
    (h : FallbackInvariant w0 w) : FallbackInvariant w0 (selectYearTry env year w).world := by
  unfold selectYearTry
  split
  · exact h
  · simp only []
    refine Res.andThen_world (FallbackInvariant w0) ?_ (fun v hv => hv)
    apply populateGPDropdown_fallback
    split
    · rw [if_neg (by simp [h.1])]
      exact h
    · exact h

theorem selectYear_fallback (env : Env) (year : String) (w0 w : World)
    (h : FallbackInvariant w0 w) : FallbackInvariant w0 (selectYear env year w).world := by
  unfold selectYear
  simp only []
  refine Res.andThen_world (FallbackInvariant w0) ?_ (fun v hv => hv)
  show FallbackInvariant w0 (Res.finally _ _).world
  rw [finally_world]
  show FallbackInvariant w0 (Res.catch _ _).world
  refine Res.catch_world (FallbackInvariant w0) ?_ ?_
  · exact selectYearTry_fallback env year w0 _ h
  · intro e v hv
    exact emit_error_fallback w0 v _ hv

/-- Every call preserves the invariant of a session in FALLBACK mode. -/
theorem perform_fallback (env : Env) (w0 w : World) (a : Action) (h : FallbackInvariant w0 w) :
    FallbackInvariant w0 (perform env w a) := by
  cases a with
  | selectYear year => exact selectYear_fallback env year w0 w h
  | selectRace race => exact selectRace_fallback env race w0 w h
  | compareLapTimes =>
    show FallbackInvariant w0 (compareLapTimes env w).world
    rw [compareLapTimes_placeholder env w h.2.2.1 h.2.2.2.1, done_world]
    split
    · obtain ⟨hm, hd, hi, hk, hp, hf, hc, hr⟩ := h
      refine ⟨hm, hd, hi, hk, hp, ?_, ?_, hr⟩
      · simp only [emit_trace, fetchesOf_append, hf]
        exact List.append_nil _
      · simp only [emit_trace, chartsOf_append, hc]
        exact List.append_nil _
    · exact h
  | loadTelemetry code lap =>
    show FallbackInvariant w0 (loadTelemetry env code lap w).world
    rw [loadTelemetry_fallback env code lap w h.1]
    exact h
  | click i j =>
    show FallbackInvariant w0 (lapChartClick env i j w).world
    rw [lapChartClick_fallback env i j w h.1]
    exact h
  | callback => exact runDeferred_fallback env w0 w h

/-- Every sequence of calls preserves the invariant. -/
theorem session_fallback (env : Env) (w0 w : World) (actions : List Action)
    (h : FallbackInvariant w0 w) : FallbackInvariant w0 (session env w actions) := by
  induction actions generalizing w with
  | nil => exact h
  | cons a rest ih => exact ih _ (perform_fallback env w0 w a h)

/-- C21. A session in FALLBACK mode that starts with the empty driver list of
the constructor, no comparison in progress, no select offering anything but
the placeholder and nothing waiting but the timer of the selects. After any
sequence of `selectYear`, `selectRace`, `compareLapTimes`, `loadTelemetry`,
clicks on the lap chart and callbacks: the mode is FALLBACK and
`availableDrivers` is empty; a select the page has offers the one option with
the empty value, and its value is empty; no request was sent, no chart built
and no random number drawn since the start; and a call of `compareLapTimes`
does nothing but show the alert of an empty selection (nothing at all when the
page lacks a select). -/
theorem fallback_session_never_compares (env : Env) (w0 : World) (actions : List Action)
    (hmode : w0.app.useRealData = false) (hdrivers : w0.app.availableDrivers = .array [])
    (hidle : w0.app.isComparing = false)
    (hpage : ∀ k ∈ w0.page.kids, k.placeholderOnly = true)
    (hpending : ∀ d ∈ w0.pending, d = Deferred.driverDefaults) :
    (session env w0 actions).app.useRealData = false ∧
    (session env w0 actions).app.availableDrivers = .array [] ∧
    (∀ s : Select,
      ((session env w0 actions).page.driver1 = some s ∨
        (session env w0 actions).page.driver2 = some s) →
      s.options = [""] ∧ s.value = "") ∧
    fetchesOf (session env w0 actions).trace = fetchesOf w0.trace ∧
    chartsOf (session env w0 actions).trace = chartsOf w0.trace ∧
    (session env w0 actions).draws = w0.draws ∧
    compareLapTimes env (session env w0 actions) =
      done (if (session env w0 actions).page.driver1.isSome ∧
          (session env w0 actions).page.driver2.isSome then
        (session env w0 actions).emit (.alert "Please select both drivers")
      else session env w0 actions) := by
  have h := session_fallback env w0 w0 actions
    ⟨hmode, hdrivers, hidle, hpage, hpending, rfl, rfl, rfl⟩
  obtain ⟨hm, hd, hi, hk, -, hf, hc, hr⟩ := h
  refine ⟨hm, hd, ?_, hf, hc, hr, compareLapTimes_placeholder env _ hi hk⟩
  intro s hs
  have ho : s.options = [""] := by
    rcases hs with hs | hs
    · exact driver1_placeholder _ hk s hs
    · exact driver2_placeholder _ hk s hs
  exact ⟨ho, Select.value_placeholder s ho⟩

/-- The short session on the bare page. -/
theorem fallback_session_never_compares_witness :
    (session failingEnv fallbackStartWorld sampleActions).app.availableDrivers = .array [] ∧
    fetchesOf (session failingEnv fallbackStartWorld sampleActions).trace = [] ∧
    (session failingEnv fallbackStartWorld sampleActions).draws = 0 :=
  ⟨(fallback_session_never_compares failingEnv fallbackStartWorld sampleActions rfl rfl rfl
      (fun k hk => by simp [fallbackStartWorld, barePage, Page.kids] at hk)
      (fun d hd => by simp [fallbackStartWorld] at hd)).2.1,
    (fallback_session_never_compares failingEnv fallbackStartWorld sampleActions rfl rfl rfl
      (fun k hk => by simp [fallbackStartWorld, barePage, Page.kids] at hk)
      (fun d hd => by simp [fallbackStartWorld] at hd)).2.2.2.1,
    (fallback_session_never_compares failingEnv fallbackStartWorld sampleActions rfl rfl rfl
      (fun k hk => by simp [fallbackStartWorld, barePage, Page.kids] at hk)
      (fun d hd => by simp [fallbackStartWorld] at hd)).2.2.2.2.2.1⟩

/-! ## The bundled resource filtered to the pair -/

/-- A string with a character that is not a digit denotes a name. -/
theorem Key.ofString_name (s : String) (h : s.data.all Char.isDigit = false) :
    Key.ofString s = .name s := by
  unfold Key.ofString String.toNat?
  rw [if_neg (by simp [String.isNat, String.all_eq, h])]

/-- A name no entry of a list has reads as `undefined`. -/
theorem namedGet_of_not_any (n : String) (l : List (String × JsValue))
    (h : (l.any fun kv => decide (kv.1 = n)) = false) : namedGet n l = .undefined := by
  induction l with
  | nil => rfl
  | cons kv rest ih =>
    simp only [List.any_cons, Bool.or_eq_false_iff, decide_eq_false_iff_not] at h
    unfold namedGet
    rw [if_neg h.1]
    exact ih h.2

/-- Under a code that names nothing an object inherits, the read through the
prototype chain is the read of the own property. -/
theorem inheritedGet_of_not_inherited (code : String) (props : List (Key × JsValue))
    (h : inheritedName code = false) :
    inheritedGet (Key.ofString code) props = propGet (Key.ofString code) props := by
  simp only [inheritedName, Bool.or_eq_false_iff] at h
  unfold inheritedGet
  split
  · rfl
  · rename_i hhas
    rw [propGet_of_not_has _ _ (by simpa using hhas)]
    have hs := Key.toString_ofString code
    cases hk : Key.ofString code with
    | idx i => rfl
    | name n =>
      rw [hk] at hs
      simp only [Key.toString] at hs
      subst hs
      exact namedGet_of_not_any _ _ h.2

/-- A code that names nothing inherited is not `__proto__`. -/
theorem ne_proto_of_not_inherited (code : String) (h : inheritedName code = false) :
    code ≠ "__proto__" := by
  simp only [inheritedName, Bool.or_eq_false_iff, decide_eq_false_iff_not] at h
  exact h.1

/-- Away from the names an object inherits: with a race selected, when the
bundled file of the season parses to an object whose entries are objects and
neither code names a function of `Object.prototype` or `__proto__`,
`loadSampleLapTimes(a, b)` returns normally and hands to the chart (queues the
rendering of) an object whose keys are exactly those of the two codes that are
keys of the resource, each once and each with the value the resource holds
under it; no random number is drawn, no error logged and no alert shown. -/
theorem loadSampleLapTimes_filters (env : Env) (a b : String) (w : World) (n : JsValue)
    (resp : Response) (props : List (Key × JsValue))
    (hrace : w.app.selectedRace.getProp (.name "name") = .ok n)
    (hfetch : env.fetch (.lapTimesFile w.app.selectedYear) = .response resp)
    (hjson : resp.json = .ok (.obj props))
    (hentries : ∀ kv ∈ props, ∃ fields, kv.2 = .obj fields)
    (ha : inheritedName a = false) (hb : inheritedName b = false) :
    ∃ lapData : List (Key × JsValue),
      (loadSampleLapTimes env a b w).thrown = none ∧
      (loadSampleLapTimes env a b w).world.pending =
        w.pending ++ [.lapChartTimer (.obj lapData) a b false] ∧
      (∀ k, k ∈ lapData.map Prod.fst ↔
        (k = Key.ofString a ∨ k = Key.ofString b) ∧ k ∈ props.map Prod.fst) ∧
      (lapData.map Prod.fst).Nodup ∧
      (∀ kv ∈ lapData, kv.2 = propGet kv.1 props) ∧
      (loadSampleLapTimes env a b w).world.draws = w.draws ∧
      errorsOf (loadSampleLapTimes env a b w).world.trace = errorsOf w.trace ∧
      alertsOf (loadSampleLapTimes env a b w).world.trace = alertsOf w.trace := by
  obtain ⟨lapData, hfil, hmem, hnodup⟩ := filterDrivers_obj props a b
  obtain ⟨v, hv, -, -, hpe, hdr, hal, -, her⟩ :=
    loadSampleLapTimes_success env a b w n resp props lapData hrace hfetch hjson hfil
  have hown : ∀ k, (k = Key.ofString a ∨ k = Key.ofString b) →
      inheritedGet k props = propGet k props := by
    rintro k (rfl | rfl)
    · exact inheritedGet_of_not_inherited a props ha
    · exact inheritedGet_of_not_inherited b props hb
  have hcode : ∀ k, ((a ≠ "__proto__" ∧ k = Key.ofString a) ∨
      (b ≠ "__proto__" ∧ k = Key.ofString b)) ↔ (k = Key.ofString a ∨ k = Key.ofString b) := by
    intro k
    constructor
    · rintro (⟨-, h⟩ | ⟨-, h⟩)
      · exact Or.inl h
      · exact Or.inr h
    · rintro (h | h)
      · exact Or.inl ⟨ne_proto_of_not_inherited a ha, h⟩
      · exact Or.inr ⟨ne_proto_of_not_inherited b hb, h⟩
  refine ⟨lapData, by rw [hv]; rfl, by rw [hv]; simp [hpe], ?_, hnodup, ?_,
    by rw [hv]; simp [hdr], by rw [hv]; simp [her], by rw [hv]; simp [hal]⟩
  · intro k
    simp only [List.mem_map, Prod.exists, exists_and_right, exists_eq_right]
    constructor
    · rintro ⟨v', hv'⟩
      obtain ⟨hk, hval, htruthy⟩ := (hmem k v').1 hv'
      have hk' := (hcode k).1 hk
      rw [hown k hk'] at hval
      refine ⟨hk', ?_⟩
      rcases propGet_mem k props with hu | hm
      · rw [hval, hu] at htruthy; simp [JsValue.truthy] at htruthy
      · exact ⟨_, hm⟩
    · rintro ⟨hk, v', hv'⟩
      refine ⟨inheritedGet k props, (hmem k _).2 ⟨(hcode k).2 hk, rfl, ?_⟩⟩
      rw [hown k hk]
      have hm := propGet_mem_of_key k props
        (by simp only [List.mem_map, Prod.exists, exists_and_right, exists_eq_right]
            exact ⟨v', hv'⟩)
      obtain ⟨fields, hf⟩ := hentries _ hm
      simp only at hf
      rw [hf]; rfl
  · intro kv hkv
    obtain ⟨hk, hval, -⟩ := (hmem kv.1 kv.2).1 hkv
    rw [hval, hown kv.1 ((hcode kv.1).1 hk)]

/-- The load above on the sample session and a resource with `HAM`, `VER` and
`LEC`, for the pair `HAM` and `ZZZ`. -/
theorem loadSampleLapTimes_filters_witness :
    ∃ lapData : List (Key × JsValue),
      (loadSampleLapTimes resourceEnv "HAM" "ZZZ" sampleWorld).thrown = none ∧
      (loadSampleLapTimes resourceEnv "HAM" "ZZZ" sampleWorld).world.pending =
        sampleWorld.pending ++ [.lapChartTimer (.obj lapData) "HAM" "ZZZ" false] ∧
      (∀ k, k ∈ lapData.map Prod.fst ↔
        (k = Key.ofString "HAM" ∨ k = Key.ofString "ZZZ") ∧ k ∈ sampleResource.map Prod.fst) ∧
      (lapData.map Prod.fst).Nodup ∧
      (∀ kv ∈ lapData, kv.2 = propGet kv.1 sampleResource) ∧
      (loadSampleLapTimes resourceEnv "HAM" "ZZZ" sampleWorld).world.draws = sampleWorld.draws ∧
      errorsOf (loadSampleLapTimes resourceEnv "HAM" "ZZZ" sampleWorld).world.trace =
        errorsOf sampleWorld.trace ∧
      alertsOf (loadSampleLapTimes resourceEnv "HAM" "ZZZ" sampleWorld).world.trace =
        alertsOf sampleWorld.trace :=
  loadSampleLapTimes_filters resourceEnv "HAM" "ZZZ" sampleWorld _ _ sampleResource rfl rfl rfl
    (by
      intro kv hkv
      simp only [sampleResource, List.mem_cons, List.mem_singleton, List.not_mem_nil,
        or_false] at hkv
      rcases hkv with rfl | rfl | rfl <;> exact ⟨_, rfl⟩)
    (by decide) (by decide)

/-- C7, failing input: in the sample session in FALLBACK mode the bundled file
has entries for `HAM`, `VER` and `LEC`, and the pair `HAM` and `toString` is
loaded. `toString` is not a code of the resource, but the read
`allLapData['toString']` finds the function every object inherits, which is
truthy and is copied: the data handed to the chart has the keys `HAM` and
`toString`, the second holding that function. Nothing is thrown or logged. -/
theorem loadSampleLapTimes_copies_inherited :
    (loadSampleLapTimes resourceEnv "HAM" "toString" fallbackRaceWorld).thrown = none ∧
    (loadSampleLapTimes resourceEnv "HAM" "toString" fallbackRaceWorld).world.pending =
      [.lapChartTimer
        (.obj [(.name "HAM", propGet (.name "HAM") sampleResource),
          (.name "toString", .fn "toString" 0)]) "HAM" "toString" false] ∧
    (ownEntries (.obj [(.name "HAM", propGet (.name "HAM") sampleResource),
      (.name "toString", .fn "toString" 0)])).map Prod.fst = ["HAM", "toString"] ∧
    propHas (.name "toString") sampleResource = false ∧
    errorsOf (loadSampleLapTimes resourceEnv "HAM" "toString" fallbackRaceWorld).world.trace
      = [] := by
  have hfil : filterDrivers (.obj sampleResource) "HAM" "toString" =
      .ok (.obj [(.name "HAM", propGet (.name "HAM") sampleResource),
        (.name "toString", .fn "toString" 0)]) := by
    unfold filterDrivers
    simp only [copyDriver_obj]
    rw [Key.ofString_name "HAM" rfl, Key.ofString_name "toString" rfl]
    rfl
  obtain ⟨v, hv, -, -, hpe, -, -, -, her⟩ :=
    loadSampleLapTimes_success resourceEnv "HAM" "toString" fallbackRaceWorld
      (.str "Bahrain Grand Prix") ⟨200, .ok "", .ok (.obj sampleResource)⟩ sampleResource _
      rfl rfl rfl hfil
  rw [hv]
  refine ⟨rfl, ?_, rfl, rfl, ?_⟩
  · simp only [done_world, defer_pending, hpe]
    rfl
  · simp only [done_world, defer_trace, her]
    rfl

end F1
